import Mathlib

/-!
# Verification of the `rohitcoder/cvss` score-calculation library

This file gives a shallow embedding in Lean 4 of the TypeScript sources
`src/score-calculator.ts` and `src/validator.ts` of the `rohitcoder/cvss`
repository, together with theorems settling the frozen claims C1-C10.

Modelling conventions:
* JavaScript `number` values are modelled as `Option ℚ`: `some q` is the
  exact rational value, `none` stands for `NaN` (the result of arithmetic on
  `undefined` table lookups).  The floating-point computations of the source
  are modelled by exact rational arithmetic; the rounding functions absorb
  the sub-epsilon differences on all values relevant to the claims.
* JavaScript strings are Lean `String`s; the splitting/search functions used
  by the source (`split`, `indexOf`, `slice`, `substring`) are re-implemented
  on `List Char` below with the same behaviour.
* JavaScript objects / `Map`s are association lists; assignment replaces an
  existing binding in place (only membership and lookup are observable).
* Thrown exceptions are modelled with `Except`; `undefined` property reads
  feeding arithmetic are modelled with `none` (NaN) as in the source.

The repository files `models.ts`, `parser.ts` and `humanizer.ts` are not part
of the given sources; every definition translated from them is marked with a
doc comment starting `Modelled from the spec:`.
-/

set_option autoImplicit false

namespace Cvss

instance {ε α : Type} [DecidableEq ε] [DecidableEq α] : DecidableEq (Except ε α) := fun a b =>
  match a, b with
  | .error x, .error y =>
    if h : x = y then .isTrue (by rw [h]) else .isFalse (by intro hc; cases hc; exact h rfl)
  | .ok x, .ok y =>
    if h : x = y then .isTrue (by rw [h]) else .isFalse (by intro hc; cases hc; exact h rfl)
  | .error _, .ok _ => .isFalse (by intro hc; cases hc)
  | .ok _, .error _ => .isFalse (by intro hc; cases hc)

/-! ## JavaScript number algebra (`Option ℚ`, `none` = NaN) -/

/-- JS addition; NaN propagates. -/
def jsAdd : Option ℚ → Option ℚ → Option ℚ
  | some a, some b => some (a + b)
  | _, _ => none

/-- JS subtraction; NaN propagates. -/
def jsSub : Option ℚ → Option ℚ → Option ℚ
  | some a, some b => some (a - b)
  | _, _ => none

/-- JS multiplication; NaN propagates. -/
def jsMul : Option ℚ → Option ℚ → Option ℚ
  | some a, some b => some (a * b)
  | _, _ => none

/-- JS division; NaN propagates.  Division by zero is also mapped to `none`;
at every division site of the source the divisor is a fixed nonzero table
constant, so this case is unreachable. -/
def jsDiv : Option ℚ → Option ℚ → Option ℚ
  | some a, some b => if b = 0 then none else some (a / b)
  | _, _ => none

/-- JS `x < 0` test: false on NaN. -/
def jsIsNeg : Option ℚ → Bool
  | some a => decide (a < 0)
  | none => false

/-- JS `x <= c` test: false on NaN. -/
def jsLe (x : Option ℚ) (c : ℚ) : Bool :=
  match x with
  | some a => decide (a ≤ c)
  | none => false

/-- JS `x > y` test: false if either side is NaN. -/
def jsGt : Option ℚ → Option ℚ → Bool
  | some a, some b => decide (b < a)
  | _, _ => false

/-- JS `Math.min(x, c)` for a real constant `c`; NaN propagates. -/
def jsMin (x : Option ℚ) (c : ℚ) : Option ℚ :=
  match x with
  | some a => some (min a c)
  | none => none

/-- JS `Math.round`: round half towards positive infinity.  (`Rat.floor` is
used rather than `Int.floor` so that the definition evaluates by kernel
reduction; the two agree by `Rat.floor_def`/`Rat.floor_def'`.) -/
def jsRound (q : ℚ) : ℤ := Rat.floor (q + 1/2)

/-- JS `Math.round(v * 10) / 10` on a possibly-NaN value. -/
def jsRound10 : Option ℚ → Option ℚ
  | some v => some ((jsRound (v * 10) : ℚ) / 10)
  | none => none

/-! ## String utilities (JS `split`, `indexOf`, `slice`) on `List Char` -/

/-- Auxiliary for `String.prototype.split('/')`: accumulator-based splitter. -/
def splitSlashAux : List Char → List Char → List (List Char)
  | [], acc => [acc.reverse]
  | c :: t, acc => if c = '/' then acc.reverse :: splitSlashAux t [] else splitSlashAux t (c :: acc)

/-- JS `s.split('/')` (never returns an empty list). -/
def splitSlash (s : String) : List String :=
  (splitSlashAux s.data []).map String.mk

/-- Auxiliary for `String.prototype.split(':')`. -/
def splitColonAux : List Char → List Char → List (List Char)
  | [], acc => [acc.reverse]
  | c :: t, acc => if c = ':' then acc.reverse :: splitColonAux t [] else splitColonAux t (c :: acc)

/-- JS `s.split(':')`. -/
def splitColon (s : String) : List String :=
  (splitColonAux s.data []).map String.mk

/-- Is `p` a prefix of `l`? (Decidable, structural.) -/
def isPrefixList : List Char → List Char → Bool
  | [], _ => true
  | _ :: _, [] => false
  | p :: ps, c :: cs => p = c && isPrefixList ps cs

/-- JS `s.startsWith(p)`. -/
def jsStartsWith (s p : String) : Bool := isPrefixList p.data s.data

/-- First index at which the pattern occurs, JS `indexOf` (as `Option`). -/
def indexOfSeq (pat : List Char) : List Char → Option ℕ
  | [] => if pat = [] then some 0 else none
  | c :: t =>
    if isPrefixList pat (c :: t) then some 0
    else (indexOfSeq pat t).map Nat.succ

/-- First index of a single character, JS `indexOf` (as `Option`). -/
def indexOfChar (ch : Char) : List Char → Option ℕ
  | [] => none
  | c :: t => if c = ch then some 0 else (indexOfChar ch t).map Nat.succ

/-- JS `s.includes(p)` for a string pattern. -/
def jsIncludes (s p : String) : Bool := (indexOfSeq p.data s.data).isSome

/-! ## JS objects as association lists -/

/-- A JS `Record<string, string>` whose stored values may be `undefined`
(`none`).  Later assignments overwrite in place. -/
abbrev Rec := List (String × Option String)

/-- `key in obj` (key presence, even when the stored value is `undefined`). -/
def hasKeyRec (r : Rec) (k : String) : Bool := r.any (fun p => p.1 = k)

/-- `obj[key]`: `none` both for a missing key and for a stored `undefined`. -/
def getRec (r : Rec) (k : String) : Option String :=
  match r.find? (fun p => p.1 = k) with
  | some p => p.2
  | none => none

/-- `obj[key] = value`: replace an existing binding, else append. -/
def setRec (r : Rec) (k : String) (v : Option String) : Rec :=
  match r with
  | [] => [(k, v)]
  | p :: t => if p.1 = k then (k, v) :: t else p :: setRec t k v

/-! ## CVSS v4.0 validation (`validateVectorV4`, identical in both source files) -/

/-- Modelled from the spec: `models.ts` (not under `src/`) exports
`expectedMetricOrder`, the "fixed canonical master order" of all CVSS:4.0
metric keys together with each key's allowed value set (spec §3 "Metric
Catalog", §6 "v4 requires exact canonical ordering of recognized keys and all
11 base keys present").  The canonical CVSS:4.0 ordering and value sets are
those of the published CVSS v4.0 specification that the spec refers to. -/
def expectedMetricOrder : List (String × List String) :=
  [("AV", ["N", "A", "L", "P"]),
   ("AC", ["L", "H"]),
   ("AT", ["N", "P"]),
   ("PR", ["N", "L", "H"]),
   ("UI", ["N", "P", "A"]),
   ("VC", ["H", "L", "N"]),
   ("VI", ["H", "L", "N"]),
   ("VA", ["H", "L", "N"]),
   ("SC", ["H", "L", "N"]),
   ("SI", ["H", "L", "N"]),
   ("SA", ["H", "L", "N"]),
   ("E", ["X", "A", "P", "U"]),
   ("CR", ["X", "H", "M", "L"]),
   ("IR", ["X", "H", "M", "L"]),
   ("AR", ["X", "H", "M", "L"]),
   ("MAV", ["X", "N", "A", "L", "P"]),
   ("MAC", ["X", "L", "H"]),
   ("MAT", ["X", "N", "P"]),
   ("MPR", ["X", "N", "L", "H"]),
   ("MUI", ["X", "N", "P", "A"]),
   ("MVC", ["X", "H", "L", "N"]),
   ("MVI", ["X", "H", "L", "N"]),
   ("MVA", ["X", "H", "L", "N"]),
   ("MSC", ["X", "H", "L", "N"]),
   ("MSI", ["X", "S", "H", "L", "N"]),
   ("MSA", ["X", "S", "H", "L", "N"]),
   ("S", ["X", "N", "P"]),
   ("AU", ["X", "N", "Y"]),
   ("R", ["X", "A", "U", "I"]),
   ("V", ["X", "D", "C"]),
   ("RE", ["X", "L", "M", "H"]),
   ("U", ["X", "Clear", "Green", "Amber", "Red"])]

/-- The mandatory v4 base metrics (literal list in `validateVectorV4`). -/
def mandatoryMetricsV4 : List String :=
  ["AV", "AC", "AT", "PR", "UI", "VC", "VI", "VA", "SC", "SI", "SA"]

/-- The distinct error messages produced by `validateVectorV4`; each
constructor corresponds to one message template of the source:
`invalidVPrefix` = "Invalid vector prefix",
`repeatedMetric k` = "Invalid vector, repeated metric: k",
`outOfSequence k` = "Invalid vector, metric out of sequence: k",
`unexpectedMetric k` = "Invalid vector, unexpected metric: k",
`badValue k v` = "Invalid vector, for key k, value v is not in [...]",
`missingMandatory ks` = "Invalid vector, missing mandatory metrics: ks". -/
inductive V4Error where
  | invalidVPrefix : V4Error
  | repeatedMetric : String → V4Error
  | outOfSequence : String → V4Error
  | unexpectedMetric : String → V4Error
  | badValue : String → Option String → V4Error
  | missingMandatory : List String → V4Error
deriving DecidableEq

/-- Result of `validateVectorV4`: `{valid: true, selectedMetrics}` or
`{valid: false, error}`. -/
inductive V4Result where
  | ok : Rec → V4Result
  | err : V4Error → V4Result
deriving DecidableEq

/-- `metric.split(":")` destructured as `const [key, value]`. -/
def keyValOf (seg : String) : String × Option String :=
  match splitColon seg with
  | [] => ("", none)
  | k :: rest => (k, rest.head?)

/-- JS `while (expectedIndex < n && expectedEntries[expectedIndex][0] !== key) expectedIndex++`:
drop entries until the head key matches. -/
def advanceTo (key : String) : List (String × List String) → List (String × List String)
  | [] => []
  | e :: t => if e.1 = key then e :: t else advanceTo key t

/-- The per-metric loop of `validateVectorV4`.  `pending` is the suffix of
`expectedEntries` from the current `expectedIndex`. -/
def validateLoopV4 : List String → List (String × List String) → Rec → V4Result
  | [], _, toSelect =>
    match mandatoryMetricsV4.filter (fun mk => !hasKeyRec toSelect mk) with
    | [] => .ok toSelect
    | missing => .err (.missingMandatory missing)
  | seg :: rest, pending, toSelect =>
    let kv := keyValOf seg
    if hasKeyRec toSelect kv.1 then .err (.repeatedMetric kv.1)
    else
      match advanceTo kv.1 pending with
      | [] => .err (.outOfSequence kv.1)
      | _e :: t =>
        match (expectedMetricOrder.find? (fun p => p.1 = kv.1)) with
        | none => .err (.unexpectedMetric kv.1)
        | some entry =>
          match kv.2 with
          | some v =>
            if entry.2.contains v then
              validateLoopV4 rest t (setRec toSelect kv.1 (some v))
            else .err (.badValue kv.1 (some v))
          | none => .err (.badValue kv.1 none)

/-- `validateVectorV4` (present verbatim in both `score-calculator.ts` and
`validator.ts`): checks the `CVSS:4.0` prefix, then walks the metrics in
canonical order rejecting repeats, out-of-sequence/unknown keys and bad
values, and finally checks the eleven mandatory metrics. -/
def validateVectorV4 (vectorString : String) : V4Result :=
  match splitSlash vectorString with
  | [] => .err .invalidVPrefix
  | pre :: metrics =>
    if pre = "CVSS:4.0" then validateLoopV4 metrics expectedMetricOrder []
    else .err .invalidVPrefix

/-- `parseVectorV4`: split the vector, drop the prefix, store every
`key:value` pair, then default `E`, `CR`, `IR`, `AR` to `"X"`. -/
def parseVectorV4 (vector : String) : Rec :=
  let metrics := (splitSlash vector).tail
  let sel := metrics.foldl (fun acc seg => let kv := keyValOf seg; setRec acc kv.1 kv.2) []
  let sel := if hasKeyRec sel "E" then sel else setRec sel "E" (some "X")
  let sel := if hasKeyRec sel "CR" then sel else setRec sel "CR" (some "X")
  let sel := if hasKeyRec sel "IR" then sel else setRec sel "IR" (some "X")
  if hasKeyRec sel "AR" then sel else setRec sel "AR" (some "X")

/-- `m(cvssSelected, metric)`: effective metric value — `E`/`CR`/`IR`/`AR`
default from `X` to the worst case, and a present, non-`X` modified metric
`M<metric>` overrides the base value. -/
def m (cvssSelected : Rec) (metric : String) : Option String :=
  let selected := getRec cvssSelected metric
  if metric = "E" && selected = some "X" then some "A"
  else if metric = "CR" && selected = some "X" then some "H"
  else if metric = "IR" && selected = some "X" then some "H"
  else if metric = "AR" && selected = some "X" then some "H"
  else if hasKeyRec cvssSelected ("M" ++ metric) &&
          getRec cvssSelected ("M" ++ metric) ≠ some "X" then
    getRec cvssSelected ("M" ++ metric)
  else selected

/-- `m(sel, k) == "v"` (JS loose equality of a possibly-undefined value with
a string literal). -/
def mIs (sel : Rec) (metric v : String) : Bool := m sel metric = some v

/-- EQ1 digit of `macroVector`. -/
def eq1Of (sel : Rec) : ℕ :=
  if mIs sel "AV" "N" && mIs sel "PR" "N" && mIs sel "UI" "N" then 0
  else if (mIs sel "AV" "N" || mIs sel "PR" "N" || mIs sel "UI" "N") &&
          !(mIs sel "AV" "N" && mIs sel "PR" "N" && mIs sel "UI" "N") &&
          !(mIs sel "AV" "P") then 1
  else if mIs sel "AV" "P" ||
          !(mIs sel "AV" "N" || mIs sel "PR" "N" || mIs sel "UI" "N") then 2
  else 0

/-- EQ2 digit of `macroVector`. -/
def eq2Of (sel : Rec) : ℕ :=
  if mIs sel "AC" "L" && mIs sel "AT" "N" then 0
  else if !(mIs sel "AC" "L" && mIs sel "AT" "N") then 1
  else 0

/-- EQ3 digit of `macroVector`. -/
def eq3Of (sel : Rec) : ℕ :=
  if mIs sel "VC" "H" && mIs sel "VI" "H" then 0
  else if !(mIs sel "VC" "H" && mIs sel "VI" "H") &&
          (mIs sel "VC" "H" || mIs sel "VI" "H" || mIs sel "VA" "H") then 1
  else if !(mIs sel "VC" "H" || mIs sel "VI" "H" || mIs sel "VA" "H") then 2
  else 0

/-- EQ4 digit of `macroVector`. -/
def eq4Of (sel : Rec) : ℕ :=
  if mIs sel "MSI" "S" || mIs sel "MSA" "S" then 0
  else if !(mIs sel "MSI" "S" || mIs sel "MSA" "S") &&
          (mIs sel "SC" "H" || mIs sel "SI" "H" || mIs sel "SA" "H") then 1
  else if !(mIs sel "MSI" "S" || mIs sel "MSA" "S") &&
          !(mIs sel "SC" "H" || mIs sel "SI" "H" || mIs sel "SA" "H") then 2
  else 0

/-- EQ5 digit of `macroVector`. -/
def eq5Of (sel : Rec) : ℕ :=
  if mIs sel "E" "A" then 0
  else if mIs sel "E" "P" then 1
  else if mIs sel "E" "U" then 2
  else 0

/-- EQ6 digit of `macroVector`. -/
def eq6Of (sel : Rec) : ℕ :=
  if (mIs sel "CR" "H" && mIs sel "VC" "H") ||
     (mIs sel "IR" "H" && mIs sel "VI" "H") ||
     (mIs sel "AR" "H" && mIs sel "VA" "H") then 0
  else if !((mIs sel "CR" "H" && mIs sel "VC" "H") ||
            (mIs sel "IR" "H" && mIs sel "VI" "H") ||
            (mIs sel "AR" "H" && mIs sel "VA" "H")) then 1
  else 0

/-- JS template `${d1}${d2}${d3}${d4}${d5}${d6}` stringifying six numbers. -/
def macroStr (d1 d2 d3 d4 d5 d6 : ℕ) : String :=
  Nat.repr d1 ++ Nat.repr d2 ++ Nat.repr d3 ++ Nat.repr d4 ++ Nat.repr d5 ++ Nat.repr d6

/-- `macroVector(cvssSelected)`: the 6-digit MacroVector string. -/
def macroVector (sel : Rec) : String :=
  macroStr (eq1Of sel) (eq2Of sel) (eq3Of sel) (eq4Of sel) (eq5Of sel) (eq6Of sel)

/-! ## CVSS v4.0 scoring engine (`cvss_score` and its data tables) -/

/-- `AV_levels` of `cvss_score` (object indexing: unknown key ↦ `undefined`). -/
def AV_levels : Option String → Option ℚ
  | some "N" => some 0 | some "A" => some (1/10) | some "L" => some (2/10)
  | some "P" => some (3/10) | _ => none

/-- `PR_levels` of `cvss_score`. -/
def PR_levels : Option String → Option ℚ
  | some "N" => some 0 | some "L" => some (1/10) | some "H" => some (2/10) | _ => none

/-- `UI_levels` of `cvss_score`. -/
def UI_levels : Option String → Option ℚ
  | some "N" => some 0 | some "P" => some (1/10) | some "A" => some (2/10) | _ => none

/-- `AC_levels` of `cvss_score`. -/
def AC_levels : Option String → Option ℚ
  | some "L" => some 0 | some "H" => some (1/10) | _ => none

/-- `AT_levels` of `cvss_score`. -/
def AT_levels : Option String → Option ℚ
  | some "N" => some 0 | some "P" => some (1/10) | _ => none

/-- `VC_levels`/`VI_levels`/`VA_levels` of `cvss_score` (identical tables). -/
def VC_levels : Option String → Option ℚ
  | some "H" => some 0 | some "L" => some (1/10) | some "N" => some (2/10) | _ => none

/-- `SC_levels` of `cvss_score` (starts at 0.1). -/
def SC_levels : Option String → Option ℚ
  | some "H" => some (1/10) | some "L" => some (2/10) | some "N" => some (3/10) | _ => none

/-- `SI_levels`/`SA_levels` of `cvss_score`. -/
def SI_levels : Option String → Option ℚ
  | some "S" => some 0 | some "H" => some (1/10) | some "L" => some (2/10)
  | some "N" => some (3/10) | _ => none

/-- `CR_levels`/`IR_levels`/`AR_levels` of `cvss_score`. -/
def CR_levels : Option String → Option ℚ
  | some "H" => some 0 | some "M" => some (1/10) | some "L" => some (2/10) | _ => none

/-- Modelled from the spec: `models.ts` (not under `src/`) exports
`maxComposed`, "for each equivalence class and class value, the set of
maximal partial vectors (metric-value combinations) that represent the most
severe vector reachable within that class" (spec §3).  Each list below
enumerates exactly the maximal elements (under the per-metric severity
order of the `*_levels` tables) of the corresponding equivalence class of
spec §4.3 step 1. -/
def maxComposedEq1 : Option Char → List String
  | some '0' => ["AV:N/PR:N/UI:N/"]
  | some '1' => ["AV:A/PR:N/UI:N/", "AV:N/PR:L/UI:N/", "AV:N/PR:N/UI:P/"]
  | some '2' => ["AV:P/PR:N/UI:N/", "AV:A/PR:L/UI:P/"]
  | _ => []

/-- Modelled from the spec: `maxComposed["eq2"]` (see `maxComposedEq1`). -/
def maxComposedEq2 : Option Char → List String
  | some '0' => ["AC:L/AT:N/"]
  | some '1' => ["AC:H/AT:N/", "AC:L/AT:P/"]
  | _ => []

/-- Modelled from the spec: `maxComposed["eq3"]`, indexed by the EQ3 digit
and then by the EQ6 digit (see `maxComposedEq1`). -/
def maxComposedEq3 : Option Char → Option Char → List String
  | some '0', some '0' => ["VC:H/VI:H/VA:H/CR:H/IR:H/AR:H/"]
  | some '0', some '1' =>
    ["VC:H/VI:H/VA:L/CR:M/IR:M/AR:H/", "VC:H/VI:H/VA:H/CR:M/IR:M/AR:M/"]
  | some '1', some '0' =>
    ["VC:L/VI:H/VA:H/CR:H/IR:H/AR:H/", "VC:H/VI:L/VA:H/CR:H/IR:H/AR:H/"]
  | some '1', some '1' =>
    ["VC:H/VI:L/VA:H/CR:M/IR:H/AR:M/", "VC:H/VI:L/VA:L/CR:M/IR:H/AR:H/",
     "VC:L/VI:H/VA:H/CR:H/IR:M/AR:M/", "VC:L/VI:H/VA:L/CR:H/IR:M/AR:H/",
     "VC:L/VI:L/VA:H/CR:H/IR:H/AR:M/"]
  | some '2', some '1' => ["VC:L/VI:L/VA:L/CR:H/IR:H/AR:H/"]
  | _, _ => []

/-- Modelled from the spec: `maxComposed["eq4"]` (see `maxComposedEq1`). -/
def maxComposedEq4 : Option Char → List String
  | some '0' => ["SC:H/SI:S/SA:S/"]
  | some '1' => ["SC:H/SI:H/SA:H/"]
  | some '2' => ["SC:L/SI:L/SA:L/"]
  | _ => []

/-- Modelled from the spec: `maxComposed["eq5"]` (see `maxComposedEq1`). -/
def maxComposedEq5 : Option Char → List String
  | some '0' => ["E:A/"]
  | some '1' => ["E:P/"]
  | some '2' => ["E:U/"]
  | _ => []

/-- Modelled from the spec: `models.ts` (not under `src/`) exports
`maxSeverityV4`, "for each equivalence class and class value, the maximal
raw severity distance (used as the interpolation denominator)" (spec §3);
`cvss_score` multiplies these raw values by the step constant 0.1.  The
spec does not list the numeric entries; the values below are the maximal
severity depths of the corresponding equivalence classes.  No claim depends
on the exact numbers — only on their being positive and on the domain
(`eq3eq6` is defined exactly on the five reachable digit pairs). -/
def maxSeverityEq1 : Option ℕ → Option ℚ
  | some 0 => some 1 | some 1 => some 4 | some 2 => some 5 | _ => none

/-- Modelled from the spec: `maxSeverityV4["eq2"]` (see `maxSeverityEq1`). -/
def maxSeverityEq2 : Option ℕ → Option ℚ
  | some 0 => some 1 | some 1 => some 2 | _ => none

/-- Modelled from the spec: `maxSeverityV4["eq3eq6"]` (see `maxSeverityEq1`). -/
def maxSeverityEq3Eq6 : Option ℕ → Option ℕ → Option ℚ
  | some 0, some 0 => some 7 | some 0, some 1 => some 6
  | some 1, some 0 => some 8 | some 1, some 1 => some 8
  | some 2, some 1 => some 10 | _, _ => none

/-- Modelled from the spec: `maxSeverityV4["eq4"]` (see `maxSeverityEq1`). -/
def maxSeverityEq4 : Option ℕ → Option ℚ
  | some 0 => some 6 | some 1 => some 5 | some 2 => some 4 | _ => none

/-- The shape of the `maxSeverityData` argument of `cvss_score`: digit-indexed
score-depth tables for EQ1, EQ2, the coupled EQ3/EQ6 pair, and EQ4 (EQ5 has
no entry; its proportion is hard-coded to 0). -/
structure MaxSeverityData where
  eq1T : Option ℕ → Option ℚ
  eq2T : Option ℕ → Option ℚ
  eq3eq6T : Option ℕ → Option ℕ → Option ℚ
  eq4T : Option ℕ → Option ℚ

/-- Modelled from the spec: the global `maxSeverityV4` table passed to
`cvss_score` by `calculateBaseScoreV4` (see `maxSeverityEq1`). -/
def maxSeverityV4 : MaxSeverityData :=
  ⟨maxSeverityEq1, maxSeverityEq2, maxSeverityEq3Eq6, maxSeverityEq4⟩

/-- A valid MacroVector: six digit characters with EQ1, EQ3-EQ5 in 0..2,
EQ2 and EQ6 in 0..1, excluding the impossible EQ3=2 ∧ EQ6=0 combinations —
the 270 keys of the Global Lookup Table. -/
def isValidMacroChars : List Char → Bool
  | [c1, c2, c3, c4, c5, c6] =>
    (c1 = '0' || c1 = '1' || c1 = '2') && (c2 = '0' || c2 = '1') &&
    (c3 = '0' || c3 = '1' || c3 = '2') && (c4 = '0' || c4 = '1' || c4 = '2') &&
    (c5 = '0' || c5 = '1' || c5 = '2') && (c6 = '0' || c6 = '1') &&
    !(c3 = '2' && c6 = '0')
  | _ => false

/-- Modelled from the spec: `models.ts` (not under `src/`) exports
`cvssLookup_globalV4`, the "immutable mapping from MacroVector string (all
270 valid combinations) to a base score in [0,10]" (spec §3), with
`"000000" ↦ 10.0` ("the vector producing MacroVector 000000 yields score
10.0 exactly", spec §8).  The spec does not list the other 269 empirical
entries; this model assigns them a fixed in-range placeholder value.  No
claim depends on any entry other than `"000000"`, only on the domain and on
every entry lying in [0,10]. -/
def cvssLookup_globalV4 (s : String) : Option ℚ :=
  if s = "000000" then some 10
  else if isValidMacroChars s.data then some 5
  else none

/-- `parseInt` of one character of the MacroVector string. -/
def charDigit : Option Char → Option ℕ
  | some c => if '0' ≤ c && c ≤ '9' then some (c.toNat - 48) else none
  | none => none

/-- `getEQMaxes(lookup, eq)` = `maxComposed["eq<i>"][lookup[eq-1]]`, with the
nested EQ6 index for `eq = 3` applied at the call site as in the source. -/
def getEQMaxes1 (s : String) : List String := maxComposedEq1 (s.data.get? 0)

/-- `getEQMaxes(lookup, 2)`. -/
def getEQMaxes2 (s : String) : List String := maxComposedEq2 (s.data.get? 1)

/-- `getEQMaxes(lookup, 3)[lookup[5]]`. -/
def getEQMaxes3 (s : String) : List String :=
  maxComposedEq3 (s.data.get? 2) (s.data.get? 5)

/-- `getEQMaxes(lookup, 4)`. -/
def getEQMaxes4 (s : String) : List String := maxComposedEq4 (s.data.get? 3)

/-- `getEQMaxes(lookup, 5)`. -/
def getEQMaxes5 (s : String) : List String := maxComposedEq5 (s.data.get? 4)

/-- `extractValueMetric(metric, str)`: slice after the first occurrence of
the metric name plus one separator character and cut at the next `/` when
its index is positive (JS `indexOf`/`slice`/`substring` semantics, including
the `-1 + length + 1` slide when the metric does not occur). -/
def extractValueMetric (metric : String) (str : String) : String :=
  let idx : ℤ := match indexOfSeq metric.data str.data with
    | some n => (n : ℤ)
    | none => -1
  let extracted := str.data.drop (idx + metric.data.length + 1).toNat
  match indexOfChar '/' extracted with
  | some j => if 0 < j then String.mk (extracted.take j) else String.mk extracted
  | none => String.mk extracted

/-- The fourteen per-metric severity distances computed inside the
max-vector search loop of `cvss_score`. -/
structure Dists where
  dAV : Option ℚ
  dPR : Option ℚ
  dUI : Option ℚ
  dAC : Option ℚ
  dAT : Option ℚ
  dVC : Option ℚ
  dVI : Option ℚ
  dVA : Option ℚ
  dSC : Option ℚ
  dSI : Option ℚ
  dSA : Option ℚ
  dCR : Option ℚ
  dIR : Option ℚ
  dAR : Option ℚ
deriving DecidableEq

/-- The distances to one candidate max vector. -/
def computeDists (sel : Rec) (maxVec : String) : Dists where
  dAV := jsSub (AV_levels (m sel "AV")) (AV_levels (some (extractValueMetric "AV" maxVec)))
  dPR := jsSub (PR_levels (m sel "PR")) (PR_levels (some (extractValueMetric "PR" maxVec)))
  dUI := jsSub (UI_levels (m sel "UI")) (UI_levels (some (extractValueMetric "UI" maxVec)))
  dAC := jsSub (AC_levels (m sel "AC")) (AC_levels (some (extractValueMetric "AC" maxVec)))
  dAT := jsSub (AT_levels (m sel "AT")) (AT_levels (some (extractValueMetric "AT" maxVec)))
  dVC := jsSub (VC_levels (m sel "VC")) (VC_levels (some (extractValueMetric "VC" maxVec)))
  dVI := jsSub (VC_levels (m sel "VI")) (VC_levels (some (extractValueMetric "VI" maxVec)))
  dVA := jsSub (VC_levels (m sel "VA")) (VC_levels (some (extractValueMetric "VA" maxVec)))
  dSC := jsSub (SC_levels (m sel "SC")) (SC_levels (some (extractValueMetric "SC" maxVec)))
  dSI := jsSub (SI_levels (m sel "SI")) (SI_levels (some (extractValueMetric "SI" maxVec)))
  dSA := jsSub (SI_levels (m sel "SA")) (SI_levels (some (extractValueMetric "SA" maxVec)))
  dCR := jsSub (CR_levels (m sel "CR")) (CR_levels (some (extractValueMetric "CR" maxVec)))
  dIR := jsSub (CR_levels (m sel "IR")) (CR_levels (some (extractValueMetric "IR" maxVec)))
  dAR := jsSub (CR_levels (m sel "AR")) (CR_levels (some (extractValueMetric "AR" maxVec)))

/-- The loop initialisation: every severity-distance variable starts at 0. -/
def zeroDists : Dists :=
  ⟨some 0, some 0, some 0, some 0, some 0, some 0, some 0,
   some 0, some 0, some 0, some 0, some 0, some 0, some 0⟩

/-- `[...].some((met) => met < 0)` over the fourteen distances. -/
def anyNegDist (d : Dists) : Bool :=
  jsIsNeg d.dAV || jsIsNeg d.dPR || jsIsNeg d.dUI || jsIsNeg d.dAC ||
  jsIsNeg d.dAT || jsIsNeg d.dVC || jsIsNeg d.dVI || jsIsNeg d.dVA ||
  jsIsNeg d.dSC || jsIsNeg d.dSI || jsIsNeg d.dSA || jsIsNeg d.dCR ||
  jsIsNeg d.dIR || jsIsNeg d.dAR

/-- The max-vector search loop: take the first candidate whose distances are
all non-negative; after a run with no `break`, the variables keep the last
candidate's distances (or the zero initialisation when the list is empty). -/
def findDists (sel : Rec) : List String → Dists → Dists
  | [], acc => acc
  | v :: rest, _ =>
    let d := computeDists sel v
    if anyNegDist d then findDists sel rest d else d

/-- The `max_vectors` composition: nested loops over the five max lists. -/
def maxVectors (macroVectorResult : String) : List String :=
  (getEQMaxes1 macroVectorResult).flatMap (fun a =>
    (getEQMaxes2 macroVectorResult).flatMap (fun b =>
      (getEQMaxes3 macroVectorResult).flatMap (fun c =>
        (getEQMaxes4 macroVectorResult).flatMap (fun d =>
          (getEQMaxes5 macroVectorResult).map (fun e =>
            a ++ b ++ c ++ d ++ e)))))

/-- The combined EQ3/EQ6 next-lower-macro score selection of `cvss_score`:
from digit state (0,0) both candidate neighbours are looked up and the JS
comparison `left > right ? left : right` selects between them; every other
state looks up a single neighbour string. -/
def scoreEq3Eq6NextLower (lookup : String → Option ℚ)
    (eq1 eq2 eq3 eq4 eq5 eq6 : ℕ) : Option ℚ :=
  if eq3 = 1 ∧ eq6 = 1 then
    lookup (macroStr eq1 eq2 (eq3 + 1) eq4 eq5 (eq6 + 1))
  else if eq3 = 0 ∧ eq6 = 1 then
    lookup (macroStr eq1 eq2 (eq3 + 1) eq4 eq5 eq6)
  else if eq3 = 1 ∧ eq6 = 0 then
    lookup (macroStr eq1 eq2 eq3 eq4 eq5 (eq6 + 1))
  else if eq3 = 0 ∧ eq6 = 0 then
    let left := lookup (macroStr eq1 eq2 eq3 eq4 eq5 (eq6 + 1))
    let right := lookup (macroStr eq1 eq2 (eq3 + 1) eq4 eq5 eq6)
    if jsGt left right then left else right
  else
    lookup (macroStr eq1 eq2 (eq3 + 1) eq4 eq5 (eq6 + 1))

/-- One equivalence class's contribution: given the availability of the
lower neighbour (`avail`), the grouped current severity distance and the
max-severity denominator, return (count increment, normalized severity).
`cvss_score` adds `available_distance * (current / maxSeverity)` only when
`available_distance` is a number, and leaves the contribution `0` otherwise. -/
def normalizedContribution (avail : Option ℚ) (current : Option ℚ)
    (maxSev : Option ℚ) : ℕ × Option ℚ :=
  match avail with
  | some a => (1, jsMul (some a) (jsDiv current maxSev))
  | none => (0, some 0)

/-- `cvss_score(cvssSelected, lookup, maxSeverityData, macroVectorResult)`.
The `maxSeverityData` argument is passed as the four digit-indexed tables.
Faithful to the source: the no-impact shortcut, the digit parse, the five
next-lower-macro lookups (EQ3/EQ6 coupled), the max-vector severity-distance
search, the normalized distances over available neighbours, their mean, and
final clamp-and-round. -/
def cvss_score (cvssSelected : Rec) (lookup : String → Option ℚ)
    (maxSeverityData : MaxSeverityData) (macroVectorResult : String) : Option ℚ :=
  if mIs cvssSelected "VC" "N" && mIs cvssSelected "VI" "N" &&
     mIs cvssSelected "VA" "N" && mIs cvssSelected "SC" "N" &&
     mIs cvssSelected "SI" "N" && mIs cvssSelected "SA" "N" then some 0
  else
    let value := lookup macroVectorResult
    let oeq1 := charDigit (macroVectorResult.data.get? 0)
    let oeq2 := charDigit (macroVectorResult.data.get? 1)
    let oeq3 := charDigit (macroVectorResult.data.get? 2)
    let oeq4 := charDigit (macroVectorResult.data.get? 3)
    let oeq5 := charDigit (macroVectorResult.data.get? 4)
    let oeq6 := charDigit (macroVectorResult.data.get? 5)
    let scoreEq1NextLower :=
      match oeq1, oeq2, oeq3, oeq4, oeq5, oeq6 with
      | some d1, some d2, some d3, some d4, some d5, some d6 =>
        lookup (macroStr (d1 + 1) d2 d3 d4 d5 d6)
      | _, _, _, _, _, _ => none
    let scoreEq2NextLower :=
      match oeq1, oeq2, oeq3, oeq4, oeq5, oeq6 with
      | some d1, some d2, some d3, some d4, some d5, some d6 =>
        lookup (macroStr d1 (d2 + 1) d3 d4 d5 d6)
      | _, _, _, _, _, _ => none
    let scoreEq3Eq6NextLowerV :=
      match oeq1, oeq2, oeq3, oeq4, oeq5, oeq6 with
      | some d1, some d2, some d3, some d4, some d5, some d6 =>
        scoreEq3Eq6NextLower lookup d1 d2 d3 d4 d5 d6
      | _, _, _, _, _, _ => none
    let scoreEq4NextLower :=
      match oeq1, oeq2, oeq3, oeq4, oeq5, oeq6 with
      | some d1, some d2, some d3, some d4, some d5, some d6 =>
        lookup (macroStr d1 d2 d3 (d4 + 1) d5 d6)
      | _, _, _, _, _, _ => none
    let scoreEq5NextLower :=
      match oeq1, oeq2, oeq3, oeq4, oeq5, oeq6 with
      | some d1, some d2, some d3, some d4, some d5, some d6 =>
        lookup (macroStr d1 d2 d3 d4 (d5 + 1) d6)
      | _, _, _, _, _, _ => none
    let dists := findDists cvssSelected (maxVectors macroVectorResult) zeroDists
    let currentEq1 := jsAdd (jsAdd dists.dAV dists.dPR) dists.dUI
    let currentEq2 := jsAdd dists.dAC dists.dAT
    let currentEq3Eq6 :=
      jsAdd (jsAdd (jsAdd (jsAdd (jsAdd dists.dVC dists.dVI) dists.dVA)
        dists.dCR) dists.dIR) dists.dAR
    let currentEq4 := jsAdd (jsAdd dists.dSC dists.dSI) dists.dSA
    let step : ℚ := 1/10
    let availEq1 := jsSub value scoreEq1NextLower
    let availEq2 := jsSub value scoreEq2NextLower
    let availEq3Eq6 := jsSub value scoreEq3Eq6NextLowerV
    let availEq4 := jsSub value scoreEq4NextLower
    let availEq5 := jsSub value scoreEq5NextLower
    let maxSevEq1 := jsMul (maxSeverityData.eq1T oeq1) (some step)
    let maxSevEq2 := jsMul (maxSeverityData.eq2T oeq2) (some step)
    let maxSevEq3Eq6 := jsMul (maxSeverityData.eq3eq6T oeq3 oeq6) (some step)
    let maxSevEq4 := jsMul (maxSeverityData.eq4T oeq4) (some step)
    let c1 := normalizedContribution availEq1 currentEq1 maxSevEq1
    let c2 := normalizedContribution availEq2 currentEq2 maxSevEq2
    let c36 := normalizedContribution availEq3Eq6 currentEq3Eq6 maxSevEq3Eq6
    let c4 := normalizedContribution availEq4 currentEq4 maxSevEq4
    let c5 : ℕ × Option ℚ :=
      match availEq5 with
      | some a => (1, some (a * 0))
      | none => (0, some 0)
    let nExistingLower := c1.1 + c2.1 + c36.1 + c4.1 + c5.1
    let meanDistance :=
      if nExistingLower = 0 then some 0
      else jsDiv (jsAdd (jsAdd (jsAdd (jsAdd c1.2 c2.2) c36.2) c4.2) c5.2)
        (some (nExistingLower : ℚ))
    let value := jsSub value meanDistance
    let value := if jsIsNeg value then some 0 else value
    let value := if jsGt value (some 10) then some 10 else value
    jsRound10 value

/-- `calculateBaseScoreV4(vectorString)`: validate, parse, classify, score;
throws the validation error when the vector is invalid. -/
def calculateBaseScoreV4 (vectorString : String) : Except V4Error (Option ℚ) :=
  match validateVectorV4 vectorString with
  | .err e => .error e
  | .ok _ =>
    let cvssSelected := parseVectorV4 vectorString
    .ok (cvss_score cvssSelected cvssLookup_globalV4 maxSeverityV4
      (macroVector cvssSelected))

/-! ## CVSS v3.x metric catalogs and parser (modelled collaborators) -/

/-- A JS `Map<Metric, MetricValue>` with string keys and defined string
values; `set` overwrites in place. -/
abbrev MMap := List (String × String)

/-- `map.get(k)` as an `Option`. -/
def getM (mp : MMap) (k : String) : Option String :=
  (mp.find? (fun p => p.1 = k)).map (fun p => p.2)

/-- `map.has(k)`. -/
def hasM (mp : MMap) (k : String) : Bool := mp.any (fun p => p.1 = k)

/-- `map.set(k, v)`. -/
def setM (mp : MMap) (k v : String) : MMap :=
  match mp with
  | [] => [(k, v)]
  | p :: t => if p.1 = k then (k, v) :: t else p :: setM t k v

/-- Modelled from the spec: `models.ts` (not under `src/`) exports
`baseMetrics`, the eight mandatory v3.x base metric keys (spec §6: "v3.x
requires all 8 base keys present"). -/
def baseMetrics : List String := ["AV", "AC", "PR", "UI", "S", "C", "I", "A"]

/-- Modelled from the spec: `models.ts` exports `temporalMetrics`. -/
def temporalMetrics : List String := ["E", "RL", "RC"]

/-- Modelled from the spec: `models.ts` exports `environmentalMetrics`. -/
def environmentalMetrics : List String :=
  ["CR", "IR", "AR", "MAV", "MAC", "MPR", "MUI", "MS", "MC", "MI", "MA"]

/-- All known v3.x metrics, in the order `validate` concatenates them. -/
def allKnownMetrics : List String :=
  baseMetrics ++ temporalMetrics ++ environmentalMetrics

/-- Modelled from the spec: the merged
`{...baseMetricValues, ...temporalMetricValues, ...environmentalMetricValues}`
allowed-value catalog of `models.ts` (spec §3 "Metric Catalog"; value sets of
the published CVSS v3.1 specification, matching the weight tables of
`score-calculator.ts`). -/
def allKnownMetricValues (metric : String) : List String :=
  match metric with
  | "AV" => ["N", "A", "L", "P"]
  | "AC" => ["L", "H"]
  | "PR" => ["N", "L", "H"]
  | "UI" => ["N", "R"]
  | "S" => ["U", "C"]
  | "C" => ["N", "L", "H"]
  | "I" => ["N", "L", "H"]
  | "A" => ["N", "L", "H"]
  | "E" => ["X", "U", "P", "F", "H"]
  | "RL" => ["X", "O", "T", "W", "U"]
  | "RC" => ["X", "U", "R", "C"]
  | "CR" => ["X", "L", "M", "H"]
  | "IR" => ["X", "L", "M", "H"]
  | "AR" => ["X", "L", "M", "H"]
  | "MAV" => ["X", "N", "A", "L", "P"]
  | "MAC" => ["X", "L", "H"]
  | "MPR" => ["X", "N", "L", "H"]
  | "MUI" => ["X", "N", "R"]
  | "MS" => ["X", "U", "C"]
  | "MC" => ["X", "N", "L", "H"]
  | "MI" => ["X", "N", "L", "H"]
  | "MA" => ["X", "N", "L", "H"]
  | _ => []

/-- Modelled from the spec: `parser.ts` (not under `src/`) `parseVersion` —
"version tag extraction from the CVSS: prefix" (spec §4.5): the characters
between `CVSS:` and the first `/`. -/
def parseVersion (cvssStr : String) : Option String :=
  if jsStartsWith cvssStr "CVSS:" then
    some (String.mk ((cvssStr.data.drop 5).takeWhile (fun c => c ≠ '/')))
  else none

/-- Modelled from the spec: `parser.ts` `parseVector` — the metric part of
the vector string, i.e. everything after the first `/`. -/
def parseVector (cvssStr : String) : Option String :=
  match splitSlash cvssStr with
  | _ :: seg :: t => some (String.intercalate "/" (seg :: t))
  | _ => none

/-- Modelled from the spec: `parser.ts` `parseMetricsAsMap` — "tokenization
into an ordered, duplicate-free sequence of (key, value) pairs" (spec §4.5):
drop the `CVSS:` segment, split each remaining segment at `:`, and store the
pairs in a `Map` (later duplicates overwrite; a segment without a value
contributes nothing). -/
def parseMetricsAsMap (cvssStr : String) : MMap :=
  ((splitSlash cvssStr).tail).foldl
    (fun mp seg =>
      match splitColon seg with
      | k :: v :: _ => setM mp k v
      | _ => mp)
    []

/-! ## CVSS v3.x validator (`validator.ts`) -/

/-- `validateVersion(versionStr)`: reject a missing/empty version tag and
any version other than 3.0, 3.1, 4.0. -/
def validateVersion (versionStr : Option String) : Except String Unit :=
  match versionStr with
  | none => .error "Invalid CVSS string"
  | some v =>
    if v = "" then .error "Invalid CVSS string"
    else if v ≠ "3.0" ∧ v ≠ "3.1" ∧ v ≠ "4.0" then .error "Unsupported CVSS version"
    else .ok ()

/-- `validateVector(vectorStr)`: reject a missing/empty vector part and any
vector containing an empty segment (`//`). -/
def validateVector (vectorStr : Option String) : Except String Unit :=
  match vectorStr with
  | none => .error "Invalid CVSS string"
  | some v =>
    if v = "" then .error "Invalid CVSS string"
    else if jsIncludes v "//" then .error "Invalid CVSS string"
    else .ok ()

/-- `checkUnknownMetrics`: every key of the map must be a known metric. -/
def checkUnknownMetrics (mp : MMap) (known : List String) : Except String Unit :=
  if mp.all (fun p => known.contains p.1) then .ok ()
  else .error "Unknown CVSS metric"

/-- `checkMandatoryMetrics`: every metric of the list must be present. -/
def checkMandatoryMetrics (mp : MMap) (metrics : List String) : Except String Unit :=
  if metrics.all (fun met => hasM mp met) then .ok ()
  else .error "Missing mandatory CVSS metric"

/-- `checkMetricsValues`: every present metric's value must belong to its
allowed value set; a falsy `userValue` — the metric missing from the map or
stored with the empty-string value — is skipped
(`if (!userValue) { return; }`). -/
def checkMetricsValues (mp : MMap) (metrics : List String)
    (metricsValues : String → List String) : Except String Unit :=
  if metrics.all (fun met =>
      match getM mp met with
      | none => true
      | some v => if v = "" then true else (metricsValues met).contains v) then .ok ()
  else .error "Invalid value for CVSS metric"

/-- The `ValidationResult` of `validator.ts`. -/
structure VRes where
  metricsMap : MMap
  isTemporal : Bool
  isEnvironmental : Bool
  versionStr : Option String
deriving DecidableEq

/-- `validate(cvssStr)`: the generic v3.x validator.  For a `CVSS:4`-prefixed
string it first calls `validateVectorV4` and discards the result (the source
neither checks `valid` nor returns), then runs the version/vector/metric
checks against the v3.x catalogs. -/
def validate (cvssStr : String) : Except String VRes :=
  if !jsStartsWith cvssStr "CVSS:" then
    .error "CVSS vector must start with CVSS:"
  else
    let _discarded : Option V4Result :=
      if jsStartsWith cvssStr "CVSS:4" then some (validateVectorV4 cvssStr) else none
    let versionStr := parseVersion cvssStr
    match validateVersion versionStr with
    | .error e => .error e
    | .ok _ =>
      match validateVector (parseVector cvssStr) with
      | .error e => .error e
      | .ok _ =>
        let metricsMap := parseMetricsAsMap cvssStr
        match checkMandatoryMetrics metricsMap baseMetrics with
        | .error e => .error e
        | .ok _ =>
          match checkUnknownMetrics metricsMap allKnownMetrics with
          | .error e => .error e
          | .ok _ =>
            match checkMetricsValues metricsMap allKnownMetrics allKnownMetricValues with
            | .error e => .error e
            | .ok _ =>
              .ok { metricsMap := metricsMap
                    isTemporal :=
                      metricsMap.any (fun p => temporalMetrics.contains p.1)
                    isEnvironmental :=
                      metricsMap.any (fun p => environmentalMetrics.contains p.1)
                    versionStr := versionStr }

/-! ## CVSS v3.x numeric engine (`score-calculator.ts`) -/

/-- The merged
`{...baseMetricValueScores, ...temporalMetricValueScores, ...environmentalMetricValueScores}`
weight object indexed by metric then value; `none` covers both a missing
metric entry (source: throw) and a missing value entry (source: `undefined`,
i.e. NaN downstream).  `PR`/`MPR` map to `null` in the source and are handled
before this table is consulted. -/
def metricValueScore (metric value : String) : Option ℚ :=
  match metric with
  | "AV" | "MAV" =>
    match value with
    | "N" => some (85/100) | "A" => some (62/100) | "L" => some (55/100)
    | "P" => some (2/10) | _ => none
  | "AC" | "MAC" =>
    match value with
    | "L" => some (77/100) | "H" => some (44/100) | _ => none
  | "UI" | "MUI" =>
    match value with
    | "N" => some (85/100) | "R" => some (62/100) | _ => none
  | "S" | "MS" =>
    match value with
    | "U" => some 0 | "C" => some 0 | _ => none
  | "C" | "I" | "A" | "MC" | "MI" | "MA" =>
    match value with
    | "N" => some 0 | "L" => some (22/100) | "H" => some (56/100) | _ => none
  | "E" =>
    match value with
    | "X" => some 1 | "U" => some (91/100) | "F" => some (97/100)
    | "P" => some (94/100) | "H" => some 1 | _ => none
  | "RL" =>
    match value with
    | "X" => some 1 | "O" => some (95/100) | "T" => some (96/100)
    | "W" => some (97/100) | "U" => some 1 | _ => none
  | "RC" =>
    match value with
    | "X" => some 1 | "U" => some (92/100) | "R" => some (96/100)
    | "C" => some 1 | _ => none
  | "CR" | "IR" | "AR" =>
    match value with
    | "M" => some 1 | "L" => some (5/10) | "H" => some (15/10)
    | "X" => some 1 | _ => none
  | _ => none

/-- `getPrivilegesRequiredNumericValue(value, scopeValue)`: scope-dependent
Privileges-Required weights; unknown scope or PR values throw (`none`). -/
def getPrivilegesRequiredNumericValue (value scopeValue : String) : Option ℚ :=
  if scopeValue ≠ "U" ∧ scopeValue ≠ "C" ∧ scopeValue ≠ "X" then none
  else
    match value with
    | "N" => some (85/100)
    | "L" => if scopeValue = "U" then some (62/100) else some (68/100)
    | "H" => if scopeValue = "U" then some (27/100) else some (5/10)
    | _ => none

/-- `getMetricValue(metric, metricsMap)`: `none` models the throw on a
missing metric. -/
def getMetricValue (metric : String) (mp : MMap) : Option String := getM mp metric

/-- `getMetricNumericValue(metric, metricsMap)`: `PR`/`MPR` route through the
scope-dependent table using `S`/`MS`; all other metrics use the merged weight
object. -/
def getMetricNumericValue (metric : String) (mp : MMap) : Option ℚ :=
  match getMetricValue metric mp with
  | none => none
  | some value =>
    if metric = "PR" then
      match getMetricValue "S" mp with
      | none => none
      | some sc => getPrivilegesRequiredNumericValue value sc
    else if metric = "MPR" then
      match getMetricValue "MS" mp with
      | none => none
      | some sc => getPrivilegesRequiredNumericValue value sc
    else metricValueScore metric value

/-- `x^n` on a possibly-NaN value (`Math.pow` with a literal exponent). -/
def jsPow (x : Option ℚ) (n : ℕ) : Option ℚ := x.map (fun q => q ^ n)

/-- `calculateIss`: ISS = 1 − (1−C)(1−I)(1−A). -/
def calculateIss (mp : MMap) : Option ℚ :=
  let c := getMetricNumericValue "C" mp
  let i := getMetricNumericValue "I" mp
  let a := getMetricNumericValue "A" mp
  jsSub (some 1)
    (jsMul (jsMul (jsSub (some 1) c) (jsSub (some 1) i)) (jsSub (some 1) a))

/-- `calculateMiss`: MISS = min(1 − (1−CR·MC)(1−IR·MI)(1−AR·MA), 0.915). -/
def calculateMiss (mp : MMap) : Option ℚ :=
  let rc := getMetricNumericValue "CR" mp
  let mc := getMetricNumericValue "MC" mp
  let ri := getMetricNumericValue "IR" mp
  let mi := getMetricNumericValue "MI" mp
  let ra := getMetricNumericValue "AR" mp
  let ma := getMetricNumericValue "MA" mp
  jsMin
    (jsSub (some 1)
      (jsMul (jsMul (jsSub (some 1) (jsMul rc mc)) (jsSub (some 1) (jsMul ri mi)))
        (jsSub (some 1) (jsMul ra ma))))
    (915/1000)

/-- `calculateImpact(metricsMap, iss)`. -/
def calculateImpact (mp : MMap) (iss : Option ℚ) : Option ℚ :=
  if getM mp "S" = some "U" then jsMul (some (642/100)) iss
  else
    jsSub (jsMul (some (752/100)) (jsSub iss (some (29/1000))))
      (jsMul (some (325/100)) (jsPow (jsSub iss (some (2/100))) 15))

/-- `calculateModifiedImpact(metricsMap, miss, versionStr)`: scaling 1 and
exponent 15 for version "3.0", scaling 0.9731 and exponent 13 otherwise. -/
def calculateModifiedImpact (mp : MMap) (miss : Option ℚ)
    (versionStr : Option String) : Option ℚ :=
  if getM mp "MS" = some "U" then jsMul (some (642/100)) miss
  else
    jsSub (jsMul (some (752/100)) (jsSub miss (some (29/1000))))
      (jsMul (some (325/100))
        (jsPow
          (jsSub
            (jsMul miss (some (if versionStr = some "3.0" then 1 else 9731/10000)))
            (some (2/100)))
          (if versionStr = some "3.0" then 15 else 13)))

/-- `calculateExploitability`: 8.22 × AV × AC × PR × UI. -/
def calculateExploitability (mp : MMap) : Option ℚ :=
  jsMul
    (jsMul
      (jsMul (jsMul (some (822/100)) (getMetricNumericValue "AV" mp))
        (getMetricNumericValue "AC" mp))
      (getMetricNumericValue "PR" mp))
    (getMetricNumericValue "UI" mp)

/-- `calculateModifiedExploitability`: 8.22 × MAV × MAC × MPR × MUI. -/
def calculateModifiedExploitability (mp : MMap) : Option ℚ :=
  jsMul
    (jsMul
      (jsMul (jsMul (some (822/100)) (getMetricNumericValue "MAV" mp))
        (getMetricNumericValue "MAC" mp))
      (getMetricNumericValue "MPR" mp))
    (getMetricNumericValue "MUI" mp)

/-- The v3.x `roundUp`: multiply by 100000, round to the nearest integer,
and either divide back exactly (when divisible by 10000) or round the
first decimal up. -/
def roundUp (input : ℚ) : ℚ :=
  let intInput : ℤ := jsRound (input * 100000)
  if intInput % 10000 = 0 then (intInput : ℚ) / 100000
  else ((Rat.floor ((intInput : ℚ) / 10000) : ℤ) + 1 : ℚ) / 10

/-- `roundUp` lifted over NaN. -/
def roundUpOpt : Option ℚ → Option ℚ := Option.map roundUp

/-- `modifiedMetricsMap`: modified environmental key ↦ base key. -/
def modifiedMetricsMap (k : String) : Option String :=
  match k with
  | "MAV" => some "AV" | "MAC" => some "AC" | "MPR" => some "PR"
  | "MUI" => some "UI" | "MS" => some "S" | "MC" => some "C"
  | "MI" => some "I" | "MA" => some "A" | _ => none

/-- `populateTemporalMetricDefaults`: absent temporal metrics default to X. -/
def populateTemporalMetricDefaults (mp : MMap) : MMap :=
  temporalMetrics.foldl
    (fun acc met => if hasM acc met then acc else setM acc met "X") mp

/-- `populateEnvironmentalMetricDefaults`: absent environmental metrics
default to X, and an X-valued modified metric is replaced by its base
metric's value when that base metric is present. -/
def populateEnvironmentalMetricDefaults (mp : MMap) : MMap :=
  environmentalMetrics.foldl
    (fun acc met =>
      let acc := if hasM acc met then acc else setM acc met "X"
      if getM acc met = some "X" then
        match modifiedMetricsMap met with
        | some base =>
          if hasM acc base then setM acc met ((getM acc base).getD "X")
          else setM acc met "X"
        | none => setM acc met "X"
      else acc)
    mp

/-- The `ScoreResult` of `score-calculator.ts` (numeric fields may be NaN). -/
structure ScoreResult where
  score : Option ℚ
  impact : Option ℚ
  exploitability : Option ℚ
  metricsMap : MMap
deriving DecidableEq

/-- `calculateBaseResult(cvssString)`. -/
def calculateBaseResult (cvssString : String) : Except String ScoreResult :=
  match validate cvssString with
  | .error e => .error e
  | .ok vr =>
    let mp := vr.metricsMap
    let iss := calculateIss mp
    let impact := calculateImpact mp iss
    let exploitability := calculateExploitability mp
    let scopeUnchanged := getM mp "S" = some "U"
    let score :=
      if jsLe impact 0 then some 0
      else if scopeUnchanged then roundUpOpt (jsMin (jsAdd impact exploitability) 10)
      else roundUpOpt (jsMin (jsMul (some (108/100)) (jsAdd impact exploitability)) 10)
    .ok { score := score
          metricsMap := mp
          impact := if jsLe impact 0 then some 0 else roundUpOpt impact
          exploitability :=
            if jsLe impact 0 then some 0 else roundUpOpt exploitability }

/-- `detectCvssVersion(cvssString)`. -/
def detectCvssVersion (cvssString : String) : Except String String :=
  let versionSeg := ((splitSlash cvssString).headD "")
  if jsStartsWith versionSeg "CVSS:4.0" then .ok "4.0"
  else if jsStartsWith versionSeg "CVSS:3." then .ok "3.1"
  else .error "Unsupported CVSS version"

/-- The error type of the top-level `calculateBaseScore` dispatcher. -/
inductive CalcError where
  | unsupported : CalcError
  | v4Err : V4Error → CalcError
  | v3Err : String → CalcError
deriving DecidableEq

/-- `calculateBaseScore(cvssString)`: version dispatch. -/
def calculateBaseScore (cvssString : String) : Except CalcError (Option ℚ) :=
  match detectCvssVersion cvssString with
  | .error _ => .error .unsupported
  | .ok version =>
    if version = "4.0" then
      match calculateBaseScoreV4 cvssString with
      | .error e => .error (.v4Err e)
      | .ok q => .ok q
    else if version = "3.1" then
      match calculateBaseResult cvssString with
      | .error e => .error (.v3Err e)
      | .ok r => .ok r.score
    else .error .unsupported

/-- `calculateEnvironmentalResult(cvssString)`. -/
def calculateEnvironmentalResult (cvssString : String) : Except String ScoreResult :=
  match validate cvssString with
  | .error e => .error e
  | .ok vr =>
    let mp := populateEnvironmentalMetricDefaults
      (populateTemporalMetricDefaults vr.metricsMap)
    let miss := calculateMiss mp
    let impact := calculateModifiedImpact mp miss vr.versionStr
    let exploitability := calculateModifiedExploitability mp
    let scopeUnchanged := getM mp "MS" = some "U"
    let tFactor (inner : Option ℚ) : Option ℚ :=
      jsMul
        (jsMul (jsMul inner (getMetricNumericValue "E" mp))
          (getMetricNumericValue "RL" mp))
        (getMetricNumericValue "RC" mp)
    let score :=
      if jsLe impact 0 then some 0
      else if scopeUnchanged then
        roundUpOpt (tFactor (roundUpOpt (jsMin (jsAdd impact exploitability) 10)))
      else
        roundUpOpt (tFactor (roundUpOpt
          (jsMin (jsMul (some (108/100)) (jsAdd impact exploitability)) 10)))
    .ok { score := score
          metricsMap := mp
          impact := if jsLe impact 0 then some 0 else roundUpOpt impact
          exploitability :=
            if jsLe impact 0 then some 0 else roundUpOpt exploitability }

/-- `calculateEnvironmentalScore(cvssString)`. -/
def calculateEnvironmentalScore (cvssString : String) : Except String (Option ℚ) :=
  match calculateEnvironmentalResult cvssString with
  | .error e => .error e
  | .ok r => .ok r.score

/-- `calculateTemporalResult(cvssString)`: the base score times the three
temporal weights (in source order `score * RC * E * RL`), rounded up. -/
def calculateTemporalResult (cvssString : String) : Except String ScoreResult :=
  match validate cvssString with
  | .error e => .error e
  | .ok vr =>
    let mp := populateTemporalMetricDefaults vr.metricsMap
    match calculateBaseResult cvssString with
    | .error e => .error e
    | .ok br =>
      let tempScore := roundUpOpt
        (jsMul
          (jsMul (jsMul br.score (getMetricNumericValue "RC" mp))
            (getMetricNumericValue "E" mp))
          (getMetricNumericValue "RL" mp))
      .ok { score := tempScore
            metricsMap := mp
            impact := br.impact
            exploitability := br.exploitability }

/-- `calculateTemporalScore(cvssString)`. -/
def calculateTemporalScore (cvssString : String) : Except String (Option ℚ) :=
  match calculateTemporalResult cvssString with
  | .error e => .error e
  | .ok r => .ok r.score

/-! ## Rounding lemmas -/

/-- `Rat.floor` agrees with the `Int.floor` of Mathlib's `FloorRing ℚ`. -/
theorem ratFloor_eq_floor (q : ℚ) : Rat.floor q = ⌊q⌋ :=
  (Rat.floor_def' q).trans Rat.floor_def.symm

/-- `jsRound` as an `Int.floor`. -/
theorem jsRound_eq_floor (q : ℚ) : jsRound q = ⌊q + 1/2⌋ := ratFloor_eq_floor _

/-- `Math.round` is the identity on integers. -/
theorem jsRound_intCast (n : ℤ) : jsRound (n : ℚ) = n := by
  rw [jsRound_eq_floor, add_comm, Int.floor_add_int]
  norm_num

/-- `roundUp` is the identity on every integer multiple of 0.1. -/
theorem roundUp_int_tenth (k : ℤ) : roundUp ((k : ℚ) / 10) = (k : ℚ) / 10 := by
  unfold roundUp
  have h1 : (k : ℚ) / 10 * 100000 = ((10000 * k : ℤ) : ℚ) := by push_cast; ring
  rw [h1, jsRound_intCast]
  rw [if_pos (Int.mul_emod_right 10000 k)]
  push_cast
  ring

/-- Every `roundUp` output is an integer multiple of 0.1. -/
theorem roundUp_form (x : ℚ) : ∃ k : ℤ, roundUp x = (k : ℚ) / 10 := by
  unfold roundUp
  by_cases h : jsRound (x * 100000) % 10000 = 0
  · obtain ⟨c, hc⟩ := Int.dvd_of_emod_eq_zero h
    refine ⟨c, ?_⟩
    rw [if_pos h, hc]
    push_cast
    ring
  · exact ⟨Rat.floor ((jsRound (x * 100000) : ℚ) / 10000) + 1, by rw [if_neg h]; push_cast; ring⟩

/-- `roundUp` maps `[0, 10]` into the one-decimal grid `{k/10 : 0 ≤ k ≤ 100}`. -/
theorem roundUp_bounds (x : ℚ) (h0 : 0 ≤ x) (h10 : x ≤ 10) :
    ∃ k : ℕ, k ≤ 100 ∧ roundUp x = (k : ℚ) / 10 := by
  have hn0 : 0 ≤ jsRound (x * 100000) := by
    rw [jsRound_eq_floor]
    exact Int.floor_nonneg.mpr (by linarith)
  have hn1 : jsRound (x * 100000) ≤ 1000000 := by
    rw [jsRound_eq_floor]
    have : (⌊x * 100000 + 1/2⌋ : ℤ) < 1000001 := Int.floor_lt.mpr (by push_cast; linarith)
    omega
  unfold roundUp
  by_cases h : jsRound (x * 100000) % 10000 = 0
  · obtain ⟨c, hc⟩ := Int.dvd_of_emod_eq_zero h
    refine ⟨c.toNat, by omega, ?_⟩
    rw [if_pos h, hc]
    have hc0 : 0 ≤ c := by omega
    have hcq : ((c.toNat : ℕ) : ℚ) = ((c : ℤ) : ℚ) := by
      exact_mod_cast congrArg (fun z : ℤ => (z : ℚ)) (Int.toNat_of_nonneg hc0)
    rw [hcq]
    push_cast
    ring
  · have hfl : Rat.floor ((jsRound (x * 100000) : ℚ) / 10000) = jsRound (x * 100000) / 10000 := by
      rw [ratFloor_eq_floor]
      have h4 : ((10000 : ℚ)) = ((10000 : ℕ) : ℚ) := by norm_num
      rw [h4, Rat.floor_intCast_div_natCast]
      norm_num
    refine ⟨(jsRound (x * 100000) / 10000 + 1).toNat, by omega, ?_⟩
    rw [if_neg h, hfl]
    have hpos : 0 ≤ jsRound (x * 100000) / 10000 + 1 := by omega
    have hcq : (((jsRound (x * 100000) / 10000 + 1).toNat : ℕ) : ℚ) =
        ((jsRound (x * 100000) / 10000 + 1 : ℤ) : ℚ) := by
      exact_mod_cast congrArg (fun z : ℤ => (z : ℚ)) (Int.toNat_of_nonneg hpos)
    rw [hcq]
    push_cast
    ring

/-- roundUp stays in `[0, 10]` on `[0, 10]`. -/
theorem roundUp_mem_Icc (x : ℚ) (h0 : 0 ≤ x) (h10 : x ≤ 10) :
    0 ≤ roundUp x ∧ roundUp x ≤ 10 := by
  obtain ⟨k, hk, he⟩ := roundUp_bounds x h0 h10
  constructor
  · rw [he]; positivity
  · rw [he]
    rw [div_le_iff₀ (by norm_num : (0:ℚ) < 10)]
    calc (k : ℚ) ≤ 100 := by exact_mod_cast hk
    _ = 10 * 10 := by norm_num

/-- C9: the v3.x roundup multiplies by 100000, rounds to the nearest integer,
divides back by 100000 when the result is divisible by 10000 and otherwise
takes `floor(intInput/10000) + 1` over 10; on inputs already on a 0.1
boundary (every integer multiple of 0.1, e.g. exactly 4.00000) it returns
the boundary value itself (4.0, not 4.1). -/
theorem C9_roundup_policy :
    (∀ x : ℚ, roundUp x =
      (if jsRound (x * 100000) % 10000 = 0 then ((jsRound (x * 100000) : ℤ) : ℚ) / 100000
       else (((Rat.floor ((jsRound (x * 100000) : ℚ) / 10000) : ℤ) + 1 : ℤ) : ℚ) / 10)) ∧
    (∀ k : ℤ, roundUp ((k : ℚ) / 10) = (k : ℚ) / 10) ∧
    roundUp 4 = 4 := by
  refine ⟨fun x => ?_, roundUp_int_tenth, ?_⟩
  · unfold roundUp
    by_cases h : jsRound (x * 100000) % 10000 = 0
    · rw [if_pos h, if_pos h]
    · rw [if_neg h, if_neg h]
      push_cast
      ring
  · have h := roundUp_int_tenth 40
    norm_num at h
    exact h

/-- C8: Privileges-Required weights depend jointly on the PR value and the
(possibly modified) Scope value — N ↦ 0.85 for every scope; L ↦ 0.62 iff the
scope is Unchanged, else 0.68; H ↦ 0.27 iff Unchanged, else 0.5 — and both
`PR` and `MPR` are routed through this scope-dependent table (using `S`
resp. `MS`) by `getMetricNumericValue`. -/
theorem C8_privileges_required_scope_dependent :
    (∀ sc : String, (sc = "U" ∨ sc = "C" ∨ sc = "X") →
      getPrivilegesRequiredNumericValue "N" sc = some (85/100) ∧
      getPrivilegesRequiredNumericValue "L" sc =
        some (if sc = "U" then 62/100 else 68/100) ∧
      getPrivilegesRequiredNumericValue "H" sc =
        some (if sc = "U" then 27/100 else 5/10)) ∧
    (∀ (mp : MMap) (v sc : String),
      getM mp "PR" = some v → getM mp "S" = some sc →
      getMetricNumericValue "PR" mp = getPrivilegesRequiredNumericValue v sc) ∧
    (∀ (mp : MMap) (v sc : String),
      getM mp "MPR" = some v → getM mp "MS" = some sc →
      getMetricNumericValue "MPR" mp = getPrivilegesRequiredNumericValue v sc) := by
  refine ⟨fun sc hsc => ?_, fun mp v sc h1 h2 => ?_, fun mp v sc h1 h2 => ?_⟩
  · rcases hsc with h | h | h <;> subst h <;>
      exact ⟨by with_unfolding_all rfl, by with_unfolding_all rfl, by with_unfolding_all rfl⟩
  · unfold getMetricNumericValue getMetricValue
    rw [h1, h2]
    simp
  · unfold getMetricNumericValue getMetricValue
    rw [h1, h2]
    simp

/-- Closed witness for `C8_privileges_required_scope_dependent`. -/
theorem C8_witness :
    getPrivilegesRequiredNumericValue "L" "C" = some (if "C" = "U" then 62/100 else 68/100) ∧
    getMetricNumericValue "PR" [("PR", "H"), ("S", "U")] =
      getPrivilegesRequiredNumericValue "H" "U" := by
  refine ⟨(C8_privileges_required_scope_dependent.1 "C" (Or.inr (Or.inl rfl))).2.1, ?_⟩
  exact C8_privileges_required_scope_dependent.2.1 [("PR", "H"), ("S", "U")] "H" "U"
    (by decide) (by decide)

/-- C4: `calculateBaseScore` reproduces the two published regression values:
3.8 on `CVSS:3.1/AV:N/AC:L/PR:H/UI:N/S:U/C:L/I:L/A:N` and 8.6 on
`CVSS:3.0/AV:N/AC:L/PR:N/UI:N/S:C/C:H/I:N/A:N`. -/
theorem C4_published_regression_values :
    calculateBaseScore "CVSS:3.1/AV:N/AC:L/PR:H/UI:N/S:U/C:L/I:L/A:N" =
      .ok (some (38/10)) ∧
    calculateBaseScore "CVSS:3.0/AV:N/AC:L/PR:N/UI:N/S:C/C:H/I:N/A:N" =
      .ok (some (86/10)) := by
  constructor
  · with_unfolding_all rfl
  · with_unfolding_all rfl

/-! ## Lemmas about the v4 validation loop -/

/-- `advanceTo` returns a suffix, so its elements come from the input. -/
theorem advanceTo_subset (k : String) :
    ∀ (l : List (String × List String)), ∀ x ∈ advanceTo k l, x ∈ l := by
  intro l
  induction l with
  | nil => intro x hx; simp [advanceTo] at hx
  | cons p t ih =>
    intro x hx
    by_cases hp : p.1 = k
    · rw [advanceTo, if_pos hp] at hx
      exact hx
    · rw [advanceTo, if_neg hp] at hx
      exact List.mem_cons_of_mem p (ih x hx)

/-- When `advanceTo` stops at an entry, that entry's key is the search key. -/
theorem advanceTo_head (k : String) :
    ∀ (l : List (String × List String)) (e : String × List String)
      (t : List (String × List String)), advanceTo k l = e :: t → e.1 = k := by
  intro l
  induction l with
  | nil => intro e t h; simp [advanceTo] at h
  | cons p tl ih =>
    intro e t h
    by_cases hp : p.1 = k
    · rw [advanceTo, if_pos hp] at h
      cases h
      exact hp
    · rw [advanceTo, if_neg hp] at h
      exact ih e t h

/-- The `unexpected metric` branch of the v4 validation loop is dead code:
an unknown key exhausts the canonical order scan first and is reported as
out of sequence. -/
theorem validateLoopV4_no_unexpected :
    ∀ (metrics : List String) (pending : List (String × List String)) (toSelect : Rec)
      (k : String), (∀ x ∈ pending, x ∈ expectedMetricOrder) →
      validateLoopV4 metrics pending toSelect ≠ .err (.unexpectedMetric k) := by
  intro metrics
  induction metrics with
  | nil =>
    intro pending toSelect k _ h
    rw [validateLoopV4] at h
    split at h <;> simp_all
  | cons seg rest ih =>
    intro pending toSelect k hsub h
    rw [validateLoopV4] at h
    by_cases hdup : hasKeyRec toSelect (keyValOf seg).1
    · rw [if_pos hdup] at h
      simp at h
    · rw [if_neg hdup] at h
      rcases hadv : advanceTo (keyValOf seg).1 pending with _ | ⟨e, t⟩
      · rw [hadv] at h
        simp at h
      · rw [hadv] at h
        simp only [] at h
        rcases hfind : expectedMetricOrder.find? (fun p => p.1 = (keyValOf seg).1) with _ | entry
        · exfalso
          have he1 : e.1 = (keyValOf seg).1 := advanceTo_head _ pending e t hadv
          have hmem : e ∈ expectedMetricOrder :=
            hsub e (advanceTo_subset _ pending e (hadv ▸ List.mem_cons_self e t))
          have := List.find?_eq_none.mp hfind e hmem
          simp [he1] at this
        · rw [hfind] at h
          simp only [] at h
          rcases hkv : (keyValOf seg).2 with _ | v
          · rw [hkv] at h
            simp at h
          · rw [hkv] at h
            simp only [] at h
            by_cases hc : entry.2.contains v
            · rw [if_pos hc] at h
              refine ih t (setRec toSelect (keyValOf seg).1 (some v)) k
                (fun x hx => hsub x (advanceTo_subset (keyValOf seg).1 pending x ?_)) h
              rw [hadv]
              exact List.mem_cons_of_mem e hx
            · rw [if_neg hc] at h
              simp at h

/-- The `unexpectedMetric` error of `validateVectorV4` is unreachable. -/
theorem validateVectorV4_no_unexpected (s : String) (k : String) :
    validateVectorV4 s ≠ .err (.unexpectedMetric k) := by
  rw [validateVectorV4]
  rcases h : splitSlash s with _ | ⟨pre, ms⟩
  · simp
  · simp only []
    by_cases hpre : pre = "CVSS:4.0"
    · rw [if_pos hpre]
      exact validateLoopV4_no_unexpected ms expectedMetricOrder [] k (fun x hx => hx)
    · rw [if_neg hpre]
      simp

/-- C2 counterexample: on a v4 vector containing the unknown key `ZZ`, the
validator reports the out-of-sequence error, not the unknown/unexpected
metric error the claim requires. -/
theorem C2_counterexample_unknown_key_error :
    validateVectorV4
        "CVSS:4.0/AV:N/AC:L/AT:N/PR:N/UI:N/VC:N/VI:N/VA:N/SC:N/SI:N/SA:N/ZZ:X" =
      .err (.outOfSequence "ZZ") ∧
    V4Error.outOfSequence "ZZ" ≠ V4Error.unexpectedMetric "ZZ" := by
  exact ⟨by decide, by decide⟩

/-- C2 (amended): metrics out of canonical order yield the out-of-sequence
error and duplicated keys yield the repeated-metric error (distinct errors),
but an unknown key also yields the out-of-sequence error: the
unexpected-metric error is dead code, unreachable for every input. -/
theorem C2_error_kinds :
    validateVectorV4
        "CVSS:4.0/AC:L/AV:N/AT:N/PR:N/UI:N/VC:N/VI:N/VA:N/SC:N/SI:N/SA:N" =
      .err (.outOfSequence "AV") ∧
    validateVectorV4
        "CVSS:4.0/AV:N/AV:N/AC:L/AT:N/PR:N/UI:N/VC:N/VI:N/VA:N/SC:N/SI:N/SA:N" =
      .err (.repeatedMetric "AV") ∧
    validateVectorV4
        "CVSS:4.0/AV:N/AC:L/AT:N/PR:N/UI:N/VC:N/VI:N/VA:N/SC:N/SI:N/SA:N/ZZ:X" =
      .err (.outOfSequence "ZZ") ∧
    (∀ (s k : String), validateVectorV4 s ≠ .err (.unexpectedMetric k)) := by
  exact ⟨by decide, by decide, by decide, validateVectorV4_no_unexpected⟩

/-- Closed witness for `C2_error_kinds` (instantiating its universal part). -/
theorem C2_witness :
    validateVectorV4 "CVSS:4.0" ≠ .err (.unexpectedMetric "AV") :=
  C2_error_kinds.2.2.2 "CVSS:4.0" "AV"

/-! ## C3: the generic validator rejects every valid v4 vector -/

/-- Membership in `setM`: the new pair or an old one. -/
theorem setM_mem : ∀ (mp : MMap) (k v : String) (p : String × String),
    p ∈ setM mp k v → p = (k, v) ∨ p ∈ mp := by
  intro mp k v p h
  induction mp with
  | nil => simpa [setM] using h
  | cons q t ih =>
    simp only [setM] at h
    by_cases hq : q.1 = k
    · rw [if_pos hq] at h
      rcases List.mem_cons.mp h with h1 | h1
      · exact Or.inl h1
      · exact Or.inr (List.mem_cons_of_mem q h1)
    · rw [if_neg hq] at h
      rcases List.mem_cons.mp h with h1 | h1
      · exact Or.inr (h1 ▸ List.mem_cons_self q t)
      · rcases ih h1 with h2 | h2
        · exact Or.inl h2
        · exact Or.inr (List.mem_cons_of_mem q h2)

/-- Every key in the parsed metrics map is the key of some vector segment. -/
theorem parseFold_mem :
    ∀ (segs : List String) (mp0 : MMap) (p : String × String),
      p ∈ segs.foldl
        (fun mp seg =>
          match splitColon seg with
          | k :: v :: _ => setM mp k v
          | _ => mp) mp0 →
      p ∈ mp0 ∨ ∃ seg ∈ segs, (keyValOf seg).1 = p.1 := by
  intro segs
  induction segs with
  | nil => intro mp0 p h; exact Or.inl h
  | cons seg rest ih =>
    intro mp0 p h
    rw [List.foldl_cons] at h
    rcases ih _ p h with h1 | h1
    · rcases hsp : splitColon seg with _ | ⟨k, tl⟩
      · rw [hsp] at h1
        exact Or.inl h1
      · rcases tl with _ | ⟨v, tl2⟩
        · rw [hsp] at h1
          exact Or.inl h1
        · rw [hsp] at h1
          rcases setM_mem mp0 k v p h1 with h2 | h2
          · refine Or.inr ⟨seg, List.mem_cons_self seg rest, ?_⟩
            rw [keyValOf, hsp, h2]
          · exact Or.inl h2
    · obtain ⟨sg, hm, hk⟩ := h1
      exact Or.inr ⟨sg, List.mem_cons_of_mem seg hm, hk⟩

/-- When the v4 loop succeeds, every processed segment's key is found in the
canonical order table. -/
theorem validateLoopV4_keys :
    ∀ (metrics : List String) (pending : List (String × List String)) (toSelect : Rec)
      (out : Rec), validateLoopV4 metrics pending toSelect = .ok out →
      ∀ seg ∈ metrics, ∃ entry,
        expectedMetricOrder.find? (fun p => p.1 = (keyValOf seg).1) = some entry := by
  intro metrics
  induction metrics with
  | nil => intro pending toSelect out _ seg hm; simp at hm
  | cons seg0 rest ih =>
    intro pending toSelect out h seg hm
    rw [validateLoopV4] at h
    by_cases hdup : hasKeyRec toSelect (keyValOf seg0).1
    · rw [if_pos hdup] at h
      simp at h
    · rw [if_neg hdup] at h
      rcases hadv : advanceTo (keyValOf seg0).1 pending with _ | ⟨e, t⟩
      · rw [hadv] at h
        simp at h
      · rw [hadv] at h
        simp only [] at h
        rcases hfind : expectedMetricOrder.find? (fun p => p.1 = (keyValOf seg0).1)
          with _ | entry
        · rw [hfind] at h
          simp at h
        · rw [hfind] at h
          simp only [] at h
          rcases hkv : (keyValOf seg0).2 with _ | v
          · rw [hkv] at h
            simp at h
          · rw [hkv] at h
            simp only [] at h
            by_cases hc : entry.2.contains v
            · rw [if_pos hc] at h
              rcases List.mem_cons.mp hm with h1 | h1
              · exact ⟨entry, h1 ▸ hfind⟩
              · exact ih t _ out h seg h1
            · rw [if_neg hc] at h
              simp at h

/-- No key of the v4 canonical order equals `C` (a v3-only base metric). -/
theorem no_C_in_v4_order : ∀ e ∈ expectedMetricOrder, e.1 ≠ "C" := by decide

/-- C3: `validate` and `validateVectorV4` never agree — for every vector
string accepted by `validateVectorV4`, `validate` throws (it discards the
v4 validation result and then demands the v3.x base metrics, among them `C`,
which is not a v4 metric key). -/
theorem C3_validate_throws_on_valid_v4 :
    ∀ (s : String) (sel : Rec), validateVectorV4 s = .ok sel →
    ∃ msg, validate s = .error msg := by
  intro s sel hok
  rcases hval : validate s with msg | r
  · exact ⟨msg, rfl⟩
  · exfalso
    simp only [validate] at hval
    split at hval
    · simp at hval
    · rcases hver : validateVersion (parseVersion s) with e | u
      · rw [hver] at hval
        simp at hval
      · rw [hver] at hval
        simp only [] at hval
        rcases hvec : validateVector (parseVector s) with e | u2
        · rw [hvec] at hval
          simp at hval
        · rw [hvec] at hval
          simp only [] at hval
          rcases hman : checkMandatoryMetrics (parseMetricsAsMap s) baseMetrics with e | u3
          · rw [hman] at hval
            simp at hval
          · -- the mandatory check passed, so the map contains the key C
            rw [checkMandatoryMetrics] at hman
            split at hman
            case isFalse => simp at hman
            case isTrue hall =>
            have hC : hasM (parseMetricsAsMap s) "C" = true := by
              simp [baseMetrics] at hall
              exact hall.2.2.2.2.2.1
            rw [hasM] at hC
            obtain ⟨p, hpmem, hpk'⟩ := List.any_eq_true.mp hC
            have hpk : p.1 = "C" := of_decide_eq_true hpk'
            -- p comes from some segment whose key is C
            rw [parseMetricsAsMap] at hpmem
            rcases parseFold_mem _ [] p hpmem with h0 | ⟨seg, hsegmem, hsegk⟩
            · simp at h0
            · -- the same segments were accepted by the v4 loop
              rw [validateVectorV4] at hok
              rcases hsp : splitSlash s with _ | ⟨pre, ms⟩
              · rw [hsp] at hok
                simp at hok
              · rw [hsp] at hok
                simp only [] at hok
                by_cases hpre : pre = "CVSS:4.0"
                · rw [if_pos hpre] at hok
                  have hseg' : seg ∈ ms := by
                    rw [hsp] at hsegmem
                    simpa using hsegmem
                  obtain ⟨entry, hfind⟩ :=
                    validateLoopV4_keys ms expectedMetricOrder [] sel hok seg hseg'
                  have hmem : entry ∈ expectedMetricOrder :=
                    List.mem_of_find?_eq_some hfind
                  have hkey : entry.1 = (keyValOf seg).1 := by
                    have := List.find?_some hfind
                    simpa using this
                  exact no_C_in_v4_order entry hmem (by rw [hkey, hsegk, hpk])
                · rw [if_neg hpre] at hok
                  simp at hok

/-! ## C1: the v4 no-impact shortcut -/

/-- C1 counterexample: a valid v4 vector whose raw `VC..SA` are all `N` but
whose modified metrics are severe scores 10.0, not 0.0 — `cvss_score` tests
the shortcut on the effective (post-override) values. -/
theorem C1_counterexample_modified_metrics :
    calculateBaseScoreV4
        "CVSS:4.0/AV:N/AC:L/AT:N/PR:N/UI:N/VC:N/VI:N/VA:N/SC:N/SI:N/SA:N/MVC:H/MVI:H/MVA:H/MSC:H/MSI:S/MSA:S" =
      .ok (some 10) ∧ (10 : ℚ) ≠ 0 := by
  constructor
  · with_unfolding_all rfl
  · norm_num

/-- C1 (amended): for every valid CVSS:4.0 vector whose *effective* VC, VI,
VA, SC, SI, SA values — after applying the modified-metric overrides of `m`
— are all `N`, `calculateBaseScoreV4` returns 0.0. -/
theorem C1_shortcut_effective_values :
    ∀ (s : String) (sel : Rec), validateVectorV4 s = .ok sel →
    mIs (parseVectorV4 s) "VC" "N" = true →
    mIs (parseVectorV4 s) "VI" "N" = true →
    mIs (parseVectorV4 s) "VA" "N" = true →
    mIs (parseVectorV4 s) "SC" "N" = true →
    mIs (parseVectorV4 s) "SI" "N" = true →
    mIs (parseVectorV4 s) "SA" "N" = true →
    calculateBaseScoreV4 s = .ok (some 0) := by
  intro s sel hok h1 h2 h3 h4 h5 h6
  rw [calculateBaseScoreV4, hok]
  simp only []
  rw [cvss_score, if_pos]
  rw [h1, h2, h3, h4, h5, h6]
  rfl

/-- Closed witness for `C1_shortcut_effective_values` at an all-N vector. -/
theorem C1_witness :
    calculateBaseScoreV4
        "CVSS:4.0/AV:N/AC:L/AT:N/PR:N/UI:N/VC:N/VI:N/VA:N/SC:N/SI:N/SA:N" =
      .ok (some 0) :=
  C1_shortcut_effective_values
    "CVSS:4.0/AV:N/AC:L/AT:N/PR:N/UI:N/VC:N/VI:N/VA:N/SC:N/SI:N/SA:N"
    [("AV", some "N"), ("AC", some "L"), ("AT", some "N"), ("PR", some "N"),
     ("UI", some "N"), ("VC", some "N"), ("VI", some "N"), ("VA", some "N"),
     ("SC", some "N"), ("SI", some "N"), ("SA", some "N")]
    (by decide) (by decide) (by decide) (by decide) (by decide) (by decide) (by decide)

/-- Closed witness for `C3_validate_throws_on_valid_v4`. -/
theorem C3_witness :
    ∃ msg, validate "CVSS:4.0/AV:N/AC:L/AT:N/PR:N/UI:N/VC:N/VI:N/VA:N/SC:N/SI:N/SA:N" =
      .error msg :=
  C3_validate_throws_on_valid_v4
    "CVSS:4.0/AV:N/AC:L/AT:N/PR:N/UI:N/VC:N/VI:N/VA:N/SC:N/SI:N/SA:N"
    [("AV", some "N"), ("AC", some "L"), ("AT", some "N"), ("PR", some "N"),
     ("UI", some "N"), ("VC", some "N"), ("VI", some "N"), ("VA", some "N"),
     ("SC", some "N"), ("SI", some "N"), ("SA", some "N")]
    (by decide)

/-! ## C7: version threading into ModifiedImpact -/

/-- Splitting distributes over a concrete `CVSS:3.0/` prefix. -/
theorem splitSlash_30 (rest : String) :
    splitSlash ("CVSS:3.0/" ++ rest) = "CVSS:3.0" :: splitSlash rest := rfl

/-- Splitting distributes over a concrete `CVSS:3.1/` prefix. -/
theorem splitSlash_31 (rest : String) :
    splitSlash ("CVSS:3.1/" ++ rest) = "CVSS:3.1" :: splitSlash rest := rfl

/-- The metric map does not depend on the version digit of the prefix. -/
theorem parseMetricsAsMap_30_31 (rest : String) :
    parseMetricsAsMap ("CVSS:3.0/" ++ rest) = parseMetricsAsMap ("CVSS:3.1/" ++ rest) := by
  rw [parseMetricsAsMap, parseMetricsAsMap, splitSlash_30, splitSlash_31]
  rfl

/-- The vector part does not depend on the version digit of the prefix. -/
theorem parseVector_30_31 (rest : String) :
    parseVector ("CVSS:3.0/" ++ rest) = parseVector ("CVSS:3.1/" ++ rest) := by
  rw [parseVector, parseVector, splitSlash_30, splitSlash_31]
  rcases splitSlash rest with _ | ⟨a, t⟩ <;> rfl

/-- `validate` returns the same result on `CVSS:3.0/` and `CVSS:3.1/`
vectors up to the recorded version string. -/
theorem validate_30_31 (rest : String) :
    validate ("CVSS:3.0/" ++ rest) =
      (validate ("CVSS:3.1/" ++ rest)).map
        (fun r => ⟨r.metricsMap, r.isTemporal, r.isEnvironmental, some "3.0"⟩) := by
  rw [validate, validate]
  rw [show jsStartsWith ("CVSS:3.0/" ++ rest) "CVSS:" = true from rfl,
      show jsStartsWith ("CVSS:3.1/" ++ rest) "CVSS:" = true from rfl]
  simp only [Bool.not_true, if_false, Bool.false_eq_true]
  rw [show parseVersion ("CVSS:3.0/" ++ rest) = some "3.0" from rfl,
      show parseVersion ("CVSS:3.1/" ++ rest) = some "3.1" from rfl,
      parseVector_30_31, parseMetricsAsMap_30_31]
  rw [show validateVersion (some "3.0") = .ok () from rfl,
      show validateVersion (some "3.1") = .ok () from rfl]
  simp only []
  rcases validateVector (parseVector ("CVSS:3.1/" ++ rest)) with e | u <;> simp only []
  · rfl
  rcases checkMandatoryMetrics (parseMetricsAsMap ("CVSS:3.1/" ++ rest)) baseMetrics
    with e | u2 <;> simp only []
  · rfl
  rcases checkUnknownMetrics (parseMetricsAsMap ("CVSS:3.1/" ++ rest)) allKnownMetrics
    with e | u3 <;> simp only []
  · rfl
  rcases checkMetricsValues (parseMetricsAsMap ("CVSS:3.1/" ++ rest)) allKnownMetrics
    allKnownMetricValues with e | u4 <;> simp only []
  · rfl
  rfl

/-- The base result is identical on `CVSS:3.0/` and `CVSS:3.1/` vectors. -/
theorem calculateBaseResult_30_31 (rest : String) :
    calculateBaseResult ("CVSS:3.0/" ++ rest) = calculateBaseResult ("CVSS:3.1/" ++ rest) := by
  rw [calculateBaseResult, calculateBaseResult, validate_30_31 rest]
  rcases validate ("CVSS:3.1/" ++ rest) with e | r <;> rfl

/-- C7: `calculateModifiedImpact` is the only version-dependent computation:
(i) with Modified Scope Changed it computes
`7.52·(MISS − 0.029) − 3.25·(MISS·0.9731 − 0.02)^13` for version 3.1 and
uses scaling 1 and exponent 15 for version 3.0 (the version string from
validation is an explicit argument); (ii) the base and temporal scores of a
vector do not depend on whether its prefix is `CVSS:3.0` or `CVSS:3.1`;
(iii) the environmental score — the one consumer of `calculateModifiedImpact`
— also agrees between the two versions whenever the effective Modified Scope
is Unchanged, i.e. whenever the version-dependent branch is not taken. -/
theorem C7_modified_impact_version_dependence :
    (∀ (mp : MMap) (q : ℚ), getM mp "MS" ≠ some "U" →
      calculateModifiedImpact mp (some q) (some "3.1") =
        some (752/100 * (q - 29/1000) - 325/100 * (q * (9731/10000) - 2/100) ^ 13) ∧
      calculateModifiedImpact mp (some q) (some "3.0") =
        some (752/100 * (q - 29/1000) - 325/100 * (q * 1 - 2/100) ^ 15)) ∧
    (∀ (mp : MMap) (q : ℚ) (v : Option String), getM mp "MS" = some "U" →
      calculateModifiedImpact mp (some q) v = some (642/100 * q)) ∧
    (∀ rest : String,
      calculateBaseScore ("CVSS:3.0/" ++ rest) = calculateBaseScore ("CVSS:3.1/" ++ rest) ∧
      calculateTemporalScore ("CVSS:3.0/" ++ rest) =
        calculateTemporalScore ("CVSS:3.1/" ++ rest)) ∧
    (∀ (rest : String) (r : VRes), validate ("CVSS:3.1/" ++ rest) = .ok r →
      getM (populateEnvironmentalMetricDefaults
        (populateTemporalMetricDefaults r.metricsMap)) "MS" = some "U" →
      calculateEnvironmentalScore ("CVSS:3.0/" ++ rest) =
        calculateEnvironmentalScore ("CVSS:3.1/" ++ rest)) := by
  refine ⟨fun mp q hms => ⟨?_, ?_⟩, fun mp q v hms => ?_, fun rest => ⟨?_, ?_⟩,
    fun rest r hv hms => ?_⟩
  · rw [calculateModifiedImpact, if_neg hms]
    simp [jsSub, jsMul, jsPow]
  · rw [calculateModifiedImpact, if_neg hms]
    simp [jsSub, jsMul, jsPow]
  · rw [calculateModifiedImpact, if_pos hms]
    simp [jsMul]
  · rw [calculateBaseScore, calculateBaseScore,
      show detectCvssVersion ("CVSS:3.0/" ++ rest) = .ok "3.1" from rfl,
      show detectCvssVersion ("CVSS:3.1/" ++ rest) = .ok "3.1" from rfl]
    simp only []
    rw [calculateBaseResult_30_31 rest]
    have h414 : ¬("3.1" : String) = "4.0" := by decide
    rw [if_neg h414, if_neg h414]
  · rw [calculateTemporalScore, calculateTemporalScore,
      calculateTemporalResult, calculateTemporalResult, validate_30_31 rest,
      calculateBaseResult_30_31 rest]
    rcases hv2 : validate ("CVSS:3.1/" ++ rest) with e | r
    · rfl
    · simp only [Except.map]
  · rw [calculateEnvironmentalScore, calculateEnvironmentalScore,
      calculateEnvironmentalResult, calculateEnvironmentalResult, validate_30_31 rest, hv]
    simp only [Except.map]
    rw [calculateModifiedImpact, calculateModifiedImpact, hms]
    simp only [eq_self_iff_true, if_true]

/-! ## C10: temporal score equals base score without temporal metrics -/

/-- Multiplying a JS number by the literal weight 1 is the identity. -/
theorem jsMul_one (x : Option ℚ) : jsMul x (some 1) = x := by
  cases x <;> simp [jsMul]

/-- `set` then `has`. -/
theorem hasM_setM (mp : MMap) (k v k' : String) :
    hasM (setM mp k v) k' = (decide (k' = k) || hasM mp k') := by
  induction mp with
  | nil =>
    simp only [setM, hasM, List.any_cons, List.any_nil, Bool.or_false]
    exact decide_eq_decide.mpr eq_comm
  | cons p t ih =>
    simp only [setM]
    by_cases hp : p.1 = k
    · rw [if_pos hp]
      simp only [hasM, List.any_cons] at ih ⊢
      rw [hp]
      have hdd : (decide (k = k')) = decide (k' = k) := decide_eq_decide.mpr eq_comm
      rw [hdd, ← Bool.or_assoc, Bool.or_self]
    · rw [if_neg hp]
      simp only [hasM, List.any_cons] at ih ⊢
      rw [ih, Bool.or_left_comm]

/-- `set` then `get`. -/
theorem getM_setM (mp : MMap) (k v k' : String) :
    getM (setM mp k v) k' = if k' = k then some v else getM mp k' := by
  induction mp with
  | nil =>
    by_cases hk : k' = k
    · rw [if_pos hk]
      simp [setM, getM, List.find?, hk]
    · rw [if_neg hk]
      have hd : (decide (k = k')) = false := by
        simp only [decide_eq_false_iff_not]
        exact fun h => hk h.symm
      simp [setM, getM, List.find?, hd]
  | cons p t ih =>
    simp only [setM]
    by_cases hp : p.1 = k
    · rw [if_pos hp]
      by_cases hk : k' = k
      · rw [if_pos hk]
        have hd : (decide (k = k')) = true := by simp [hk]
        simp [getM, List.find?, hd]
      · rw [if_neg hk]
        have hd : (decide (k = k')) = false := by
          simp only [decide_eq_false_iff_not]
          exact fun h => hk h.symm
        have hd2 : (decide (p.1 = k')) = false := by
          simp only [decide_eq_false_iff_not]
          rw [hp]
          exact fun h => hk h.symm
        simp only [getM, List.find?, hd, hd2]
    · rw [if_neg hp]
      by_cases hk2 : p.1 = k'
      · have hkk : ¬k' = k := fun h => hp (by rw [hk2, h])
        rw [if_neg hkk]
        have hd : (decide (p.1 = k')) = true := by simp [hk2]
        simp only [getM, List.find?, hd]
      · have hd : (decide (p.1 = k')) = false := by simp [hk2]
        simp only [getM, List.find?, hd] at ih ⊢
        exact ih

/-- With no temporal keys present, the populated map is three `X` inserts. -/
theorem populateTemporal_absent (mp : MMap)
    (hE : hasM mp "E" = false) (hRL : hasM mp "RL" = false)
    (hRC : hasM mp "RC" = false) :
    populateTemporalMetricDefaults mp =
      setM (setM (setM mp "E" "X") "RL" "X") "RC" "X" := by
  have h2 : hasM (setM mp "E" "X") "RL" = false := by
    rw [hasM_setM]
    simp [hRL]
  have h3 : hasM (setM (setM mp "E" "X") "RL" "X") "RC" = false := by
    rw [hasM_setM, hasM_setM]
    simp [hRC]
  simp [populateTemporalMetricDefaults, temporalMetrics, hE, h2, h3]

/-- The three temporal weights of the populated map are 1. -/
theorem temporal_weights_one (mp : MMap)
    (hE : hasM mp "E" = false) (hRL : hasM mp "RL" = false)
    (hRC : hasM mp "RC" = false) :
    getMetricNumericValue "E" (populateTemporalMetricDefaults mp) = some 1 ∧
    getMetricNumericValue "RL" (populateTemporalMetricDefaults mp) = some 1 ∧
    getMetricNumericValue "RC" (populateTemporalMetricDefaults mp) = some 1 := by
  rw [populateTemporal_absent mp hE hRL hRC]
  refine ⟨?_, ?_, ?_⟩ <;>
    simp [getMetricNumericValue, getMetricValue, getM_setM, metricValueScore]

/-- `roundUp` composed with itself is `roundUp`. -/
theorem roundUpOpt_idem (w : Option ℚ) : roundUpOpt (roundUpOpt w) = roundUpOpt w := by
  cases w with
  | none => rfl
  | some y =>
    obtain ⟨k, hk⟩ := roundUp_form y
    simp only [roundUpOpt, Option.map]
    rw [hk, roundUp_int_tenth]

/-- `roundUp` is the identity on every base-score output. -/
theorem roundUp_fix_base (A B : Prop) [Decidable A] [Decidable B] (w1 w2 : Option ℚ) :
    roundUpOpt (if A then some 0 else if B then roundUpOpt w1 else roundUpOpt w2) =
      (if A then some 0 else if B then roundUpOpt w1 else roundUpOpt w2) := by
  by_cases hA : A
  · rw [if_pos hA]
    simp only [roundUpOpt, Option.map]
    have h0 := roundUp_int_tenth 0
    norm_num at h0
    rw [h0]
  · rw [if_neg hA]
    by_cases hB : B
    · rw [if_pos hB, roundUpOpt_idem]
    · rw [if_neg hB, roundUpOpt_idem]

/-- C10: on a valid v3.x vector with none of the temporal keys `E`, `RL`,
`RC`, the temporal score equals the base score: the temporal metrics default
to `X` (weight 1 each) and the v3 roundup is idempotent on the one-decimal
base score. -/
theorem C10_temporal_score_defaults_to_base :
    ∀ (s : String) (r : VRes), detectCvssVersion s = .ok "3.1" →
    validate s = .ok r →
    hasM r.metricsMap "E" = false → hasM r.metricsMap "RL" = false →
    hasM r.metricsMap "RC" = false →
    ∃ q : Option ℚ, calculateTemporalScore s = .ok q ∧ calculateBaseScore s = .ok q := by
  intro s r hdet hval hE hRL hRC
  obtain ⟨h1, h2, h3⟩ := temporal_weights_one r.metricsMap hE hRL hRC
  rcases hbr : calculateBaseResult s with e | br
  · exfalso
    rw [calculateBaseResult, hval] at hbr
    simp at hbr
  · have hscore : br.score =
        (if jsLe (calculateImpact r.metricsMap (calculateIss r.metricsMap)) 0 = true
         then some 0
         else if getM r.metricsMap "S" = some "U" then
           roundUpOpt (jsMin (jsAdd (calculateImpact r.metricsMap (calculateIss r.metricsMap))
             (calculateExploitability r.metricsMap)) 10)
         else
           roundUpOpt (jsMin (jsMul (some (108/100))
             (jsAdd (calculateImpact r.metricsMap (calculateIss r.metricsMap))
               (calculateExploitability r.metricsMap))) 10)) := by
      rw [calculateBaseResult, hval] at hbr
      simp only [] at hbr
      cases hbr
      by_cases hsc : getM r.metricsMap "S" = some "U" <;>
        by_cases himp : jsLe (calculateImpact r.metricsMap (calculateIss r.metricsMap)) 0 = true <;>
        simp [hsc, himp]
    refine ⟨br.score, ?_, ?_⟩
    · rw [calculateTemporalScore, calculateTemporalResult, hval]
      simp only []
      rw [hbr]
      simp only []
      rw [h1, h2, h3, jsMul_one, jsMul_one, jsMul_one]
      rw [hscore, roundUp_fix_base]
    · rw [calculateBaseScore, hdet]
      simp only []
      rw [if_neg (show ¬("3.1" : String) = "4.0" by decide)]
      simp [hbr]

/-- Closed witness for `C7_modified_impact_version_dependence`. -/
theorem C7_witness :
    calculateModifiedImpact [("MS", "C")] (some (1/2)) (some "3.1") =
      some (752/100 * ((1:ℚ)/2 - 29/1000) - 325/100 * ((1:ℚ)/2 * (9731/10000) - 2/100) ^ 13) ∧
    calculateEnvironmentalScore ("CVSS:3.0/" ++ "AV:N/AC:L/PR:H/UI:N/S:U/C:L/I:L/A:N") =
      calculateEnvironmentalScore ("CVSS:3.1/" ++ "AV:N/AC:L/PR:H/UI:N/S:U/C:L/I:L/A:N") := by
  refine ⟨(C7_modified_impact_version_dependence.1 [("MS", "C")] (1/2) (by decide)).1, ?_⟩
  exact C7_modified_impact_version_dependence.2.2.2 "AV:N/AC:L/PR:H/UI:N/S:U/C:L/I:L/A:N"
    ⟨[("AV", "N"), ("AC", "L"), ("PR", "H"), ("UI", "N"), ("S", "U"),
      ("C", "L"), ("I", "L"), ("A", "N")], false, false, some "3.1"⟩
    (by decide) (by decide)

/-- Closed witness for `C10_temporal_score_defaults_to_base`. -/
theorem C10_witness :
    ∃ q : Option ℚ,
      calculateTemporalScore "CVSS:3.1/AV:N/AC:L/PR:H/UI:N/S:U/C:L/I:L/A:N" = .ok q ∧
      calculateBaseScore "CVSS:3.1/AV:N/AC:L/PR:H/UI:N/S:U/C:L/I:L/A:N" = .ok q :=
  C10_temporal_score_defaults_to_base "CVSS:3.1/AV:N/AC:L/PR:H/UI:N/S:U/C:L/I:L/A:N"
    ⟨[("AV", "N"), ("AC", "L"), ("PR", "H"), ("UI", "N"), ("S", "U"),
      ("C", "L"), ("I", "L"), ("A", "N")], false, false, some "3.1"⟩
    (by decide) (by decide) (by decide) (by decide) (by decide)

/-! ## C5: the coupled EQ3/EQ6 next-lower-macro search -/

/-- From EQ3/EQ6 digit state (0,0), when both candidate neighbours are in
the table, the one with the higher score is selected. -/
theorem scoreEq3Eq6_zero_zero (lookup : String → Option ℚ) (d1 d2 d4 d5 : ℕ)
    (lv rv : ℚ)
    (hl : lookup (macroStr d1 d2 0 d4 d5 1) = some lv)
    (hr : lookup (macroStr d1 d2 1 d4 d5 0) = some rv) :
    scoreEq3Eq6NextLower lookup d1 d2 0 d4 d5 0 = some (max lv rv) := by
  rw [scoreEq3Eq6NextLower]
  rw [if_neg (by omega : ¬((0:ℕ) = 1 ∧ (0:ℕ) = 1)),
      if_neg (by omega : ¬((0:ℕ) = 0 ∧ (0:ℕ) = 1)),
      if_neg (by omega : ¬((0:ℕ) = 1 ∧ (0:ℕ) = 0)),
      if_pos (⟨rfl, rfl⟩ : (0:ℕ) = 0 ∧ (0:ℕ) = 0)]
  simp only [hl, hr, jsGt]
  by_cases h : rv < lv
  · rw [if_pos (by simpa using h)]
    rw [max_eq_left h.le]
  · rw [if_neg (by simpa using h)]
    rw [max_eq_right (not_lt.mp h)]

/-- In every other digit state a single deterministic neighbour string is
looked up: (1,1) ↦ (2,2); (0,1) ↦ (1,1); (1,0) ↦ (1,1); any remaining state
(d3,d6) outside (0,0) ↦ (d3+1,d6+1). -/
theorem scoreEq3Eq6_single (lookup : String → Option ℚ) (d1 d2 d4 d5 : ℕ) :
    scoreEq3Eq6NextLower lookup d1 d2 1 d4 d5 1 =
      lookup (macroStr d1 d2 2 d4 d5 2) ∧
    scoreEq3Eq6NextLower lookup d1 d2 0 d4 d5 1 =
      lookup (macroStr d1 d2 1 d4 d5 1) ∧
    scoreEq3Eq6NextLower lookup d1 d2 1 d4 d5 0 =
      lookup (macroStr d1 d2 1 d4 d5 1) ∧
    (∀ d3 d6 : ℕ, ¬(d3 = 0 ∧ d6 = 0) → ¬(d3 = 1 ∧ d6 = 1) → ¬(d3 = 0 ∧ d6 = 1) →
      ¬(d3 = 1 ∧ d6 = 0) →
      scoreEq3Eq6NextLower lookup d1 d2 d3 d4 d5 d6 =
        lookup (macroStr d1 d2 (d3 + 1) d4 d5 (d6 + 1))) := by
  refine ⟨?_, ?_, ?_, fun d3 d6 h00 h11 h01 h10 => ?_⟩
  · rw [scoreEq3Eq6NextLower, if_pos (⟨rfl, rfl⟩ : (1:ℕ) = 1 ∧ (1:ℕ) = 1)]
  · rw [scoreEq3Eq6NextLower,
      if_neg (by omega : ¬((0:ℕ) = 1 ∧ (1:ℕ) = 1)),
      if_pos (⟨rfl, rfl⟩ : (0:ℕ) = 0 ∧ (1:ℕ) = 1)]
  · rw [scoreEq3Eq6NextLower,
      if_neg (by omega : ¬((1:ℕ) = 1 ∧ (0:ℕ) = 1)),
      if_neg (by omega : ¬((1:ℕ) = 0 ∧ (0:ℕ) = 1)),
      if_pos (⟨rfl, rfl⟩ : (1:ℕ) = 1 ∧ (0:ℕ) = 0)]
  · rw [scoreEq3Eq6NextLower, if_neg h11, if_neg h01, if_neg h10, if_neg h00]

theorem reprDigit : ∀ d : ℕ, d ≤ 9 → Nat.repr d = String.mk [Nat.digitChar d] := by decide

theorem charDigit_digitChar : ∀ d : ℕ, d ≤ 9 → charDigit (some (Nat.digitChar d)) = some d := by
  decide

theorem macroStr_data (d1 d2 d3 d4 d5 d6 : ℕ) (h1 : d1 ≤ 9) (h2 : d2 ≤ 9) (h3 : d3 ≤ 9)
    (h4 : d4 ≤ 9) (h5 : d5 ≤ 9) (h6 : d6 ≤ 9) :
    (macroStr d1 d2 d3 d4 d5 d6).data =
      [Nat.digitChar d1, Nat.digitChar d2, Nat.digitChar d3,
       Nat.digitChar d4, Nat.digitChar d5, Nat.digitChar d6] := by
  rw [macroStr, reprDigit d1 h1, reprDigit d2 h2, reprDigit d3 h3, reprDigit d4 h4,
    reprDigit d5 h5, reprDigit d6 h6]
  rfl

theorem cvss_score_no_lower (sel : Rec) (lookup : String → Option ℚ)
    (msd : MaxSeverityData) (d1 d2 d3 d4 d5 d6 : ℕ) (k : ℤ)
    (hb1 : d1 ≤ 9) (hb2 : d2 ≤ 9) (hb3 : d3 ≤ 9) (hb4 : d4 ≤ 9) (hb5 : d5 ≤ 9)
    (hb6 : d6 ≤ 9)
    (hshort : (mIs sel "VC" "N" && mIs sel "VI" "N" && mIs sel "VA" "N" &&
      mIs sel "SC" "N" && mIs sel "SI" "N" && mIs sel "SA" "N") = false)
    (hv : lookup (macroStr d1 d2 d3 d4 d5 d6) = some ((k : ℚ)/10))
    (hk0 : 0 ≤ k) (hk1 : k ≤ 100)
    (hn1 : lookup (macroStr (d1+1) d2 d3 d4 d5 d6) = none)
    (hn2 : lookup (macroStr d1 (d2+1) d3 d4 d5 d6) = none)
    (hn36 : scoreEq3Eq6NextLower lookup d1 d2 d3 d4 d5 d6 = none)
    (hn4 : lookup (macroStr d1 d2 d3 (d4+1) d5 d6) = none)
    (hn5 : lookup (macroStr d1 d2 d3 d4 (d5+1) d6) = none) :
    cvss_score sel lookup msd (macroStr d1 d2 d3 d4 d5 d6) = some ((k : ℚ)/10) := by
  rw [cvss_score, hshort]
  simp only [Bool.false_eq_true, if_false]
  have hd := macroStr_data d1 d2 d3 d4 d5 d6 hb1 hb2 hb3 hb4 hb5 hb6
  simp only [hd, List.get?]
  simp only [charDigit_digitChar d1 hb1, charDigit_digitChar d2 hb2,
    charDigit_digitChar d3 hb3, charDigit_digitChar d4 hb4,
    charDigit_digitChar d5 hb5, charDigit_digitChar d6 hb6]
  simp only [hv, hn1, hn2, hn36, hn4, hn5]
  simp only [jsSub, normalizedContribution, jsAdd, jsDiv]
  simp only [if_true, sub_zero]
  have hge : ¬((k : ℚ)/10 < 0) := not_lt.mpr (by positivity)
  have hle : ¬((10 : ℚ) < (k : ℚ)/10) := not_lt.mpr (by
    rw [div_le_iff₀ (by norm_num : (0:ℚ) < 10)]
    have : ((k : ℚ)) ≤ 100 := by exact_mod_cast hk1
    linarith)
  have hmul : (k : ℚ)/10*10 = (k : ℚ) := div_mul_cancel₀ _ (by norm_num)
  simp [jsIsNeg, jsGt, jsRound10, hge, hle, hmul, jsRound_intCast]

/-- C5: the v4 next-lower-macro search.  (i) From EQ3/EQ6 digit state (0,0)
there are exactly two candidate neighbours — EQ6 incremented and EQ3
incremented — both are looked up and the higher table score is used (when
both are present).  (ii) Every other state uses a single deterministic
neighbour string.  (iii) A neighbour absent from the lookup table is
excluded from the mean of normalized distances rather than contributing 0:
when no equivalence class has an available lower neighbour the mean distance
is 0 and the returned score is the plain table value.  (iv) Concretely, with
only the EQ1 lower neighbour available (table 10 → 9, severity distance 0.1,
class depth 4·0.1), the score is 10 − (0.25/1) = 9.8 — exclusion — rather
than the 10.0 that counting the four absent neighbours as 0 would give. -/
theorem C5_next_lower_macro_search :
    (∀ (lookup : String → Option ℚ) (d1 d2 d4 d5 : ℕ) (lv rv : ℚ),
      lookup (macroStr d1 d2 0 d4 d5 1) = some lv →
      lookup (macroStr d1 d2 1 d4 d5 0) = some rv →
      scoreEq3Eq6NextLower lookup d1 d2 0 d4 d5 0 = some (max lv rv)) ∧
    (∀ (lookup : String → Option ℚ) (d1 d2 d4 d5 : ℕ),
      scoreEq3Eq6NextLower lookup d1 d2 1 d4 d5 1 =
        lookup (macroStr d1 d2 2 d4 d5 2) ∧
      scoreEq3Eq6NextLower lookup d1 d2 0 d4 d5 1 =
        lookup (macroStr d1 d2 1 d4 d5 1) ∧
      scoreEq3Eq6NextLower lookup d1 d2 1 d4 d5 0 =
        lookup (macroStr d1 d2 1 d4 d5 1) ∧
      (∀ d3 d6 : ℕ, ¬(d3 = 0 ∧ d6 = 0) → ¬(d3 = 1 ∧ d6 = 1) → ¬(d3 = 0 ∧ d6 = 1) →
        ¬(d3 = 1 ∧ d6 = 0) →
        scoreEq3Eq6NextLower lookup d1 d2 d3 d4 d5 d6 =
          lookup (macroStr d1 d2 (d3 + 1) d4 d5 (d6 + 1)))) ∧
    (∀ (sel : Rec) (lookup : String → Option ℚ) (msd : MaxSeverityData)
      (d1 d2 d3 d4 d5 d6 : ℕ) (k : ℤ),
      d1 ≤ 9 → d2 ≤ 9 → d3 ≤ 9 → d4 ≤ 9 → d5 ≤ 9 → d6 ≤ 9 →
      (mIs sel "VC" "N" && mIs sel "VI" "N" && mIs sel "VA" "N" &&
        mIs sel "SC" "N" && mIs sel "SI" "N" && mIs sel "SA" "N") = false →
      lookup (macroStr d1 d2 d3 d4 d5 d6) = some ((k : ℚ)/10) →
      0 ≤ k → k ≤ 100 →
      lookup (macroStr (d1+1) d2 d3 d4 d5 d6) = none →
      lookup (macroStr d1 (d2+1) d3 d4 d5 d6) = none →
      scoreEq3Eq6NextLower lookup d1 d2 d3 d4 d5 d6 = none →
      lookup (macroStr d1 d2 d3 (d4+1) d5 d6) = none →
      lookup (macroStr d1 d2 d3 d4 (d5+1) d6) = none →
      cvss_score sel lookup msd (macroStr d1 d2 d3 d4 d5 d6) = some ((k : ℚ)/10)) ∧
    (macroVector (parseVectorV4
        "CVSS:4.0/AV:L/AC:L/AT:N/PR:N/UI:N/VC:H/VI:H/VA:H/SC:N/SI:N/SA:N") = "100200" ∧
     cvss_score (parseVectorV4
        "CVSS:4.0/AV:L/AC:L/AT:N/PR:N/UI:N/VC:H/VI:H/VA:H/SC:N/SI:N/SA:N")
       (fun s => if s = "100200" then some 10 else if s = "200200" then some 9 else none)
       maxSeverityV4 "100200" = some (49/5)) := by
  refine ⟨scoreEq3Eq6_zero_zero, scoreEq3Eq6_single, ?_, ?_, ?_⟩
  · intro sel lookup msd d1 d2 d3 d4 d5 d6 k hb1 hb2 hb3 hb4 hb5 hb6 hshort hv hk0 hk1
      hn1 hn2 hn36 hn4 hn5
    exact cvss_score_no_lower sel lookup msd d1 d2 d3 d4 d5 d6 k hb1 hb2 hb3 hb4 hb5 hb6
      hshort hv hk0 hk1 hn1 hn2 hn36 hn4 hn5
  · with_unfolding_all rfl
  · with_unfolding_all rfl

/-- Closed witness for `C5_next_lower_macro_search`. -/
theorem C5_witness :
    scoreEq3Eq6NextLower
      (fun s => if s = "000001" then some 7 else if s = "001000" then some 5 else none)
      0 0 0 0 0 0 = some (max 7 5) ∧
    cvss_score (parseVectorV4
        "CVSS:4.0/AV:L/AC:L/AT:N/PR:N/UI:N/VC:H/VI:H/VA:H/SC:N/SI:N/SA:N")
      (fun s => if s = "100200" then some (((73 : ℤ) : ℚ)/10) else none)
      maxSeverityV4 (macroStr 1 0 0 2 0 0) = some (((73 : ℤ) : ℚ)/10) := by
  constructor
  · exact C5_next_lower_macro_search.1
      (fun s => if s = "000001" then some 7 else if s = "001000" then some 5 else none)
      0 0 0 0 7 5 (by with_unfolding_all rfl) (by with_unfolding_all rfl)
  · exact C5_next_lower_macro_search.2.2.1 (parseVectorV4
        "CVSS:4.0/AV:L/AC:L/AT:N/PR:N/UI:N/VC:H/VI:H/VA:H/SC:N/SI:N/SA:N")
      (fun s => if s = "100200" then some (((73 : ℤ) : ℚ)/10) else none)
      maxSeverityV4 1 0 0 2 0 0 73
      (by norm_num) (by norm_num) (by norm_num) (by norm_num) (by norm_num) (by norm_num)
      (by with_unfolding_all rfl) (by with_unfolding_all rfl) (by norm_num) (by norm_num)
      (by with_unfolding_all rfl) (by with_unfolding_all rfl) (by with_unfolding_all rfl)
      (by with_unfolding_all rfl) (by with_unfolding_all rfl)

/-! ## C6 infrastructure: positional reasoning for `extractValueMetric` -/

/-- The pattern provably mismatches within the available characters. -/
def cantMatch : List Char → List Char → Bool
  | [], _ => false
  | _ :: _, [] => false
  | x :: xs, c :: cs => !(x = c) || cantMatch xs cs

/-- The pattern cannot start at any position of the prefix `p`, regardless
of what follows. -/
def skipOK : List Char → List Char → Bool
  | _, [] => true
  | pat, c :: rest => cantMatch pat (c :: rest) && skipOK pat rest

/-- A `cantMatch` verdict survives appending more characters. -/
theorem isPrefixList_of_cantMatch :
    ∀ (pat avail : List Char), cantMatch pat avail = true →
      ∀ t, isPrefixList pat (avail ++ t) = false := by
  intro pat
  induction pat with
  | nil => intro avail h; simp [cantMatch] at h
  | cons x xs ih =>
    intro avail h t
    cases avail with
    | nil => simp [cantMatch] at h
    | cons c cs =>
      simp only [cantMatch, Bool.or_eq_true, Bool.not_eq_true'] at h
      rcases h with h | h
      · simp only [List.cons_append, isPrefixList]
        rw [h]
        rfl
      · simp only [List.cons_append, isPrefixList]
        rw [show cs.append t = cs ++ t from rfl, ih cs h t, Bool.and_false]

/-- Scanning across a skip-clean prefix shifts the match position. -/
theorem indexOfSeq_append_of_skipOK :
    ∀ (p : List Char) (pat t : List Char), skipOK pat p = true →
      indexOfSeq pat (p ++ t) = (indexOfSeq pat t).map (fun n => n + p.length) := by
  intro p
  induction p with
  | nil =>
    intro pat t _
    cases h : indexOfSeq pat t <;> simp [h]
  | cons c rest ih =>
    intro pat t hsk
    simp only [skipOK, Bool.and_eq_true] at hsk
    have hpref := isPrefixList_of_cantMatch pat (c :: rest) hsk.1 t
    simp only [List.cons_append] at hpref ⊢
    rw [indexOfSeq, hpref]
    simp only [Bool.false_eq_true, if_false]
    rw [ih pat t hsk.2]
    cases h : indexOfSeq pat t <;> simp [h, List.length_cons]
    omega

/-- Dropping past an appended prefix. -/
theorem drop_len_add :
    ∀ (p t : List Char) (n : ℕ), (p ++ t).drop (p.length + n) = t.drop n := by
  intro p
  induction p with
  | nil => intro t n; simp
  | cons c rest ih =>
    intro t n
    simp only [List.cons_append, List.length_cons, List.drop]
    rw [show rest.length + 1 + n = Nat.succ (rest.length + n) by omega]
    simp [ih t n]

/-- Extraction of a metric occurring in `t` ignores a skip-clean prefix. -/
theorem extractValueMetric_append (metric p t : String)
    (hskip : skipOK metric.data p.data = true)
    (hocc : (indexOfSeq metric.data t.data).isSome = true) :
    extractValueMetric metric (String.mk (p.data ++ t.data)) =
      extractValueMetric metric t := by
  obtain ⟨j, hj⟩ := Option.isSome_iff_exists.mp hocc
  unfold extractValueMetric
  rw [show (String.mk (p.data ++ t.data)).data = p.data ++ t.data from rfl]
  rw [indexOfSeq_append_of_skipOK p.data metric.data t.data hskip, hj]
  simp only [Option.map_some']
  have harith : ((((j + p.data.length : ℕ) : ℤ)) + metric.data.length + 1).toNat =
      p.data.length + (((j : ℤ) + metric.data.length + 1).toNat) := by omega
  rw [harith, drop_len_add]

/-- String append is associative (via the underlying lists). -/
theorem strAppend_assoc (a b c : String) : (a ++ b) ++ c = a ++ (b ++ c) := by
  show String.mk ((a.data ++ b.data) ++ c.data) = String.mk (a.data ++ (b.data ++ c.data))
  rw [List.append_assoc]

/-- Occurrence is preserved under a skip-clean prefix. -/
theorem occ_append (pat p t : List Char) (hskip : skipOK pat p = true)
    (hocc : (indexOfSeq pat t).isSome = true) :
    (indexOfSeq pat (p ++ t)).isSome = true := by
  rw [indexOfSeq_append_of_skipOK p pat t hskip]
  cases h : indexOfSeq pat t
  · rw [h] at hocc
    simp at hocc
  · simp [h]

/-! ### C6: value facts about `parseVectorV4` of a valid v4 vector -/

/-- The allowed-value set of a v4 metric key (its `expectedMetricOrder` row). -/
def v4catalog (k : String) : List String :=
  ((expectedMetricOrder.find? (fun p => p.1 = k)).map (fun p => p.2)).getD []

/-- Every binding of the record holds a defined value in its key's catalog. -/
def WellValued (r : Rec) : Prop :=
  ∀ p ∈ r, ∃ v, p.2 = some v ∧ v ∈ v4catalog p.1

/-- Membership in `setRec`: the new pair or an old one. -/
theorem setRec_mem : ∀ (r : Rec) (k : String) (v : Option String)
    (p : String × Option String), p ∈ setRec r k v → p = (k, v) ∨ p ∈ r := by
  intro r k v p h
  induction r with
  | nil => simpa [setRec] using h
  | cons q t ih =>
    simp only [setRec] at h
    by_cases hq : q.1 = k
    · rw [if_pos hq] at h
      rcases List.mem_cons.mp h with h1 | h1
      · exact Or.inl h1
      · exact Or.inr (List.mem_cons_of_mem q h1)
    · rw [if_neg hq] at h
      rcases List.mem_cons.mp h with h1 | h1
      · exact Or.inr (h1 ▸ List.mem_cons_self q t)
      · rcases ih h1 with h2 | h2
        · exact Or.inl h2
        · exact Or.inr (List.mem_cons_of_mem q h2)

/-- Key presence after `setRec`. -/
theorem hasKeyRec_setRec (r : Rec) (k : String) (v : Option String) (k' : String) :
    hasKeyRec (setRec r k v) k' = (decide (k' = k) || hasKeyRec r k') := by
  induction r with
  | nil =>
    simp only [setRec, hasKeyRec, List.any_cons, List.any_nil, Bool.or_false]
    exact decide_eq_decide.mpr eq_comm
  | cons p t ih =>
    simp only [setRec]
    by_cases hp : p.1 = k
    · rw [if_pos hp]
      simp only [hasKeyRec, List.any_cons] at ih ⊢
      rw [hp]
      have hdd : (decide (k = k')) = decide (k' = k) := decide_eq_decide.mpr eq_comm
      rw [hdd, ← Bool.or_assoc, Bool.or_self]
    · rw [if_neg hp]
      simp only [hasKeyRec, List.any_cons] at ih ⊢
      rw [ih, Bool.or_left_comm]

/-- On success, the v4 loop's accumulated record stays well-valued. -/
theorem validateLoopV4_wellValued :
    ∀ (metrics : List String) (pending : List (String × List String)) (acc out : Rec),
      validateLoopV4 metrics pending acc = .ok out → WellValued acc → WellValued out := by
  intro metrics
  induction metrics with
  | nil =>
    intro pending acc out h hacc
    rw [validateLoopV4] at h
    split at h
    · cases h
      exact hacc
    · cases h
  | cons seg rest ih =>
    intro pending acc out h hacc
    rw [validateLoopV4] at h
    by_cases hdup : hasKeyRec acc (keyValOf seg).1
    · rw [if_pos hdup] at h
      cases h
    · rw [if_neg hdup] at h
      rcases hadv : advanceTo (keyValOf seg).1 pending with _ | ⟨e, t⟩
      · rw [hadv] at h
        cases h
      · rw [hadv] at h
        simp only [] at h
        rcases hfind : expectedMetricOrder.find? (fun p => p.1 = (keyValOf seg).1) with _ | entry
        · rw [hfind] at h
          cases h
        · rw [hfind] at h
          simp only [] at h
          rcases hkv : (keyValOf seg).2 with _ | v
          · rw [hkv] at h
            cases h
          · rw [hkv] at h
            simp only [] at h
            by_cases hc : entry.2.contains v
            · rw [if_pos hc] at h
              refine ih t _ out h ?_
              intro p hp
              rcases setRec_mem acc (keyValOf seg).1 (some v) p hp with h1 | h1
              · refine ⟨v, by rw [h1], ?_⟩
                rw [h1]
                show v ∈ v4catalog (keyValOf seg).1
                simp only [v4catalog]
                rw [hfind]
                simpa using hc
              · exact hacc p h1
            · rw [if_neg hc] at h
              cases h

/-- On success, every mandatory v4 metric key is present in the output. -/
theorem validateLoopV4_mandatory :
    ∀ (metrics : List String) (pending : List (String × List String)) (acc out : Rec),
      validateLoopV4 metrics pending acc = .ok out →
      ∀ met ∈ mandatoryMetricsV4, hasKeyRec out met = true := by
  intro metrics
  induction metrics with
  | nil =>
    intro pending acc out h met hmet
    rw [validateLoopV4] at h
    split at h
    · cases h
      rename_i hfil
      have := List.filter_eq_nil_iff.mp hfil met hmet
      simpa using this
    · cases h
  | cons seg rest ih =>
    intro pending acc out h met hmet
    rw [validateLoopV4] at h
    by_cases hdup : hasKeyRec acc (keyValOf seg).1
    · rw [if_pos hdup] at h
      cases h
    · rw [if_neg hdup] at h
      rcases hadv : advanceTo (keyValOf seg).1 pending with _ | ⟨e, t⟩
      · rw [hadv] at h
        cases h
      · rw [hadv] at h
        simp only [] at h
        rcases hfind : expectedMetricOrder.find? (fun p => p.1 = (keyValOf seg).1) with _ | entry
        · rw [hfind] at h
          cases h
        · rw [hfind] at h
          simp only [] at h
          rcases hkv : (keyValOf seg).2 with _ | v
          · rw [hkv] at h
            cases h
          · rw [hkv] at h
            simp only [] at h
            by_cases hc : entry.2.contains v
            · rw [if_pos hc] at h
              exact ih t _ out h met hmet
            · rw [if_neg hc] at h
              cases h

/-- On success, the loop's output equals the plain `setRec` fold of the
segments (the fold used by `parseVectorV4`). -/
theorem validateLoopV4_foldEq :
    ∀ (metrics : List String) (pending : List (String × List String)) (acc out : Rec),
      validateLoopV4 metrics pending acc = .ok out →
      metrics.foldl
        (fun a seg => let kv := keyValOf seg; setRec a kv.1 kv.2) acc = out := by
  intro metrics
  induction metrics with
  | nil =>
    intro pending acc out h
    rw [validateLoopV4] at h
    split at h
    · cases h
      rfl
    · cases h
  | cons seg rest ih =>
    intro pending acc out h
    rw [validateLoopV4] at h
    by_cases hdup : hasKeyRec acc (keyValOf seg).1
    · rw [if_pos hdup] at h
      cases h
    · rw [if_neg hdup] at h
      rcases hadv : advanceTo (keyValOf seg).1 pending with _ | ⟨e, t⟩
      · rw [hadv] at h
        cases h
      · rw [hadv] at h
        simp only [] at h
        rcases hfind : expectedMetricOrder.find? (fun p => p.1 = (keyValOf seg).1) with _ | entry
        · rw [hfind] at h
          cases h
        · rw [hfind] at h
          simp only [] at h
          rcases hkv : (keyValOf seg).2 with _ | v
          · rw [hkv] at h
            cases h
          · rw [hkv] at h
            simp only [] at h
            by_cases hc : entry.2.contains v
            · rw [if_pos hc] at h
              rw [List.foldl_cons]
              have := ih t _ out h
              simpa [hkv] using this
            · rw [if_neg hc] at h
              cases h

/-- One `X`-defaulting step of `parseVectorV4`. -/
def defStep (r : Rec) (k : String) : Rec :=
  if hasKeyRec r k then r else setRec r k (some "X")

/-- `parseVectorV4` as the segment fold followed by four defaulting steps. -/
theorem parseVectorV4_defSteps (s : String) :
    parseVectorV4 s =
      defStep (defStep (defStep (defStep
        ((splitSlash s).tail.foldl
          (fun a seg => let kv := keyValOf seg; setRec a kv.1 kv.2) [])
        "E") "CR") "IR") "AR" := rfl

/-- `defStep` makes its key present. -/
theorem hasKeyRec_defStep_self (r : Rec) (k : String) :
    hasKeyRec (defStep r k) k = true := by
  rw [defStep]
  by_cases h : hasKeyRec r k
  · rw [if_pos h]
    exact h
  · rw [if_neg h, hasKeyRec_setRec]
    simp

/-- `defStep` keeps every present key present. -/
theorem hasKeyRec_defStep_mono (r : Rec) (k k' : String)
    (h : hasKeyRec r k' = true) : hasKeyRec (defStep r k) k' = true := by
  rw [defStep]
  by_cases hk : hasKeyRec r k
  · rw [if_pos hk]
    exact h
  · rw [if_neg hk, hasKeyRec_setRec, h]
    simp

/-- `defStep` preserves well-valuedness when `X` is allowed for its key. -/
theorem wellValued_defStep (r : Rec) (k : String) (hx : "X" ∈ v4catalog k)
    (h : WellValued r) : WellValued (defStep r k) := by
  rw [defStep]
  by_cases hk : hasKeyRec r k
  · rw [if_pos hk]
    exact h
  · rw [if_neg hk]
    intro p hp
    rcases setRec_mem r k (some "X") p hp with h1 | h1
    · exact ⟨"X", by rw [h1], by rw [h1]; exact hx⟩
    · exact h p h1

/-- A well-valued record's lookups land in the catalog. -/
theorem getRec_wellValued (r : Rec) (h : WellValued r) (k v : String)
    (hg : getRec r k = some v) : v ∈ v4catalog k := by
  rw [getRec] at hg
  rcases hf : r.find? (fun p => p.1 = k) with _ | p
  · rw [hf] at hg
    cases hg
  · rw [hf] at hg
    simp only [] at hg
    have hmem : p ∈ r := List.mem_of_find?_eq_some hf
    have hkey : p.1 = k := by
      have := List.find?_some hf
      simpa using this
    obtain ⟨w, hw, hwc⟩ := h p hmem
    rw [hw] at hg
    cases hg
    rw [← hkey]
    exact hwc

/-- In a well-valued record, a present key has a defined catalog value. -/
theorem getRec_of_hasKey (r : Rec) (h : WellValued r) (k : String)
    (hk : hasKeyRec r k = true) : ∃ v, getRec r k = some v ∧ v ∈ v4catalog k := by
  rw [hasKeyRec] at hk
  have hex : ∃ p ∈ r, (fun p : String × Option String => decide (p.1 = k)) p = true := by
    simpa using List.any_eq_true.mp hk
  have hs : (r.find? (fun p => p.1 = k)).isSome := List.find?_isSome.mpr (by
    obtain ⟨p, hp, hpk⟩ := hex
    exact ⟨p, hp, hpk⟩)
  rcases hf : r.find? (fun p => p.1 = k) with _ | p
  · rw [hf] at hs
    cases hs
  · have hmem : p ∈ r := List.mem_of_find?_eq_some hf
    have hkey : p.1 = k := by
      have := List.find?_some hf
      simpa using this
    obtain ⟨w, hw, hwc⟩ := h p hmem
    refine ⟨w, ?_, by rw [← hkey]; exact hwc⟩
    rw [getRec, hf]
    simp only []
    exact hw

/-- The consolidated validity facts on the parsed record of a valid vector:
well-valuedness, and defined catalog values for the eleven mandatory metrics
and the four defaulted threat/requirement metrics. -/
theorem parseVectorV4_facts (s : String) (out : Rec)
    (h : validateVectorV4 s = .ok out) :
    WellValued (parseVectorV4 s) ∧
    ∀ met ∈ mandatoryMetricsV4 ++ ["E", "CR", "IR", "AR"],
      ∃ v, getRec (parseVectorV4 s) met = some v ∧ v ∈ v4catalog met := by
  rw [validateVectorV4] at h
  rcases hsp : splitSlash s with _ | ⟨pre, ms⟩
  · rw [hsp] at h
    cases h
  · rw [hsp] at h
    simp only [] at h
    by_cases hpre : pre = "CVSS:4.0"
    · rw [if_pos hpre] at h
      have hwv : WellValued out :=
        validateLoopV4_wellValued ms expectedMetricOrder [] out h (by intro p hp; cases hp)
      have hman := validateLoopV4_mandatory ms expectedMetricOrder [] out h
      have hfold := validateLoopV4_foldEq ms expectedMetricOrder [] out h
      have hps : parseVectorV4 s = defStep (defStep (defStep (defStep out "E") "CR") "IR") "AR" := by
        rw [parseVectorV4_defSteps, hsp]
        simp only [List.tail_cons]
        rw [hfold]
      have hwv4 : WellValued (parseVectorV4 s) := by
        rw [hps]
        exact wellValued_defStep _ _ (by decide)
          (wellValued_defStep _ _ (by decide)
            (wellValued_defStep _ _ (by decide)
              (wellValued_defStep _ _ (by decide) hwv)))
      refine ⟨hwv4, ?_⟩
      intro met hmet
      have hkey : hasKeyRec (parseVectorV4 s) met = true := by
        rcases List.mem_append.mp hmet with hm | hm
        · rw [hps]
          exact hasKeyRec_defStep_mono _ _ _
            (hasKeyRec_defStep_mono _ _ _
              (hasKeyRec_defStep_mono _ _ _
                (hasKeyRec_defStep_mono _ _ _ (hman met hm))))
        · rw [hps]
          simp only [List.mem_cons, List.mem_singleton, List.not_mem_nil, or_false] at hm
          rcases hm with hE | hCR | hIR | hAR
          · subst hE
            exact hasKeyRec_defStep_mono _ _ _
              (hasKeyRec_defStep_mono _ _ _
                (hasKeyRec_defStep_mono _ _ _ (hasKeyRec_defStep_self _ _)))
          · subst hCR
            exact hasKeyRec_defStep_mono _ _ _
              (hasKeyRec_defStep_mono _ _ _ (hasKeyRec_defStep_self _ _))
          · subst hIR
            exact hasKeyRec_defStep_mono _ _ _ (hasKeyRec_defStep_self _ _)
          · subst hAR
            exact hasKeyRec_defStep_self _ _
      exact getRec_of_hasKey _ hwv4 met hkey
    · rw [if_neg hpre] at h
      cases h

/-! ### C6: effective metric values of a valid parsed record -/

/-- The effective (post-override, post-default) metric values of a valid
parsed v4 record: every metric consumed by the severity-distance computation
of `cvss_score` resolves to a defined value in the domain of its level
table. -/
def MFacts (sel : Rec) : Prop :=
  (∃ v ∈ (["N", "A", "L", "P"] : List String), m sel "AV" = some v) ∧
  (∃ v ∈ (["L", "H"] : List String), m sel "AC" = some v) ∧
  (∃ v ∈ (["N", "P"] : List String), m sel "AT" = some v) ∧
  (∃ v ∈ (["N", "L", "H"] : List String), m sel "PR" = some v) ∧
  (∃ v ∈ (["N", "P", "A"] : List String), m sel "UI" = some v) ∧
  (∃ v ∈ (["H", "L", "N"] : List String), m sel "VC" = some v) ∧
  (∃ v ∈ (["H", "L", "N"] : List String), m sel "VI" = some v) ∧
  (∃ v ∈ (["H", "L", "N"] : List String), m sel "VA" = some v) ∧
  (∃ v ∈ (["H", "L", "N"] : List String), m sel "SC" = some v) ∧
  (∃ v ∈ (["S", "H", "L", "N"] : List String), m sel "SI" = some v) ∧
  (∃ v ∈ (["S", "H", "L", "N"] : List String), m sel "SA" = some v) ∧
  (∃ v ∈ (["H", "M", "L"] : List String), m sel "CR" = some v) ∧
  (∃ v ∈ (["H", "M", "L"] : List String), m sel "IR" = some v) ∧
  (∃ v ∈ (["H", "M", "L"] : List String), m sel "AR" = some v)

/-- The effective value of a plain (non-defaulted) metric with a possible
`M`-override lies in the level-table domain `dom`. -/
theorem m_plain_metric (sel : Rec) (metric mmet : String) (dom : List String)
    (hwv : WellValued sel)
    (hE : metric ≠ "E") (hCR : metric ≠ "CR") (hIR : metric ≠ "IR") (hAR : metric ≠ "AR")
    (hmm : "M" ++ metric = mmet)
    (hmcat : ∀ w ∈ v4catalog mmet, w = "X" ∨ w ∈ dom)
    (hbase : ∃ v, getRec sel metric = some v ∧ v ∈ v4catalog metric)
    (hsub : ∀ w ∈ v4catalog metric, w ∈ dom) :
    ∃ v ∈ dom, m sel metric = some v := by
  obtain ⟨v0, hv0, hv0c⟩ := hbase
  rw [m]
  simp only [decide_eq_false hE, decide_eq_false hCR, decide_eq_false hIR,
    decide_eq_false hAR, Bool.false_and, Bool.false_eq_true, if_false, hmm]
  by_cases hk : (hasKeyRec sel mmet && decide (getRec sel mmet ≠ some "X")) = true
  · rw [if_pos hk]
    have hk12 : hasKeyRec sel mmet = true ∧ decide (getRec sel mmet ≠ some "X") = true := by
      simpa using hk
    obtain ⟨hk1, hk2⟩ := hk12
    obtain ⟨w, hw, hwc⟩ := getRec_of_hasKey sel hwv mmet hk1
    have hnex : w ≠ "X" := by
      intro hwx
      rw [hwx] at hw
      exact (of_decide_eq_true hk2) hw
    rcases hmcat w hwc with hcase | hcase
    · exact absurd hcase hnex
    · exact ⟨w, hcase, hw⟩
  · rw [if_neg hk]
    exact ⟨v0, hsub v0 hv0c, hv0⟩

/-- The effective value of one of the `X`-defaulted requirement metrics
`CR`/`IR`/`AR` lies in `["H", "M", "L"]`. -/
theorem m_xdefault_metric (sel : Rec) (metric : String)
    (hwv : WellValued sel)
    (hE : metric ≠ "E")
    (hone : metric = "CR" ∨ metric = "IR" ∨ metric = "AR")
    (hnm : v4catalog ("M" ++ metric) = [])
    (hbase : ∃ v, getRec sel metric = some v ∧ v ∈ v4catalog metric)
    (hcat : v4catalog metric = ["X", "H", "M", "L"]) :
    ∃ v ∈ (["H", "M", "L"] : List String), m sel metric = some v := by
  obtain ⟨v0, hv0, hv0c⟩ := hbase
  rw [m]
  simp only [decide_eq_false hE, Bool.false_and, Bool.false_eq_true, if_false]
  by_cases hx : getRec sel metric = some "X"
  · rcases hone with hcc | hcc | hcc <;> subst hcc <;> simp [hx]
  · have hk : hasKeyRec sel ("M" ++ metric) = false := by
      by_contra hkk
      have hkt : hasKeyRec sel ("M" ++ metric) = true := by
        cases hb : hasKeyRec sel ("M" ++ metric)
        · exact absurd hb hkk
        · rfl
      obtain ⟨w, hw, hwc⟩ := getRec_of_hasKey sel hwv _ hkt
      rw [hnm] at hwc
      cases hwc
    have hxd : decide (getRec sel metric = some "X") = false := decide_eq_false hx
    simp only [hxd, Bool.and_false, Bool.false_eq_true, if_false, hk, Bool.false_and]
    refine ⟨v0, ?_, hv0⟩
    rw [hcat] at hv0c
    rcases List.mem_cons.mp hv0c with hc | hc
    · exact absurd (by rw [hc] at hv0; exact hv0) hx
    · exact hc

/-- A valid v4 vector's parsed record satisfies all effective-value facts. -/
theorem MFacts_of_valid (s : String) (out : Rec)
    (h : validateVectorV4 s = .ok out) : MFacts (parseVectorV4 s) := by
  obtain ⟨hwv, hfacts⟩ := parseVectorV4_facts s out h
  refine ⟨?_, ?_, ?_, ?_, ?_, ?_, ?_, ?_, ?_, ?_, ?_, ?_, ?_, ?_⟩
  · exact m_plain_metric _ "AV" "MAV" _ hwv (by decide) (by decide) (by decide) (by decide)
      (by decide) (by decide) (hfacts "AV" (by decide)) (by decide)
  · exact m_plain_metric _ "AC" "MAC" _ hwv (by decide) (by decide) (by decide) (by decide)
      (by decide) (by decide) (hfacts "AC" (by decide)) (by decide)
  · exact m_plain_metric _ "AT" "MAT" _ hwv (by decide) (by decide) (by decide) (by decide)
      (by decide) (by decide) (hfacts "AT" (by decide)) (by decide)
  · exact m_plain_metric _ "PR" "MPR" _ hwv (by decide) (by decide) (by decide) (by decide)
      (by decide) (by decide) (hfacts "PR" (by decide)) (by decide)
  · exact m_plain_metric _ "UI" "MUI" _ hwv (by decide) (by decide) (by decide) (by decide)
      (by decide) (by decide) (hfacts "UI" (by decide)) (by decide)
  · exact m_plain_metric _ "VC" "MVC" _ hwv (by decide) (by decide) (by decide) (by decide)
      (by decide) (by decide) (hfacts "VC" (by decide)) (by decide)
  · exact m_plain_metric _ "VI" "MVI" _ hwv (by decide) (by decide) (by decide) (by decide)
      (by decide) (by decide) (hfacts "VI" (by decide)) (by decide)
  · exact m_plain_metric _ "VA" "MVA" _ hwv (by decide) (by decide) (by decide) (by decide)
      (by decide) (by decide) (hfacts "VA" (by decide)) (by decide)
  · exact m_plain_metric _ "SC" "MSC" _ hwv (by decide) (by decide) (by decide) (by decide)
      (by decide) (by decide) (hfacts "SC" (by decide)) (by decide)
  · exact m_plain_metric _ "SI" "MSI" _ hwv (by decide) (by decide) (by decide) (by decide)
      (by decide) (by decide) (hfacts "SI" (by decide)) (by decide)
  · exact m_plain_metric _ "SA" "MSA" _ hwv (by decide) (by decide) (by decide) (by decide)
      (by decide) (by decide) (hfacts "SA" (by decide)) (by decide)
  · exact m_xdefault_metric _ "CR" hwv (by decide) (Or.inl rfl) (by decide)
      (hfacts "CR" (by decide)) (by decide)
  · exact m_xdefault_metric _ "IR" hwv (by decide) (Or.inr (Or.inl rfl)) (by decide)
      (hfacts "IR" (by decide)) (by decide)
  · exact m_xdefault_metric _ "AR" hwv (by decide) (Or.inr (Or.inr rfl)) (by decide)
      (hfacts "AR" (by decide)) (by decide)

/-! ### C6: MacroVector digit bounds -/

theorem eq1Of_le (sel : Rec) : eq1Of sel ≤ 2 := by
  rw [eq1Of]
  split_ifs <;> omega

theorem eq2Of_le (sel : Rec) : eq2Of sel ≤ 1 := by
  rw [eq2Of]
  split_ifs <;> omega

theorem eq3Of_le (sel : Rec) : eq3Of sel ≤ 2 := by
  rw [eq3Of]
  split_ifs <;> omega

theorem eq4Of_le (sel : Rec) : eq4Of sel ≤ 2 := by
  rw [eq4Of]
  split_ifs <;> omega

theorem eq5Of_le (sel : Rec) : eq5Of sel ≤ 2 := by
  rw [eq5Of]
  split_ifs <;> omega

theorem eq6Of_le (sel : Rec) : eq6Of sel ≤ 1 := by
  rw [eq6Of]
  split_ifs <;> omega

/-- The impossible digit pair: EQ3 = 2 forces EQ6 = 1. -/
theorem eq3_eq6_coupling (sel : Rec) (h : eq3Of sel = 2) : eq6Of sel = 1 := by
  rw [eq3Of] at h
  split_ifs at h with h1 h2 h3
  all_goals try omega
  have hb : (mIs sel "VC" "H" || mIs sel "VI" "H" || mIs sel "VA" "H") = false := by
    cases hbb : (mIs sel "VC" "H" || mIs sel "VI" "H" || mIs sel "VA" "H")
    · rfl
    · rw [hbb] at h3
      simp at h3
  have hvc : mIs sel "VC" "H" = false := by
    rcases Bool.or_eq_false_iff.mp hb with ⟨hb1, _⟩
    exact (Bool.or_eq_false_iff.mp hb1).1
  have hvi : mIs sel "VI" "H" = false := by
    rcases Bool.or_eq_false_iff.mp hb with ⟨hb1, _⟩
    exact (Bool.or_eq_false_iff.mp hb1).2
  have hva : mIs sel "VA" "H" = false :=
    (Bool.or_eq_false_iff.mp hb).2
  rw [eq6Of]
  simp [hvc, hvi, hva]

/-- The digit decomposition of `macroVector`. -/
theorem macroVector_digits (sel : Rec) :
    (macroVector sel).data =
      [Nat.digitChar (eq1Of sel), Nat.digitChar (eq2Of sel), Nat.digitChar (eq3Of sel),
       Nat.digitChar (eq4Of sel), Nat.digitChar (eq5Of sel), Nat.digitChar (eq6Of sel)] := by
  rw [macroVector]
  exact macroStr_data _ _ _ _ _ _
    (le_trans (eq1Of_le sel) (by norm_num)) (le_trans (eq2Of_le sel) (by norm_num))
    (le_trans (eq3Of_le sel) (by norm_num)) (le_trans (eq4Of_le sel) (by norm_num))
    (le_trans (eq5Of_le sel) (by norm_num)) (le_trans (eq6Of_le sel) (by norm_num))

/-- Validity of six bounded digit characters (finite check). -/
theorem isValidMacroChars_digits :
    ∀ (a : Fin 3) (b : Fin 2) (c : Fin 3) (d : Fin 3) (e : Fin 3) (f : Fin 2),
      (c.val = 2 → f.val = 1) →
      isValidMacroChars
        [Nat.digitChar a.val, Nat.digitChar b.val, Nat.digitChar c.val,
         Nat.digitChar d.val, Nat.digitChar e.val, Nat.digitChar f.val] = true := by
  decide

/-- Every `macroVector` output is a valid MacroVector string. -/
theorem macroVector_valid (sel : Rec) :
    isValidMacroChars (macroVector sel).data = true := by
  rw [macroVector_digits]
  exact isValidMacroChars_digits
    ⟨eq1Of sel, by have := eq1Of_le sel; omega⟩
    ⟨eq2Of sel, by have := eq2Of_le sel; omega⟩
    ⟨eq3Of sel, by have := eq3Of_le sel; omega⟩
    ⟨eq4Of sel, by have := eq4Of_le sel; omega⟩
    ⟨eq5Of sel, by have := eq5Of_le sel; omega⟩
    ⟨eq6Of sel, by have := eq6Of_le sel; omega⟩
    (eq3_eq6_coupling sel)

/-- The six digit reads of `cvss_score` on a `macroVector` string. -/
theorem macroVector_charDigits (sel : Rec) :
    charDigit ((macroVector sel).data.get? 0) = some (eq1Of sel) ∧
    charDigit ((macroVector sel).data.get? 1) = some (eq2Of sel) ∧
    charDigit ((macroVector sel).data.get? 2) = some (eq3Of sel) ∧
    charDigit ((macroVector sel).data.get? 3) = some (eq4Of sel) ∧
    charDigit ((macroVector sel).data.get? 4) = some (eq5Of sel) ∧
    charDigit ((macroVector sel).data.get? 5) = some (eq6Of sel) := by
  rw [macroVector_digits]
  refine ⟨?_, ?_, ?_, ?_, ?_, ?_⟩ <;>
    simp only [List.get?] <;>
    exact charDigit_digitChar _ (by
      first
      | exact le_trans (eq1Of_le sel) (by norm_num)
      | exact le_trans (eq2Of_le sel) (by norm_num)
      | exact le_trans (eq3Of_le sel) (by norm_num)
      | exact le_trans (eq4Of_le sel) (by norm_num)
      | exact le_trans (eq5Of_le sel) (by norm_num)
      | exact le_trans (eq6Of_le sel) (by norm_num))

/-! ### C6: generic extraction shape lemmas -/

/-- Every list is a prefix of itself extended. -/
theorem isPrefixList_append_self : ∀ (p t : List Char), isPrefixList p (p ++ t) = true := by
  intro p
  induction p with
  | nil => intro t; rfl
  | cons c cs ih =>
    intro t
    have h1 : isPrefixList (c :: cs) ((c :: cs) ++ t) =
        (decide (c = c) && isPrefixList cs (cs ++ t)) := rfl
    rw [h1, ih t]
    simp

/-- A pattern at the head of the scan is found at index 0. -/
theorem indexOfSeq_self_starts : ∀ (pat rest : List Char), pat ≠ [] →
    indexOfSeq pat (pat ++ rest) = some 0 := by
  intro pat rest hp
  cases pat with
  | nil => exact absurd rfl hp
  | cons c cs =>
    have h1 : indexOfSeq (c :: cs) ((c :: cs) ++ rest) =
        (if isPrefixList (c :: cs) ((c :: cs) ++ rest) = true then some 0
         else Option.map Nat.succ (indexOfSeq (c :: cs) (cs ++ rest))) := rfl
    rw [h1, isPrefixList_append_self (c :: cs) rest]
    rfl

/-- `indexOf('/')` on a clean value followed by a separator. -/
theorem indexOfChar_append_not_mem : ∀ (v : List Char) (ch : Char) (t : List Char),
    ch ∉ v → indexOfChar ch (v ++ ch :: t) = some v.length := by
  intro v
  induction v with
  | nil =>
    intro ch t _
    simp [indexOfChar]
  | cons c cs ih =>
    intro ch t hm
    have hc : ¬(c = ch) := fun h => hm (h ▸ List.mem_cons_self c cs)
    simp only [List.cons_append, indexOfChar]
    rw [if_neg hc]
    rw [show List.append cs (ch :: t) = cs ++ ch :: t from rfl]
    rw [ih ch t (fun hh => hm (List.mem_cons_of_mem c hh))]
    simp

/-- Extraction when the metric sits at the head of the string. -/
theorem extract_head (met val t : String) (hm : met.data ≠ [])
    (hv : ('/' : Char) ∉ val.data) (hnl : 0 < val.data.length) :
    extractValueMetric met
      (String.mk (met.data ++ ':' :: (val.data ++ '/' :: t.data))) = val := by
  unfold extractValueMetric
  rw [show (String.mk (met.data ++ ':' :: (val.data ++ '/' :: t.data))).data
      = met.data ++ ':' :: (val.data ++ '/' :: t.data) from rfl]
  rw [indexOfSeq_self_starts met.data _ hm]
  simp only []
  have harith : ((((0 : ℕ) : ℤ)) + met.data.length + 1).toNat = met.data.length + 1 := by
    omega
  rw [harith]
  have hdrop : (met.data ++ ':' :: (val.data ++ '/' :: t.data)).drop (met.data.length + 1)
      = val.data ++ '/' :: t.data := by
    have h1 := drop_len_add met.data (':' :: (val.data ++ '/' :: t.data)) 1
    simpa using h1
  rw [hdrop]
  rw [indexOfChar_append_not_mem val.data '/' t.data hv]
  simp only []
  rw [if_pos hnl]
  rw [List.take_left]

/-- Extraction when the metric sits after a skip-clean prefix. -/
theorem extract_mid (met val pre t : String)
    (hskip : skipOK met.data pre.data = true) (hm : met.data ≠ [])
    (hv : ('/' : Char) ∉ val.data) (hnl : 0 < val.data.length) :
    extractValueMetric met
      (String.mk (pre.data ++ (met.data ++ ':' :: (val.data ++ '/' :: t.data)))) = val := by
  have hocc : (indexOfSeq met.data
      (String.mk (met.data ++ ':' :: (val.data ++ '/' :: t.data))).data).isSome = true := by
    rw [show (String.mk (met.data ++ ':' :: (val.data ++ '/' :: t.data))).data
        = met.data ++ ':' :: (val.data ++ '/' :: t.data) from rfl]
    rw [indexOfSeq_self_starts met.data _ hm]
    rfl
  have hall := extractValueMetric_append met pre
    (String.mk (met.data ++ ':' :: (val.data ++ '/' :: t.data))) hskip hocc
  rw [show (String.mk (met.data ++ ':' :: (val.data ++ '/' :: t.data))).data
      = met.data ++ ':' :: (val.data ++ '/' :: t.data) from rfl] at hall
  rw [hall]
  exact extract_head met val t hm hv hnl

/-- Occurrence of a head pattern. -/
theorem occ_head (pat rest2 : List Char) (hp : pat ≠ []) :
    (indexOfSeq pat (pat ++ rest2)).isSome = true := by
  rw [indexOfSeq_self_starts pat rest2 hp]
  rfl

/-- Occurrence of a pattern after a skip-clean prefix. -/
theorem occ_mid (pat pre rest2 : List Char)
    (hskip : skipOK pat pre = true) (hp : pat ≠ []) :
    (indexOfSeq pat (pre ++ (pat ++ rest2))).isSome = true := by
  apply occ_append pat pre _ hskip
  rw [indexOfSeq_self_starts pat rest2 hp]
  rfl

/-! ### C6: the candidate max-vector fragments and their extractions -/

/-- All EQ1 max fragments (union of `maxComposedEq1` over the digit). -/
def allE1 : List String :=
  ["AV:N/PR:N/UI:N/", "AV:A/PR:N/UI:N/", "AV:N/PR:L/UI:N/", "AV:N/PR:N/UI:P/",
   "AV:P/PR:N/UI:N/", "AV:A/PR:L/UI:P/"]

/-- All EQ2 max fragments. -/
def allE2 : List String := ["AC:L/AT:N/", "AC:H/AT:N/", "AC:L/AT:P/"]

/-- All EQ3/EQ6 max fragments. -/
def allE36 : List String :=
  ["VC:H/VI:H/VA:H/CR:H/IR:H/AR:H/",
   "VC:H/VI:H/VA:L/CR:M/IR:M/AR:H/", "VC:H/VI:H/VA:H/CR:M/IR:M/AR:M/",
   "VC:L/VI:H/VA:H/CR:H/IR:H/AR:H/", "VC:H/VI:L/VA:H/CR:H/IR:H/AR:H/",
   "VC:H/VI:L/VA:H/CR:M/IR:H/AR:M/", "VC:H/VI:L/VA:L/CR:M/IR:H/AR:H/",
   "VC:L/VI:H/VA:H/CR:H/IR:M/AR:M/", "VC:L/VI:H/VA:L/CR:H/IR:M/AR:H/",
   "VC:L/VI:L/VA:H/CR:H/IR:H/AR:M/", "VC:L/VI:L/VA:L/CR:H/IR:H/AR:H/"]

/-- All EQ4 max fragments. -/
def allE4 : List String := ["SC:H/SI:S/SA:S/", "SC:H/SI:H/SA:H/", "SC:L/SI:L/SA:L/"]

theorem mem_maxComposedEq1 : ∀ (oc : Option Char) (x : String),
    x ∈ maxComposedEq1 oc → x ∈ allE1 := by
  intro oc x h
  unfold maxComposedEq1 at h
  split at h <;> first
    | exact absurd h (List.not_mem_nil x)
    | (fin_cases h <;> decide)

theorem mem_maxComposedEq2 : ∀ (oc : Option Char) (x : String),
    x ∈ maxComposedEq2 oc → x ∈ allE2 := by
  intro oc x h
  unfold maxComposedEq2 at h
  split at h <;> first
    | exact absurd h (List.not_mem_nil x)
    | (fin_cases h <;> decide)

theorem mem_maxComposedEq3 : ∀ (oc of : Option Char) (x : String),
    x ∈ maxComposedEq3 oc of → x ∈ allE36 := by
  intro oc of x h
  unfold maxComposedEq3 at h
  split at h <;> first
    | exact absurd h (List.not_mem_nil x)
    | (fin_cases h <;> decide)

theorem mem_maxComposedEq4 : ∀ (oc : Option Char) (x : String),
    x ∈ maxComposedEq4 oc → x ∈ allE4 := by
  intro oc x h
  unfold maxComposedEq4 at h
  split at h <;> first
    | exact absurd h (List.not_mem_nil x)
    | (fin_cases h <;> decide)

/-- Decomposition of a candidate max vector into its five fragments. -/
theorem maxVectors_decomp (mac mv : String) (h : mv ∈ maxVectors mac) :
    ∃ a ∈ allE1, ∃ b ∈ allE2, ∃ c ∈ allE36, ∃ d ∈ allE4, ∃ e : String,
      mv = a ++ (b ++ (c ++ (d ++ e))) := by
  rw [maxVectors] at h
  simp only [List.mem_flatMap, List.mem_map, getEQMaxes1, getEQMaxes2, getEQMaxes3,
    getEQMaxes4, getEQMaxes5] at h
  obtain ⟨a, ha, b, hb, c, hc, d, hd, e, _, heq⟩ := h
  refine ⟨a, mem_maxComposedEq1 _ _ ha, b, mem_maxComposedEq2 _ _ hb,
    c, mem_maxComposedEq3 _ _ _ hc, d, mem_maxComposedEq4 _ _ hd, e, ?_⟩
  rw [← heq, strAppend_assoc, strAppend_assoc, strAppend_assoc]

/-- `String` append versus `String.mk` of appended data. -/
theorem extract_strip (metric p t : String)
    (hskip : skipOK metric.data p.data = true)
    (hocc : (indexOfSeq metric.data t.data).isSome = true) :
    extractValueMetric metric (p ++ t) = extractValueMetric metric t := by
  rw [show p ++ t = String.mk (p.data ++ t.data) from rfl]
  exact extractValueMetric_append metric p t hskip hocc

/-- Occurrence survives prepending a skip-clean fragment. -/
theorem occ_strip (pat : List Char) (p t : String) (hskip : skipOK pat p.data = true)
    (hocc : (indexOfSeq pat t.data).isSome = true) :
    (indexOfSeq pat (p ++ t).data).isSome = true := by
  rw [show (p ++ t).data = p.data ++ t.data from rfl]
  exact occ_append pat p.data t.data hskip hocc

/-- No later metric name can start anywhere inside an EQ1 fragment. -/
theorem skipE1 : ∀ a ∈ allE1,
    skipOK ("AC").data a.data = true ∧ skipOK ("AT").data a.data = true ∧
    skipOK ("VC").data a.data = true ∧ skipOK ("VI").data a.data = true ∧
    skipOK ("VA").data a.data = true ∧ skipOK ("CR").data a.data = true ∧
    skipOK ("IR").data a.data = true ∧ skipOK ("AR").data a.data = true ∧
    skipOK ("SC").data a.data = true ∧ skipOK ("SI").data a.data = true ∧
    skipOK ("SA").data a.data = true := by decide

/-- No later metric name can start anywhere inside an EQ2 fragment. -/
theorem skipE2 : ∀ b ∈ allE2,
    skipOK ("VC").data b.data = true ∧ skipOK ("VI").data b.data = true ∧
    skipOK ("VA").data b.data = true ∧ skipOK ("CR").data b.data = true ∧
    skipOK ("IR").data b.data = true ∧ skipOK ("AR").data b.data = true ∧
    skipOK ("SC").data b.data = true ∧ skipOK ("SI").data b.data = true ∧
    skipOK ("SA").data b.data = true := by decide

/-- No EQ4 metric name can start anywhere inside an EQ3/EQ6 fragment. -/
theorem skipE36 : ∀ c ∈ allE36,
    skipOK ("SC").data c.data = true ∧ skipOK ("SI").data c.data = true ∧
    skipOK ("SA").data c.data = true := by decide


/-! ### C6: per-fragment occurrence and extraction facts -/

/-- The EQ2 metric names occur in every extended EQ2 fragment. -/
theorem occE2 : ∀ b ∈ allE2, ∀ t : String,
    (indexOfSeq (String.data "AC") (b ++ t).data).isSome = true ∧
    (indexOfSeq (String.data "AT") (b ++ t).data).isSome = true := by
  intro b hb t
  fin_cases hb
  · refine ⟨?_, ?_⟩
    · rw [show ("AC:L/AT:N/" ++ t : String).data = String.data "AC" ++ (':' :: (String.data "L" ++ '/' :: (String.data "AT:N/" ++ t.data))) from rfl]
      exact occ_head _ _ (by decide)
    · rw [show ("AC:L/AT:N/" ++ t : String).data = String.data "AC:L/" ++ (String.data "AT" ++ (':' :: (String.data "N" ++ '/' :: (String.data "" ++ t.data)))) from rfl]
      exact occ_mid _ _ _ (by decide) (by decide)
  · refine ⟨?_, ?_⟩
    · rw [show ("AC:H/AT:N/" ++ t : String).data = String.data "AC" ++ (':' :: (String.data "H" ++ '/' :: (String.data "AT:N/" ++ t.data))) from rfl]
      exact occ_head _ _ (by decide)
    · rw [show ("AC:H/AT:N/" ++ t : String).data = String.data "AC:H/" ++ (String.data "AT" ++ (':' :: (String.data "N" ++ '/' :: (String.data "" ++ t.data)))) from rfl]
      exact occ_mid _ _ _ (by decide) (by decide)
  · refine ⟨?_, ?_⟩
    · rw [show ("AC:L/AT:P/" ++ t : String).data = String.data "AC" ++ (':' :: (String.data "L" ++ '/' :: (String.data "AT:P/" ++ t.data))) from rfl]
      exact occ_head _ _ (by decide)
    · rw [show ("AC:L/AT:P/" ++ t : String).data = String.data "AC:L/" ++ (String.data "AT" ++ (':' :: (String.data "P" ++ '/' :: (String.data "" ++ t.data)))) from rfl]
      exact occ_mid _ _ _ (by decide) (by decide)

/-- The EQ3/EQ6 metric names occur in every extended EQ3/EQ6 fragment. -/
theorem occE36 : ∀ c ∈ allE36, ∀ t : String,
    (indexOfSeq (String.data "VC") (c ++ t).data).isSome = true ∧
    (indexOfSeq (String.data "VI") (c ++ t).data).isSome = true ∧
    (indexOfSeq (String.data "VA") (c ++ t).data).isSome = true ∧
    (indexOfSeq (String.data "CR") (c ++ t).data).isSome = true ∧
    (indexOfSeq (String.data "IR") (c ++ t).data).isSome = true ∧
    (indexOfSeq (String.data "AR") (c ++ t).data).isSome = true := by
  intro c hc t
  fin_cases hc
  · refine ⟨?_, ?_, ?_, ?_, ?_, ?_⟩
    · rw [show ("VC:H/VI:H/VA:H/CR:H/IR:H/AR:H/" ++ t : String).data = String.data "VC" ++ (':' :: (String.data "H" ++ '/' :: (String.data "VI:H/VA:H/CR:H/IR:H/AR:H/" ++ t.data))) from rfl]
      exact occ_head _ _ (by decide)
    · rw [show ("VC:H/VI:H/VA:H/CR:H/IR:H/AR:H/" ++ t : String).data = String.data "VC:H/" ++ (String.data "VI" ++ (':' :: (String.data "H" ++ '/' :: (String.data "VA:H/CR:H/IR:H/AR:H/" ++ t.data)))) from rfl]
      exact occ_mid _ _ _ (by decide) (by decide)
    · rw [show ("VC:H/VI:H/VA:H/CR:H/IR:H/AR:H/" ++ t : String).data = String.data "VC:H/VI:H/" ++ (String.data "VA" ++ (':' :: (String.data "H" ++ '/' :: (String.data "CR:H/IR:H/AR:H/" ++ t.data)))) from rfl]
      exact occ_mid _ _ _ (by decide) (by decide)
    · rw [show ("VC:H/VI:H/VA:H/CR:H/IR:H/AR:H/" ++ t : String).data = String.data "VC:H/VI:H/VA:H/" ++ (String.data "CR" ++ (':' :: (String.data "H" ++ '/' :: (String.data "IR:H/AR:H/" ++ t.data)))) from rfl]
      exact occ_mid _ _ _ (by decide) (by decide)
    · rw [show ("VC:H/VI:H/VA:H/CR:H/IR:H/AR:H/" ++ t : String).data = String.data "VC:H/VI:H/VA:H/CR:H/" ++ (String.data "IR" ++ (':' :: (String.data "H" ++ '/' :: (String.data "AR:H/" ++ t.data)))) from rfl]
      exact occ_mid _ _ _ (by decide) (by decide)
    · rw [show ("VC:H/VI:H/VA:H/CR:H/IR:H/AR:H/" ++ t : String).data = String.data "VC:H/VI:H/VA:H/CR:H/IR:H/" ++ (String.data "AR" ++ (':' :: (String.data "H" ++ '/' :: (String.data "" ++ t.data)))) from rfl]
      exact occ_mid _ _ _ (by decide) (by decide)
  · refine ⟨?_, ?_, ?_, ?_, ?_, ?_⟩
    · rw [show ("VC:H/VI:H/VA:L/CR:M/IR:M/AR:H/" ++ t : String).data = String.data "VC" ++ (':' :: (String.data "H" ++ '/' :: (String.data "VI:H/VA:L/CR:M/IR:M/AR:H/" ++ t.data))) from rfl]
      exact occ_head _ _ (by decide)
    · rw [show ("VC:H/VI:H/VA:L/CR:M/IR:M/AR:H/" ++ t : String).data = String.data "VC:H/" ++ (String.data "VI" ++ (':' :: (String.data "H" ++ '/' :: (String.data "VA:L/CR:M/IR:M/AR:H/" ++ t.data)))) from rfl]
      exact occ_mid _ _ _ (by decide) (by decide)
    · rw [show ("VC:H/VI:H/VA:L/CR:M/IR:M/AR:H/" ++ t : String).data = String.data "VC:H/VI:H/" ++ (String.data "VA" ++ (':' :: (String.data "L" ++ '/' :: (String.data "CR:M/IR:M/AR:H/" ++ t.data)))) from rfl]
      exact occ_mid _ _ _ (by decide) (by decide)
    · rw [show ("VC:H/VI:H/VA:L/CR:M/IR:M/AR:H/" ++ t : String).data = String.data "VC:H/VI:H/VA:L/" ++ (String.data "CR" ++ (':' :: (String.data "M" ++ '/' :: (String.data "IR:M/AR:H/" ++ t.data)))) from rfl]
      exact occ_mid _ _ _ (by decide) (by decide)
    · rw [show ("VC:H/VI:H/VA:L/CR:M/IR:M/AR:H/" ++ t : String).data = String.data "VC:H/VI:H/VA:L/CR:M/" ++ (String.data "IR" ++ (':' :: (String.data "M" ++ '/' :: (String.data "AR:H/" ++ t.data)))) from rfl]
      exact occ_mid _ _ _ (by decide) (by decide)
    · rw [show ("VC:H/VI:H/VA:L/CR:M/IR:M/AR:H/" ++ t : String).data = String.data "VC:H/VI:H/VA:L/CR:M/IR:M/" ++ (String.data "AR" ++ (':' :: (String.data "H" ++ '/' :: (String.data "" ++ t.data)))) from rfl]
      exact occ_mid _ _ _ (by decide) (by decide)
  · refine ⟨?_, ?_, ?_, ?_, ?_, ?_⟩
    · rw [show ("VC:H/VI:H/VA:H/CR:M/IR:M/AR:M/" ++ t : String).data = String.data "VC" ++ (':' :: (String.data "H" ++ '/' :: (String.data "VI:H/VA:H/CR:M/IR:M/AR:M/" ++ t.data))) from rfl]
      exact occ_head _ _ (by decide)
    · rw [show ("VC:H/VI:H/VA:H/CR:M/IR:M/AR:M/" ++ t : String).data = String.data "VC:H/" ++ (String.data "VI" ++ (':' :: (String.data "H" ++ '/' :: (String.data "VA:H/CR:M/IR:M/AR:M/" ++ t.data)))) from rfl]
      exact occ_mid _ _ _ (by decide) (by decide)
    · rw [show ("VC:H/VI:H/VA:H/CR:M/IR:M/AR:M/" ++ t : String).data = String.data "VC:H/VI:H/" ++ (String.data "VA" ++ (':' :: (String.data "H" ++ '/' :: (String.data "CR:M/IR:M/AR:M/" ++ t.data)))) from rfl]
      exact occ_mid _ _ _ (by decide) (by decide)
    · rw [show ("VC:H/VI:H/VA:H/CR:M/IR:M/AR:M/" ++ t : String).data = String.data "VC:H/VI:H/VA:H/" ++ (String.data "CR" ++ (':' :: (String.data "M" ++ '/' :: (String.data "IR:M/AR:M/" ++ t.data)))) from rfl]
      exact occ_mid _ _ _ (by decide) (by decide)
    · rw [show ("VC:H/VI:H/VA:H/CR:M/IR:M/AR:M/" ++ t : String).data = String.data "VC:H/VI:H/VA:H/CR:M/" ++ (String.data "IR" ++ (':' :: (String.data "M" ++ '/' :: (String.data "AR:M/" ++ t.data)))) from rfl]
      exact occ_mid _ _ _ (by decide) (by decide)
    · rw [show ("VC:H/VI:H/VA:H/CR:M/IR:M/AR:M/" ++ t : String).data = String.data "VC:H/VI:H/VA:H/CR:M/IR:M/" ++ (String.data "AR" ++ (':' :: (String.data "M" ++ '/' :: (String.data "" ++ t.data)))) from rfl]
      exact occ_mid _ _ _ (by decide) (by decide)
  · refine ⟨?_, ?_, ?_, ?_, ?_, ?_⟩
    · rw [show ("VC:L/VI:H/VA:H/CR:H/IR:H/AR:H/" ++ t : String).data = String.data "VC" ++ (':' :: (String.data "L" ++ '/' :: (String.data "VI:H/VA:H/CR:H/IR:H/AR:H/" ++ t.data))) from rfl]
      exact occ_head _ _ (by decide)
    · rw [show ("VC:L/VI:H/VA:H/CR:H/IR:H/AR:H/" ++ t : String).data = String.data "VC:L/" ++ (String.data "VI" ++ (':' :: (String.data "H" ++ '/' :: (String.data "VA:H/CR:H/IR:H/AR:H/" ++ t.data)))) from rfl]
      exact occ_mid _ _ _ (by decide) (by decide)
    · rw [show ("VC:L/VI:H/VA:H/CR:H/IR:H/AR:H/" ++ t : String).data = String.data "VC:L/VI:H/" ++ (String.data "VA" ++ (':' :: (String.data "H" ++ '/' :: (String.data "CR:H/IR:H/AR:H/" ++ t.data)))) from rfl]
      exact occ_mid _ _ _ (by decide) (by decide)
    · rw [show ("VC:L/VI:H/VA:H/CR:H/IR:H/AR:H/" ++ t : String).data = String.data "VC:L/VI:H/VA:H/" ++ (String.data "CR" ++ (':' :: (String.data "H" ++ '/' :: (String.data "IR:H/AR:H/" ++ t.data)))) from rfl]
      exact occ_mid _ _ _ (by decide) (by decide)
    · rw [show ("VC:L/VI:H/VA:H/CR:H/IR:H/AR:H/" ++ t : String).data = String.data "VC:L/VI:H/VA:H/CR:H/" ++ (String.data "IR" ++ (':' :: (String.data "H" ++ '/' :: (String.data "AR:H/" ++ t.data)))) from rfl]
      exact occ_mid _ _ _ (by decide) (by decide)
    · rw [show ("VC:L/VI:H/VA:H/CR:H/IR:H/AR:H/" ++ t : String).data = String.data "VC:L/VI:H/VA:H/CR:H/IR:H/" ++ (String.data "AR" ++ (':' :: (String.data "H" ++ '/' :: (String.data "" ++ t.data)))) from rfl]
      exact occ_mid _ _ _ (by decide) (by decide)
  · refine ⟨?_, ?_, ?_, ?_, ?_, ?_⟩
    · rw [show ("VC:H/VI:L/VA:H/CR:H/IR:H/AR:H/" ++ t : String).data = String.data "VC" ++ (':' :: (String.data "H" ++ '/' :: (String.data "VI:L/VA:H/CR:H/IR:H/AR:H/" ++ t.data))) from rfl]
      exact occ_head _ _ (by decide)
    · rw [show ("VC:H/VI:L/VA:H/CR:H/IR:H/AR:H/" ++ t : String).data = String.data "VC:H/" ++ (String.data "VI" ++ (':' :: (String.data "L" ++ '/' :: (String.data "VA:H/CR:H/IR:H/AR:H/" ++ t.data)))) from rfl]
      exact occ_mid _ _ _ (by decide) (by decide)
    · rw [show ("VC:H/VI:L/VA:H/CR:H/IR:H/AR:H/" ++ t : String).data = String.data "VC:H/VI:L/" ++ (String.data "VA" ++ (':' :: (String.data "H" ++ '/' :: (String.data "CR:H/IR:H/AR:H/" ++ t.data)))) from rfl]
      exact occ_mid _ _ _ (by decide) (by decide)
    · rw [show ("VC:H/VI:L/VA:H/CR:H/IR:H/AR:H/" ++ t : String).data = String.data "VC:H/VI:L/VA:H/" ++ (String.data "CR" ++ (':' :: (String.data "H" ++ '/' :: (String.data "IR:H/AR:H/" ++ t.data)))) from rfl]
      exact occ_mid _ _ _ (by decide) (by decide)
    · rw [show ("VC:H/VI:L/VA:H/CR:H/IR:H/AR:H/" ++ t : String).data = String.data "VC:H/VI:L/VA:H/CR:H/" ++ (String.data "IR" ++ (':' :: (String.data "H" ++ '/' :: (String.data "AR:H/" ++ t.data)))) from rfl]
      exact occ_mid _ _ _ (by decide) (by decide)
    · rw [show ("VC:H/VI:L/VA:H/CR:H/IR:H/AR:H/" ++ t : String).data = String.data "VC:H/VI:L/VA:H/CR:H/IR:H/" ++ (String.data "AR" ++ (':' :: (String.data "H" ++ '/' :: (String.data "" ++ t.data)))) from rfl]
      exact occ_mid _ _ _ (by decide) (by decide)
  · refine ⟨?_, ?_, ?_, ?_, ?_, ?_⟩
    · rw [show ("VC:H/VI:L/VA:H/CR:M/IR:H/AR:M/" ++ t : String).data = String.data "VC" ++ (':' :: (String.data "H" ++ '/' :: (String.data "VI:L/VA:H/CR:M/IR:H/AR:M/" ++ t.data))) from rfl]
      exact occ_head _ _ (by decide)
    · rw [show ("VC:H/VI:L/VA:H/CR:M/IR:H/AR:M/" ++ t : String).data = String.data "VC:H/" ++ (String.data "VI" ++ (':' :: (String.data "L" ++ '/' :: (String.data "VA:H/CR:M/IR:H/AR:M/" ++ t.data)))) from rfl]
      exact occ_mid _ _ _ (by decide) (by decide)
    · rw [show ("VC:H/VI:L/VA:H/CR:M/IR:H/AR:M/" ++ t : String).data = String.data "VC:H/VI:L/" ++ (String.data "VA" ++ (':' :: (String.data "H" ++ '/' :: (String.data "CR:M/IR:H/AR:M/" ++ t.data)))) from rfl]
      exact occ_mid _ _ _ (by decide) (by decide)
    · rw [show ("VC:H/VI:L/VA:H/CR:M/IR:H/AR:M/" ++ t : String).data = String.data "VC:H/VI:L/VA:H/" ++ (String.data "CR" ++ (':' :: (String.data "M" ++ '/' :: (String.data "IR:H/AR:M/" ++ t.data)))) from rfl]
      exact occ_mid _ _ _ (by decide) (by decide)
    · rw [show ("VC:H/VI:L/VA:H/CR:M/IR:H/AR:M/" ++ t : String).data = String.data "VC:H/VI:L/VA:H/CR:M/" ++ (String.data "IR" ++ (':' :: (String.data "H" ++ '/' :: (String.data "AR:M/" ++ t.data)))) from rfl]
      exact occ_mid _ _ _ (by decide) (by decide)
    · rw [show ("VC:H/VI:L/VA:H/CR:M/IR:H/AR:M/" ++ t : String).data = String.data "VC:H/VI:L/VA:H/CR:M/IR:H/" ++ (String.data "AR" ++ (':' :: (String.data "M" ++ '/' :: (String.data "" ++ t.data)))) from rfl]
      exact occ_mid _ _ _ (by decide) (by decide)
  · refine ⟨?_, ?_, ?_, ?_, ?_, ?_⟩
    · rw [show ("VC:H/VI:L/VA:L/CR:M/IR:H/AR:H/" ++ t : String).data = String.data "VC" ++ (':' :: (String.data "H" ++ '/' :: (String.data "VI:L/VA:L/CR:M/IR:H/AR:H/" ++ t.data))) from rfl]
      exact occ_head _ _ (by decide)
    · rw [show ("VC:H/VI:L/VA:L/CR:M/IR:H/AR:H/" ++ t : String).data = String.data "VC:H/" ++ (String.data "VI" ++ (':' :: (String.data "L" ++ '/' :: (String.data "VA:L/CR:M/IR:H/AR:H/" ++ t.data)))) from rfl]
      exact occ_mid _ _ _ (by decide) (by decide)
    · rw [show ("VC:H/VI:L/VA:L/CR:M/IR:H/AR:H/" ++ t : String).data = String.data "VC:H/VI:L/" ++ (String.data "VA" ++ (':' :: (String.data "L" ++ '/' :: (String.data "CR:M/IR:H/AR:H/" ++ t.data)))) from rfl]
      exact occ_mid _ _ _ (by decide) (by decide)
    · rw [show ("VC:H/VI:L/VA:L/CR:M/IR:H/AR:H/" ++ t : String).data = String.data "VC:H/VI:L/VA:L/" ++ (String.data "CR" ++ (':' :: (String.data "M" ++ '/' :: (String.data "IR:H/AR:H/" ++ t.data)))) from rfl]
      exact occ_mid _ _ _ (by decide) (by decide)
    · rw [show ("VC:H/VI:L/VA:L/CR:M/IR:H/AR:H/" ++ t : String).data = String.data "VC:H/VI:L/VA:L/CR:M/" ++ (String.data "IR" ++ (':' :: (String.data "H" ++ '/' :: (String.data "AR:H/" ++ t.data)))) from rfl]
      exact occ_mid _ _ _ (by decide) (by decide)
    · rw [show ("VC:H/VI:L/VA:L/CR:M/IR:H/AR:H/" ++ t : String).data = String.data "VC:H/VI:L/VA:L/CR:M/IR:H/" ++ (String.data "AR" ++ (':' :: (String.data "H" ++ '/' :: (String.data "" ++ t.data)))) from rfl]
      exact occ_mid _ _ _ (by decide) (by decide)
  · refine ⟨?_, ?_, ?_, ?_, ?_, ?_⟩
    · rw [show ("VC:L/VI:H/VA:H/CR:H/IR:M/AR:M/" ++ t : String).data = String.data "VC" ++ (':' :: (String.data "L" ++ '/' :: (String.data "VI:H/VA:H/CR:H/IR:M/AR:M/" ++ t.data))) from rfl]
      exact occ_head _ _ (by decide)
    · rw [show ("VC:L/VI:H/VA:H/CR:H/IR:M/AR:M/" ++ t : String).data = String.data "VC:L/" ++ (String.data "VI" ++ (':' :: (String.data "H" ++ '/' :: (String.data "VA:H/CR:H/IR:M/AR:M/" ++ t.data)))) from rfl]
      exact occ_mid _ _ _ (by decide) (by decide)
    · rw [show ("VC:L/VI:H/VA:H/CR:H/IR:M/AR:M/" ++ t : String).data = String.data "VC:L/VI:H/" ++ (String.data "VA" ++ (':' :: (String.data "H" ++ '/' :: (String.data "CR:H/IR:M/AR:M/" ++ t.data)))) from rfl]
      exact occ_mid _ _ _ (by decide) (by decide)
    · rw [show ("VC:L/VI:H/VA:H/CR:H/IR:M/AR:M/" ++ t : String).data = String.data "VC:L/VI:H/VA:H/" ++ (String.data "CR" ++ (':' :: (String.data "H" ++ '/' :: (String.data "IR:M/AR:M/" ++ t.data)))) from rfl]
      exact occ_mid _ _ _ (by decide) (by decide)
    · rw [show ("VC:L/VI:H/VA:H/CR:H/IR:M/AR:M/" ++ t : String).data = String.data "VC:L/VI:H/VA:H/CR:H/" ++ (String.data "IR" ++ (':' :: (String.data "M" ++ '/' :: (String.data "AR:M/" ++ t.data)))) from rfl]
      exact occ_mid _ _ _ (by decide) (by decide)
    · rw [show ("VC:L/VI:H/VA:H/CR:H/IR:M/AR:M/" ++ t : String).data = String.data "VC:L/VI:H/VA:H/CR:H/IR:M/" ++ (String.data "AR" ++ (':' :: (String.data "M" ++ '/' :: (String.data "" ++ t.data)))) from rfl]
      exact occ_mid _ _ _ (by decide) (by decide)
  · refine ⟨?_, ?_, ?_, ?_, ?_, ?_⟩
    · rw [show ("VC:L/VI:H/VA:L/CR:H/IR:M/AR:H/" ++ t : String).data = String.data "VC" ++ (':' :: (String.data "L" ++ '/' :: (String.data "VI:H/VA:L/CR:H/IR:M/AR:H/" ++ t.data))) from rfl]
      exact occ_head _ _ (by decide)
    · rw [show ("VC:L/VI:H/VA:L/CR:H/IR:M/AR:H/" ++ t : String).data = String.data "VC:L/" ++ (String.data "VI" ++ (':' :: (String.data "H" ++ '/' :: (String.data "VA:L/CR:H/IR:M/AR:H/" ++ t.data)))) from rfl]
      exact occ_mid _ _ _ (by decide) (by decide)
    · rw [show ("VC:L/VI:H/VA:L/CR:H/IR:M/AR:H/" ++ t : String).data = String.data "VC:L/VI:H/" ++ (String.data "VA" ++ (':' :: (String.data "L" ++ '/' :: (String.data "CR:H/IR:M/AR:H/" ++ t.data)))) from rfl]
      exact occ_mid _ _ _ (by decide) (by decide)
    · rw [show ("VC:L/VI:H/VA:L/CR:H/IR:M/AR:H/" ++ t : String).data = String.data "VC:L/VI:H/VA:L/" ++ (String.data "CR" ++ (':' :: (String.data "H" ++ '/' :: (String.data "IR:M/AR:H/" ++ t.data)))) from rfl]
      exact occ_mid _ _ _ (by decide) (by decide)
    · rw [show ("VC:L/VI:H/VA:L/CR:H/IR:M/AR:H/" ++ t : String).data = String.data "VC:L/VI:H/VA:L/CR:H/" ++ (String.data "IR" ++ (':' :: (String.data "M" ++ '/' :: (String.data "AR:H/" ++ t.data)))) from rfl]
      exact occ_mid _ _ _ (by decide) (by decide)
    · rw [show ("VC:L/VI:H/VA:L/CR:H/IR:M/AR:H/" ++ t : String).data = String.data "VC:L/VI:H/VA:L/CR:H/IR:M/" ++ (String.data "AR" ++ (':' :: (String.data "H" ++ '/' :: (String.data "" ++ t.data)))) from rfl]
      exact occ_mid _ _ _ (by decide) (by decide)
  · refine ⟨?_, ?_, ?_, ?_, ?_, ?_⟩
    · rw [show ("VC:L/VI:L/VA:H/CR:H/IR:H/AR:M/" ++ t : String).data = String.data "VC" ++ (':' :: (String.data "L" ++ '/' :: (String.data "VI:L/VA:H/CR:H/IR:H/AR:M/" ++ t.data))) from rfl]
      exact occ_head _ _ (by decide)
    · rw [show ("VC:L/VI:L/VA:H/CR:H/IR:H/AR:M/" ++ t : String).data = String.data "VC:L/" ++ (String.data "VI" ++ (':' :: (String.data "L" ++ '/' :: (String.data "VA:H/CR:H/IR:H/AR:M/" ++ t.data)))) from rfl]
      exact occ_mid _ _ _ (by decide) (by decide)
    · rw [show ("VC:L/VI:L/VA:H/CR:H/IR:H/AR:M/" ++ t : String).data = String.data "VC:L/VI:L/" ++ (String.data "VA" ++ (':' :: (String.data "H" ++ '/' :: (String.data "CR:H/IR:H/AR:M/" ++ t.data)))) from rfl]
      exact occ_mid _ _ _ (by decide) (by decide)
    · rw [show ("VC:L/VI:L/VA:H/CR:H/IR:H/AR:M/" ++ t : String).data = String.data "VC:L/VI:L/VA:H/" ++ (String.data "CR" ++ (':' :: (String.data "H" ++ '/' :: (String.data "IR:H/AR:M/" ++ t.data)))) from rfl]
      exact occ_mid _ _ _ (by decide) (by decide)
    · rw [show ("VC:L/VI:L/VA:H/CR:H/IR:H/AR:M/" ++ t : String).data = String.data "VC:L/VI:L/VA:H/CR:H/" ++ (String.data "IR" ++ (':' :: (String.data "H" ++ '/' :: (String.data "AR:M/" ++ t.data)))) from rfl]
      exact occ_mid _ _ _ (by decide) (by decide)
    · rw [show ("VC:L/VI:L/VA:H/CR:H/IR:H/AR:M/" ++ t : String).data = String.data "VC:L/VI:L/VA:H/CR:H/IR:H/" ++ (String.data "AR" ++ (':' :: (String.data "M" ++ '/' :: (String.data "" ++ t.data)))) from rfl]
      exact occ_mid _ _ _ (by decide) (by decide)
  · refine ⟨?_, ?_, ?_, ?_, ?_, ?_⟩
    · rw [show ("VC:L/VI:L/VA:L/CR:H/IR:H/AR:H/" ++ t : String).data = String.data "VC" ++ (':' :: (String.data "L" ++ '/' :: (String.data "VI:L/VA:L/CR:H/IR:H/AR:H/" ++ t.data))) from rfl]
      exact occ_head _ _ (by decide)
    · rw [show ("VC:L/VI:L/VA:L/CR:H/IR:H/AR:H/" ++ t : String).data = String.data "VC:L/" ++ (String.data "VI" ++ (':' :: (String.data "L" ++ '/' :: (String.data "VA:L/CR:H/IR:H/AR:H/" ++ t.data)))) from rfl]
      exact occ_mid _ _ _ (by decide) (by decide)
    · rw [show ("VC:L/VI:L/VA:L/CR:H/IR:H/AR:H/" ++ t : String).data = String.data "VC:L/VI:L/" ++ (String.data "VA" ++ (':' :: (String.data "L" ++ '/' :: (String.data "CR:H/IR:H/AR:H/" ++ t.data)))) from rfl]
      exact occ_mid _ _ _ (by decide) (by decide)
    · rw [show ("VC:L/VI:L/VA:L/CR:H/IR:H/AR:H/" ++ t : String).data = String.data "VC:L/VI:L/VA:L/" ++ (String.data "CR" ++ (':' :: (String.data "H" ++ '/' :: (String.data "IR:H/AR:H/" ++ t.data)))) from rfl]
      exact occ_mid _ _ _ (by decide) (by decide)
    · rw [show ("VC:L/VI:L/VA:L/CR:H/IR:H/AR:H/" ++ t : String).data = String.data "VC:L/VI:L/VA:L/CR:H/" ++ (String.data "IR" ++ (':' :: (String.data "H" ++ '/' :: (String.data "AR:H/" ++ t.data)))) from rfl]
      exact occ_mid _ _ _ (by decide) (by decide)
    · rw [show ("VC:L/VI:L/VA:L/CR:H/IR:H/AR:H/" ++ t : String).data = String.data "VC:L/VI:L/VA:L/CR:H/IR:H/" ++ (String.data "AR" ++ (':' :: (String.data "H" ++ '/' :: (String.data "" ++ t.data)))) from rfl]
      exact occ_mid _ _ _ (by decide) (by decide)

/-- The EQ4 metric names occur in every extended EQ4 fragment. -/
theorem occE4 : ∀ d ∈ allE4, ∀ t : String,
    (indexOfSeq (String.data "SC") (d ++ t).data).isSome = true ∧
    (indexOfSeq (String.data "SI") (d ++ t).data).isSome = true ∧
    (indexOfSeq (String.data "SA") (d ++ t).data).isSome = true := by
  intro d hd t
  fin_cases hd
  · refine ⟨?_, ?_, ?_⟩
    · rw [show ("SC:H/SI:S/SA:S/" ++ t : String).data = String.data "SC" ++ (':' :: (String.data "H" ++ '/' :: (String.data "SI:S/SA:S/" ++ t.data))) from rfl]
      exact occ_head _ _ (by decide)
    · rw [show ("SC:H/SI:S/SA:S/" ++ t : String).data = String.data "SC:H/" ++ (String.data "SI" ++ (':' :: (String.data "S" ++ '/' :: (String.data "SA:S/" ++ t.data)))) from rfl]
      exact occ_mid _ _ _ (by decide) (by decide)
    · rw [show ("SC:H/SI:S/SA:S/" ++ t : String).data = String.data "SC:H/SI:S/" ++ (String.data "SA" ++ (':' :: (String.data "S" ++ '/' :: (String.data "" ++ t.data)))) from rfl]
      exact occ_mid _ _ _ (by decide) (by decide)
  · refine ⟨?_, ?_, ?_⟩
    · rw [show ("SC:H/SI:H/SA:H/" ++ t : String).data = String.data "SC" ++ (':' :: (String.data "H" ++ '/' :: (String.data "SI:H/SA:H/" ++ t.data))) from rfl]
      exact occ_head _ _ (by decide)
    · rw [show ("SC:H/SI:H/SA:H/" ++ t : String).data = String.data "SC:H/" ++ (String.data "SI" ++ (':' :: (String.data "H" ++ '/' :: (String.data "SA:H/" ++ t.data)))) from rfl]
      exact occ_mid _ _ _ (by decide) (by decide)
    · rw [show ("SC:H/SI:H/SA:H/" ++ t : String).data = String.data "SC:H/SI:H/" ++ (String.data "SA" ++ (':' :: (String.data "H" ++ '/' :: (String.data "" ++ t.data)))) from rfl]
      exact occ_mid _ _ _ (by decide) (by decide)
  · refine ⟨?_, ?_, ?_⟩
    · rw [show ("SC:L/SI:L/SA:L/" ++ t : String).data = String.data "SC" ++ (':' :: (String.data "L" ++ '/' :: (String.data "SI:L/SA:L/" ++ t.data))) from rfl]
      exact occ_head _ _ (by decide)
    · rw [show ("SC:L/SI:L/SA:L/" ++ t : String).data = String.data "SC:L/" ++ (String.data "SI" ++ (':' :: (String.data "L" ++ '/' :: (String.data "SA:L/" ++ t.data)))) from rfl]
      exact occ_mid _ _ _ (by decide) (by decide)
    · rw [show ("SC:L/SI:L/SA:L/" ++ t : String).data = String.data "SC:L/SI:L/" ++ (String.data "SA" ++ (':' :: (String.data "L" ++ '/' :: (String.data "" ++ t.data)))) from rfl]
      exact occ_mid _ _ _ (by decide) (by decide)

/-- Extraction of the EQ1 metrics from an extended EQ1 fragment lands in
the level-table domains. -/
theorem extractE1 : ∀ a ∈ allE1, ∀ t : String,
    (AV_levels (some (extractValueMetric "AV" (a ++ t)))).isSome = true ∧
    (PR_levels (some (extractValueMetric "PR" (a ++ t)))).isSome = true ∧
    (UI_levels (some (extractValueMetric "UI" (a ++ t)))).isSome = true := by
  intro a ha t
  fin_cases ha
  · refine ⟨?_, ?_, ?_⟩
    · rw [show ("AV:N/PR:N/UI:N/" ++ t : String) = String.mk (String.data "" ++ (String.data "AV" ++ ':' :: (String.data "N" ++ '/' :: (String.mk (String.data "PR:N/UI:N/" ++ t.data)).data))) from rfl]
      rw [extract_mid "AV" "N" "" (String.mk (String.data "PR:N/UI:N/" ++ t.data)) (by decide) (by decide) (by decide) (by decide)]
      rfl
    · rw [show ("AV:N/PR:N/UI:N/" ++ t : String) = String.mk (String.data "AV:N/" ++ (String.data "PR" ++ ':' :: (String.data "N" ++ '/' :: (String.mk (String.data "UI:N/" ++ t.data)).data))) from rfl]
      rw [extract_mid "PR" "N" "AV:N/" (String.mk (String.data "UI:N/" ++ t.data)) (by decide) (by decide) (by decide) (by decide)]
      rfl
    · rw [show ("AV:N/PR:N/UI:N/" ++ t : String) = String.mk (String.data "AV:N/PR:N/" ++ (String.data "UI" ++ ':' :: (String.data "N" ++ '/' :: (String.mk (String.data "" ++ t.data)).data))) from rfl]
      rw [extract_mid "UI" "N" "AV:N/PR:N/" (String.mk (String.data "" ++ t.data)) (by decide) (by decide) (by decide) (by decide)]
      rfl
  · refine ⟨?_, ?_, ?_⟩
    · rw [show ("AV:A/PR:N/UI:N/" ++ t : String) = String.mk (String.data "" ++ (String.data "AV" ++ ':' :: (String.data "A" ++ '/' :: (String.mk (String.data "PR:N/UI:N/" ++ t.data)).data))) from rfl]
      rw [extract_mid "AV" "A" "" (String.mk (String.data "PR:N/UI:N/" ++ t.data)) (by decide) (by decide) (by decide) (by decide)]
      rfl
    · rw [show ("AV:A/PR:N/UI:N/" ++ t : String) = String.mk (String.data "AV:A/" ++ (String.data "PR" ++ ':' :: (String.data "N" ++ '/' :: (String.mk (String.data "UI:N/" ++ t.data)).data))) from rfl]
      rw [extract_mid "PR" "N" "AV:A/" (String.mk (String.data "UI:N/" ++ t.data)) (by decide) (by decide) (by decide) (by decide)]
      rfl
    · rw [show ("AV:A/PR:N/UI:N/" ++ t : String) = String.mk (String.data "AV:A/PR:N/" ++ (String.data "UI" ++ ':' :: (String.data "N" ++ '/' :: (String.mk (String.data "" ++ t.data)).data))) from rfl]
      rw [extract_mid "UI" "N" "AV:A/PR:N/" (String.mk (String.data "" ++ t.data)) (by decide) (by decide) (by decide) (by decide)]
      rfl
  · refine ⟨?_, ?_, ?_⟩
    · rw [show ("AV:N/PR:L/UI:N/" ++ t : String) = String.mk (String.data "" ++ (String.data "AV" ++ ':' :: (String.data "N" ++ '/' :: (String.mk (String.data "PR:L/UI:N/" ++ t.data)).data))) from rfl]
      rw [extract_mid "AV" "N" "" (String.mk (String.data "PR:L/UI:N/" ++ t.data)) (by decide) (by decide) (by decide) (by decide)]
      rfl
    · rw [show ("AV:N/PR:L/UI:N/" ++ t : String) = String.mk (String.data "AV:N/" ++ (String.data "PR" ++ ':' :: (String.data "L" ++ '/' :: (String.mk (String.data "UI:N/" ++ t.data)).data))) from rfl]
      rw [extract_mid "PR" "L" "AV:N/" (String.mk (String.data "UI:N/" ++ t.data)) (by decide) (by decide) (by decide) (by decide)]
      rfl
    · rw [show ("AV:N/PR:L/UI:N/" ++ t : String) = String.mk (String.data "AV:N/PR:L/" ++ (String.data "UI" ++ ':' :: (String.data "N" ++ '/' :: (String.mk (String.data "" ++ t.data)).data))) from rfl]
      rw [extract_mid "UI" "N" "AV:N/PR:L/" (String.mk (String.data "" ++ t.data)) (by decide) (by decide) (by decide) (by decide)]
      rfl
  · refine ⟨?_, ?_, ?_⟩
    · rw [show ("AV:N/PR:N/UI:P/" ++ t : String) = String.mk (String.data "" ++ (String.data "AV" ++ ':' :: (String.data "N" ++ '/' :: (String.mk (String.data "PR:N/UI:P/" ++ t.data)).data))) from rfl]
      rw [extract_mid "AV" "N" "" (String.mk (String.data "PR:N/UI:P/" ++ t.data)) (by decide) (by decide) (by decide) (by decide)]
      rfl
    · rw [show ("AV:N/PR:N/UI:P/" ++ t : String) = String.mk (String.data "AV:N/" ++ (String.data "PR" ++ ':' :: (String.data "N" ++ '/' :: (String.mk (String.data "UI:P/" ++ t.data)).data))) from rfl]
      rw [extract_mid "PR" "N" "AV:N/" (String.mk (String.data "UI:P/" ++ t.data)) (by decide) (by decide) (by decide) (by decide)]
      rfl
    · rw [show ("AV:N/PR:N/UI:P/" ++ t : String) = String.mk (String.data "AV:N/PR:N/" ++ (String.data "UI" ++ ':' :: (String.data "P" ++ '/' :: (String.mk (String.data "" ++ t.data)).data))) from rfl]
      rw [extract_mid "UI" "P" "AV:N/PR:N/" (String.mk (String.data "" ++ t.data)) (by decide) (by decide) (by decide) (by decide)]
      rfl
  · refine ⟨?_, ?_, ?_⟩
    · rw [show ("AV:P/PR:N/UI:N/" ++ t : String) = String.mk (String.data "" ++ (String.data "AV" ++ ':' :: (String.data "P" ++ '/' :: (String.mk (String.data "PR:N/UI:N/" ++ t.data)).data))) from rfl]
      rw [extract_mid "AV" "P" "" (String.mk (String.data "PR:N/UI:N/" ++ t.data)) (by decide) (by decide) (by decide) (by decide)]
      rfl
    · rw [show ("AV:P/PR:N/UI:N/" ++ t : String) = String.mk (String.data "AV:P/" ++ (String.data "PR" ++ ':' :: (String.data "N" ++ '/' :: (String.mk (String.data "UI:N/" ++ t.data)).data))) from rfl]
      rw [extract_mid "PR" "N" "AV:P/" (String.mk (String.data "UI:N/" ++ t.data)) (by decide) (by decide) (by decide) (by decide)]
      rfl
    · rw [show ("AV:P/PR:N/UI:N/" ++ t : String) = String.mk (String.data "AV:P/PR:N/" ++ (String.data "UI" ++ ':' :: (String.data "N" ++ '/' :: (String.mk (String.data "" ++ t.data)).data))) from rfl]
      rw [extract_mid "UI" "N" "AV:P/PR:N/" (String.mk (String.data "" ++ t.data)) (by decide) (by decide) (by decide) (by decide)]
      rfl
  · refine ⟨?_, ?_, ?_⟩
    · rw [show ("AV:A/PR:L/UI:P/" ++ t : String) = String.mk (String.data "" ++ (String.data "AV" ++ ':' :: (String.data "A" ++ '/' :: (String.mk (String.data "PR:L/UI:P/" ++ t.data)).data))) from rfl]
      rw [extract_mid "AV" "A" "" (String.mk (String.data "PR:L/UI:P/" ++ t.data)) (by decide) (by decide) (by decide) (by decide)]
      rfl
    · rw [show ("AV:A/PR:L/UI:P/" ++ t : String) = String.mk (String.data "AV:A/" ++ (String.data "PR" ++ ':' :: (String.data "L" ++ '/' :: (String.mk (String.data "UI:P/" ++ t.data)).data))) from rfl]
      rw [extract_mid "PR" "L" "AV:A/" (String.mk (String.data "UI:P/" ++ t.data)) (by decide) (by decide) (by decide) (by decide)]
      rfl
    · rw [show ("AV:A/PR:L/UI:P/" ++ t : String) = String.mk (String.data "AV:A/PR:L/" ++ (String.data "UI" ++ ':' :: (String.data "P" ++ '/' :: (String.mk (String.data "" ++ t.data)).data))) from rfl]
      rw [extract_mid "UI" "P" "AV:A/PR:L/" (String.mk (String.data "" ++ t.data)) (by decide) (by decide) (by decide) (by decide)]
      rfl

/-- Extraction of the EQ2 metrics from an extended EQ2 fragment. -/
theorem extractE2 : ∀ b ∈ allE2, ∀ t : String,
    (AC_levels (some (extractValueMetric "AC" (b ++ t)))).isSome = true ∧
    (AT_levels (some (extractValueMetric "AT" (b ++ t)))).isSome = true := by
  intro b hb t
  fin_cases hb
  · refine ⟨?_, ?_⟩
    · rw [show ("AC:L/AT:N/" ++ t : String) = String.mk (String.data "" ++ (String.data "AC" ++ ':' :: (String.data "L" ++ '/' :: (String.mk (String.data "AT:N/" ++ t.data)).data))) from rfl]
      rw [extract_mid "AC" "L" "" (String.mk (String.data "AT:N/" ++ t.data)) (by decide) (by decide) (by decide) (by decide)]
      rfl
    · rw [show ("AC:L/AT:N/" ++ t : String) = String.mk (String.data "AC:L/" ++ (String.data "AT" ++ ':' :: (String.data "N" ++ '/' :: (String.mk (String.data "" ++ t.data)).data))) from rfl]
      rw [extract_mid "AT" "N" "AC:L/" (String.mk (String.data "" ++ t.data)) (by decide) (by decide) (by decide) (by decide)]
      rfl
  · refine ⟨?_, ?_⟩
    · rw [show ("AC:H/AT:N/" ++ t : String) = String.mk (String.data "" ++ (String.data "AC" ++ ':' :: (String.data "H" ++ '/' :: (String.mk (String.data "AT:N/" ++ t.data)).data))) from rfl]
      rw [extract_mid "AC" "H" "" (String.mk (String.data "AT:N/" ++ t.data)) (by decide) (by decide) (by decide) (by decide)]
      rfl
    · rw [show ("AC:H/AT:N/" ++ t : String) = String.mk (String.data "AC:H/" ++ (String.data "AT" ++ ':' :: (String.data "N" ++ '/' :: (String.mk (String.data "" ++ t.data)).data))) from rfl]
      rw [extract_mid "AT" "N" "AC:H/" (String.mk (String.data "" ++ t.data)) (by decide) (by decide) (by decide) (by decide)]
      rfl
  · refine ⟨?_, ?_⟩
    · rw [show ("AC:L/AT:P/" ++ t : String) = String.mk (String.data "" ++ (String.data "AC" ++ ':' :: (String.data "L" ++ '/' :: (String.mk (String.data "AT:P/" ++ t.data)).data))) from rfl]
      rw [extract_mid "AC" "L" "" (String.mk (String.data "AT:P/" ++ t.data)) (by decide) (by decide) (by decide) (by decide)]
      rfl
    · rw [show ("AC:L/AT:P/" ++ t : String) = String.mk (String.data "AC:L/" ++ (String.data "AT" ++ ':' :: (String.data "P" ++ '/' :: (String.mk (String.data "" ++ t.data)).data))) from rfl]
      rw [extract_mid "AT" "P" "AC:L/" (String.mk (String.data "" ++ t.data)) (by decide) (by decide) (by decide) (by decide)]
      rfl

/-- Extraction of the EQ3/EQ6 metrics from an extended EQ3/EQ6 fragment. -/
theorem extractE36 : ∀ c ∈ allE36, ∀ t : String,
    (VC_levels (some (extractValueMetric "VC" (c ++ t)))).isSome = true ∧
    (VC_levels (some (extractValueMetric "VI" (c ++ t)))).isSome = true ∧
    (VC_levels (some (extractValueMetric "VA" (c ++ t)))).isSome = true ∧
    (CR_levels (some (extractValueMetric "CR" (c ++ t)))).isSome = true ∧
    (CR_levels (some (extractValueMetric "IR" (c ++ t)))).isSome = true ∧
    (CR_levels (some (extractValueMetric "AR" (c ++ t)))).isSome = true := by
  intro c hc t
  fin_cases hc
  · refine ⟨?_, ?_, ?_, ?_, ?_, ?_⟩
    · rw [show ("VC:H/VI:H/VA:H/CR:H/IR:H/AR:H/" ++ t : String) = String.mk (String.data "" ++ (String.data "VC" ++ ':' :: (String.data "H" ++ '/' :: (String.mk (String.data "VI:H/VA:H/CR:H/IR:H/AR:H/" ++ t.data)).data))) from rfl]
      rw [extract_mid "VC" "H" "" (String.mk (String.data "VI:H/VA:H/CR:H/IR:H/AR:H/" ++ t.data)) (by decide) (by decide) (by decide) (by decide)]
      rfl
    · rw [show ("VC:H/VI:H/VA:H/CR:H/IR:H/AR:H/" ++ t : String) = String.mk (String.data "VC:H/" ++ (String.data "VI" ++ ':' :: (String.data "H" ++ '/' :: (String.mk (String.data "VA:H/CR:H/IR:H/AR:H/" ++ t.data)).data))) from rfl]
      rw [extract_mid "VI" "H" "VC:H/" (String.mk (String.data "VA:H/CR:H/IR:H/AR:H/" ++ t.data)) (by decide) (by decide) (by decide) (by decide)]
      rfl
    · rw [show ("VC:H/VI:H/VA:H/CR:H/IR:H/AR:H/" ++ t : String) = String.mk (String.data "VC:H/VI:H/" ++ (String.data "VA" ++ ':' :: (String.data "H" ++ '/' :: (String.mk (String.data "CR:H/IR:H/AR:H/" ++ t.data)).data))) from rfl]
      rw [extract_mid "VA" "H" "VC:H/VI:H/" (String.mk (String.data "CR:H/IR:H/AR:H/" ++ t.data)) (by decide) (by decide) (by decide) (by decide)]
      rfl
    · rw [show ("VC:H/VI:H/VA:H/CR:H/IR:H/AR:H/" ++ t : String) = String.mk (String.data "VC:H/VI:H/VA:H/" ++ (String.data "CR" ++ ':' :: (String.data "H" ++ '/' :: (String.mk (String.data "IR:H/AR:H/" ++ t.data)).data))) from rfl]
      rw [extract_mid "CR" "H" "VC:H/VI:H/VA:H/" (String.mk (String.data "IR:H/AR:H/" ++ t.data)) (by decide) (by decide) (by decide) (by decide)]
      rfl
    · rw [show ("VC:H/VI:H/VA:H/CR:H/IR:H/AR:H/" ++ t : String) = String.mk (String.data "VC:H/VI:H/VA:H/CR:H/" ++ (String.data "IR" ++ ':' :: (String.data "H" ++ '/' :: (String.mk (String.data "AR:H/" ++ t.data)).data))) from rfl]
      rw [extract_mid "IR" "H" "VC:H/VI:H/VA:H/CR:H/" (String.mk (String.data "AR:H/" ++ t.data)) (by decide) (by decide) (by decide) (by decide)]
      rfl
    · rw [show ("VC:H/VI:H/VA:H/CR:H/IR:H/AR:H/" ++ t : String) = String.mk (String.data "VC:H/VI:H/VA:H/CR:H/IR:H/" ++ (String.data "AR" ++ ':' :: (String.data "H" ++ '/' :: (String.mk (String.data "" ++ t.data)).data))) from rfl]
      rw [extract_mid "AR" "H" "VC:H/VI:H/VA:H/CR:H/IR:H/" (String.mk (String.data "" ++ t.data)) (by decide) (by decide) (by decide) (by decide)]
      rfl
  · refine ⟨?_, ?_, ?_, ?_, ?_, ?_⟩
    · rw [show ("VC:H/VI:H/VA:L/CR:M/IR:M/AR:H/" ++ t : String) = String.mk (String.data "" ++ (String.data "VC" ++ ':' :: (String.data "H" ++ '/' :: (String.mk (String.data "VI:H/VA:L/CR:M/IR:M/AR:H/" ++ t.data)).data))) from rfl]
      rw [extract_mid "VC" "H" "" (String.mk (String.data "VI:H/VA:L/CR:M/IR:M/AR:H/" ++ t.data)) (by decide) (by decide) (by decide) (by decide)]
      rfl
    · rw [show ("VC:H/VI:H/VA:L/CR:M/IR:M/AR:H/" ++ t : String) = String.mk (String.data "VC:H/" ++ (String.data "VI" ++ ':' :: (String.data "H" ++ '/' :: (String.mk (String.data "VA:L/CR:M/IR:M/AR:H/" ++ t.data)).data))) from rfl]
      rw [extract_mid "VI" "H" "VC:H/" (String.mk (String.data "VA:L/CR:M/IR:M/AR:H/" ++ t.data)) (by decide) (by decide) (by decide) (by decide)]
      rfl
    · rw [show ("VC:H/VI:H/VA:L/CR:M/IR:M/AR:H/" ++ t : String) = String.mk (String.data "VC:H/VI:H/" ++ (String.data "VA" ++ ':' :: (String.data "L" ++ '/' :: (String.mk (String.data "CR:M/IR:M/AR:H/" ++ t.data)).data))) from rfl]
      rw [extract_mid "VA" "L" "VC:H/VI:H/" (String.mk (String.data "CR:M/IR:M/AR:H/" ++ t.data)) (by decide) (by decide) (by decide) (by decide)]
      rfl
    · rw [show ("VC:H/VI:H/VA:L/CR:M/IR:M/AR:H/" ++ t : String) = String.mk (String.data "VC:H/VI:H/VA:L/" ++ (String.data "CR" ++ ':' :: (String.data "M" ++ '/' :: (String.mk (String.data "IR:M/AR:H/" ++ t.data)).data))) from rfl]
      rw [extract_mid "CR" "M" "VC:H/VI:H/VA:L/" (String.mk (String.data "IR:M/AR:H/" ++ t.data)) (by decide) (by decide) (by decide) (by decide)]
      rfl
    · rw [show ("VC:H/VI:H/VA:L/CR:M/IR:M/AR:H/" ++ t : String) = String.mk (String.data "VC:H/VI:H/VA:L/CR:M/" ++ (String.data "IR" ++ ':' :: (String.data "M" ++ '/' :: (String.mk (String.data "AR:H/" ++ t.data)).data))) from rfl]
      rw [extract_mid "IR" "M" "VC:H/VI:H/VA:L/CR:M/" (String.mk (String.data "AR:H/" ++ t.data)) (by decide) (by decide) (by decide) (by decide)]
      rfl
    · rw [show ("VC:H/VI:H/VA:L/CR:M/IR:M/AR:H/" ++ t : String) = String.mk (String.data "VC:H/VI:H/VA:L/CR:M/IR:M/" ++ (String.data "AR" ++ ':' :: (String.data "H" ++ '/' :: (String.mk (String.data "" ++ t.data)).data))) from rfl]
      rw [extract_mid "AR" "H" "VC:H/VI:H/VA:L/CR:M/IR:M/" (String.mk (String.data "" ++ t.data)) (by decide) (by decide) (by decide) (by decide)]
      rfl
  · refine ⟨?_, ?_, ?_, ?_, ?_, ?_⟩
    · rw [show ("VC:H/VI:H/VA:H/CR:M/IR:M/AR:M/" ++ t : String) = String.mk (String.data "" ++ (String.data "VC" ++ ':' :: (String.data "H" ++ '/' :: (String.mk (String.data "VI:H/VA:H/CR:M/IR:M/AR:M/" ++ t.data)).data))) from rfl]
      rw [extract_mid "VC" "H" "" (String.mk (String.data "VI:H/VA:H/CR:M/IR:M/AR:M/" ++ t.data)) (by decide) (by decide) (by decide) (by decide)]
      rfl
    · rw [show ("VC:H/VI:H/VA:H/CR:M/IR:M/AR:M/" ++ t : String) = String.mk (String.data "VC:H/" ++ (String.data "VI" ++ ':' :: (String.data "H" ++ '/' :: (String.mk (String.data "VA:H/CR:M/IR:M/AR:M/" ++ t.data)).data))) from rfl]
      rw [extract_mid "VI" "H" "VC:H/" (String.mk (String.data "VA:H/CR:M/IR:M/AR:M/" ++ t.data)) (by decide) (by decide) (by decide) (by decide)]
      rfl
    · rw [show ("VC:H/VI:H/VA:H/CR:M/IR:M/AR:M/" ++ t : String) = String.mk (String.data "VC:H/VI:H/" ++ (String.data "VA" ++ ':' :: (String.data "H" ++ '/' :: (String.mk (String.data "CR:M/IR:M/AR:M/" ++ t.data)).data))) from rfl]
      rw [extract_mid "VA" "H" "VC:H/VI:H/" (String.mk (String.data "CR:M/IR:M/AR:M/" ++ t.data)) (by decide) (by decide) (by decide) (by decide)]
      rfl
    · rw [show ("VC:H/VI:H/VA:H/CR:M/IR:M/AR:M/" ++ t : String) = String.mk (String.data "VC:H/VI:H/VA:H/" ++ (String.data "CR" ++ ':' :: (String.data "M" ++ '/' :: (String.mk (String.data "IR:M/AR:M/" ++ t.data)).data))) from rfl]
      rw [extract_mid "CR" "M" "VC:H/VI:H/VA:H/" (String.mk (String.data "IR:M/AR:M/" ++ t.data)) (by decide) (by decide) (by decide) (by decide)]
      rfl
    · rw [show ("VC:H/VI:H/VA:H/CR:M/IR:M/AR:M/" ++ t : String) = String.mk (String.data "VC:H/VI:H/VA:H/CR:M/" ++ (String.data "IR" ++ ':' :: (String.data "M" ++ '/' :: (String.mk (String.data "AR:M/" ++ t.data)).data))) from rfl]
      rw [extract_mid "IR" "M" "VC:H/VI:H/VA:H/CR:M/" (String.mk (String.data "AR:M/" ++ t.data)) (by decide) (by decide) (by decide) (by decide)]
      rfl
    · rw [show ("VC:H/VI:H/VA:H/CR:M/IR:M/AR:M/" ++ t : String) = String.mk (String.data "VC:H/VI:H/VA:H/CR:M/IR:M/" ++ (String.data "AR" ++ ':' :: (String.data "M" ++ '/' :: (String.mk (String.data "" ++ t.data)).data))) from rfl]
      rw [extract_mid "AR" "M" "VC:H/VI:H/VA:H/CR:M/IR:M/" (String.mk (String.data "" ++ t.data)) (by decide) (by decide) (by decide) (by decide)]
      rfl
  · refine ⟨?_, ?_, ?_, ?_, ?_, ?_⟩
    · rw [show ("VC:L/VI:H/VA:H/CR:H/IR:H/AR:H/" ++ t : String) = String.mk (String.data "" ++ (String.data "VC" ++ ':' :: (String.data "L" ++ '/' :: (String.mk (String.data "VI:H/VA:H/CR:H/IR:H/AR:H/" ++ t.data)).data))) from rfl]
      rw [extract_mid "VC" "L" "" (String.mk (String.data "VI:H/VA:H/CR:H/IR:H/AR:H/" ++ t.data)) (by decide) (by decide) (by decide) (by decide)]
      rfl
    · rw [show ("VC:L/VI:H/VA:H/CR:H/IR:H/AR:H/" ++ t : String) = String.mk (String.data "VC:L/" ++ (String.data "VI" ++ ':' :: (String.data "H" ++ '/' :: (String.mk (String.data "VA:H/CR:H/IR:H/AR:H/" ++ t.data)).data))) from rfl]
      rw [extract_mid "VI" "H" "VC:L/" (String.mk (String.data "VA:H/CR:H/IR:H/AR:H/" ++ t.data)) (by decide) (by decide) (by decide) (by decide)]
      rfl
    · rw [show ("VC:L/VI:H/VA:H/CR:H/IR:H/AR:H/" ++ t : String) = String.mk (String.data "VC:L/VI:H/" ++ (String.data "VA" ++ ':' :: (String.data "H" ++ '/' :: (String.mk (String.data "CR:H/IR:H/AR:H/" ++ t.data)).data))) from rfl]
      rw [extract_mid "VA" "H" "VC:L/VI:H/" (String.mk (String.data "CR:H/IR:H/AR:H/" ++ t.data)) (by decide) (by decide) (by decide) (by decide)]
      rfl
    · rw [show ("VC:L/VI:H/VA:H/CR:H/IR:H/AR:H/" ++ t : String) = String.mk (String.data "VC:L/VI:H/VA:H/" ++ (String.data "CR" ++ ':' :: (String.data "H" ++ '/' :: (String.mk (String.data "IR:H/AR:H/" ++ t.data)).data))) from rfl]
      rw [extract_mid "CR" "H" "VC:L/VI:H/VA:H/" (String.mk (String.data "IR:H/AR:H/" ++ t.data)) (by decide) (by decide) (by decide) (by decide)]
      rfl
    · rw [show ("VC:L/VI:H/VA:H/CR:H/IR:H/AR:H/" ++ t : String) = String.mk (String.data "VC:L/VI:H/VA:H/CR:H/" ++ (String.data "IR" ++ ':' :: (String.data "H" ++ '/' :: (String.mk (String.data "AR:H/" ++ t.data)).data))) from rfl]
      rw [extract_mid "IR" "H" "VC:L/VI:H/VA:H/CR:H/" (String.mk (String.data "AR:H/" ++ t.data)) (by decide) (by decide) (by decide) (by decide)]
      rfl
    · rw [show ("VC:L/VI:H/VA:H/CR:H/IR:H/AR:H/" ++ t : String) = String.mk (String.data "VC:L/VI:H/VA:H/CR:H/IR:H/" ++ (String.data "AR" ++ ':' :: (String.data "H" ++ '/' :: (String.mk (String.data "" ++ t.data)).data))) from rfl]
      rw [extract_mid "AR" "H" "VC:L/VI:H/VA:H/CR:H/IR:H/" (String.mk (String.data "" ++ t.data)) (by decide) (by decide) (by decide) (by decide)]
      rfl
  · refine ⟨?_, ?_, ?_, ?_, ?_, ?_⟩
    · rw [show ("VC:H/VI:L/VA:H/CR:H/IR:H/AR:H/" ++ t : String) = String.mk (String.data "" ++ (String.data "VC" ++ ':' :: (String.data "H" ++ '/' :: (String.mk (String.data "VI:L/VA:H/CR:H/IR:H/AR:H/" ++ t.data)).data))) from rfl]
      rw [extract_mid "VC" "H" "" (String.mk (String.data "VI:L/VA:H/CR:H/IR:H/AR:H/" ++ t.data)) (by decide) (by decide) (by decide) (by decide)]
      rfl
    · rw [show ("VC:H/VI:L/VA:H/CR:H/IR:H/AR:H/" ++ t : String) = String.mk (String.data "VC:H/" ++ (String.data "VI" ++ ':' :: (String.data "L" ++ '/' :: (String.mk (String.data "VA:H/CR:H/IR:H/AR:H/" ++ t.data)).data))) from rfl]
      rw [extract_mid "VI" "L" "VC:H/" (String.mk (String.data "VA:H/CR:H/IR:H/AR:H/" ++ t.data)) (by decide) (by decide) (by decide) (by decide)]
      rfl
    · rw [show ("VC:H/VI:L/VA:H/CR:H/IR:H/AR:H/" ++ t : String) = String.mk (String.data "VC:H/VI:L/" ++ (String.data "VA" ++ ':' :: (String.data "H" ++ '/' :: (String.mk (String.data "CR:H/IR:H/AR:H/" ++ t.data)).data))) from rfl]
      rw [extract_mid "VA" "H" "VC:H/VI:L/" (String.mk (String.data "CR:H/IR:H/AR:H/" ++ t.data)) (by decide) (by decide) (by decide) (by decide)]
      rfl
    · rw [show ("VC:H/VI:L/VA:H/CR:H/IR:H/AR:H/" ++ t : String) = String.mk (String.data "VC:H/VI:L/VA:H/" ++ (String.data "CR" ++ ':' :: (String.data "H" ++ '/' :: (String.mk (String.data "IR:H/AR:H/" ++ t.data)).data))) from rfl]
      rw [extract_mid "CR" "H" "VC:H/VI:L/VA:H/" (String.mk (String.data "IR:H/AR:H/" ++ t.data)) (by decide) (by decide) (by decide) (by decide)]
      rfl
    · rw [show ("VC:H/VI:L/VA:H/CR:H/IR:H/AR:H/" ++ t : String) = String.mk (String.data "VC:H/VI:L/VA:H/CR:H/" ++ (String.data "IR" ++ ':' :: (String.data "H" ++ '/' :: (String.mk (String.data "AR:H/" ++ t.data)).data))) from rfl]
      rw [extract_mid "IR" "H" "VC:H/VI:L/VA:H/CR:H/" (String.mk (String.data "AR:H/" ++ t.data)) (by decide) (by decide) (by decide) (by decide)]
      rfl
    · rw [show ("VC:H/VI:L/VA:H/CR:H/IR:H/AR:H/" ++ t : String) = String.mk (String.data "VC:H/VI:L/VA:H/CR:H/IR:H/" ++ (String.data "AR" ++ ':' :: (String.data "H" ++ '/' :: (String.mk (String.data "" ++ t.data)).data))) from rfl]
      rw [extract_mid "AR" "H" "VC:H/VI:L/VA:H/CR:H/IR:H/" (String.mk (String.data "" ++ t.data)) (by decide) (by decide) (by decide) (by decide)]
      rfl
  · refine ⟨?_, ?_, ?_, ?_, ?_, ?_⟩
    · rw [show ("VC:H/VI:L/VA:H/CR:M/IR:H/AR:M/" ++ t : String) = String.mk (String.data "" ++ (String.data "VC" ++ ':' :: (String.data "H" ++ '/' :: (String.mk (String.data "VI:L/VA:H/CR:M/IR:H/AR:M/" ++ t.data)).data))) from rfl]
      rw [extract_mid "VC" "H" "" (String.mk (String.data "VI:L/VA:H/CR:M/IR:H/AR:M/" ++ t.data)) (by decide) (by decide) (by decide) (by decide)]
      rfl
    · rw [show ("VC:H/VI:L/VA:H/CR:M/IR:H/AR:M/" ++ t : String) = String.mk (String.data "VC:H/" ++ (String.data "VI" ++ ':' :: (String.data "L" ++ '/' :: (String.mk (String.data "VA:H/CR:M/IR:H/AR:M/" ++ t.data)).data))) from rfl]
      rw [extract_mid "VI" "L" "VC:H/" (String.mk (String.data "VA:H/CR:M/IR:H/AR:M/" ++ t.data)) (by decide) (by decide) (by decide) (by decide)]
      rfl
    · rw [show ("VC:H/VI:L/VA:H/CR:M/IR:H/AR:M/" ++ t : String) = String.mk (String.data "VC:H/VI:L/" ++ (String.data "VA" ++ ':' :: (String.data "H" ++ '/' :: (String.mk (String.data "CR:M/IR:H/AR:M/" ++ t.data)).data))) from rfl]
      rw [extract_mid "VA" "H" "VC:H/VI:L/" (String.mk (String.data "CR:M/IR:H/AR:M/" ++ t.data)) (by decide) (by decide) (by decide) (by decide)]
      rfl
    · rw [show ("VC:H/VI:L/VA:H/CR:M/IR:H/AR:M/" ++ t : String) = String.mk (String.data "VC:H/VI:L/VA:H/" ++ (String.data "CR" ++ ':' :: (String.data "M" ++ '/' :: (String.mk (String.data "IR:H/AR:M/" ++ t.data)).data))) from rfl]
      rw [extract_mid "CR" "M" "VC:H/VI:L/VA:H/" (String.mk (String.data "IR:H/AR:M/" ++ t.data)) (by decide) (by decide) (by decide) (by decide)]
      rfl
    · rw [show ("VC:H/VI:L/VA:H/CR:M/IR:H/AR:M/" ++ t : String) = String.mk (String.data "VC:H/VI:L/VA:H/CR:M/" ++ (String.data "IR" ++ ':' :: (String.data "H" ++ '/' :: (String.mk (String.data "AR:M/" ++ t.data)).data))) from rfl]
      rw [extract_mid "IR" "H" "VC:H/VI:L/VA:H/CR:M/" (String.mk (String.data "AR:M/" ++ t.data)) (by decide) (by decide) (by decide) (by decide)]
      rfl
    · rw [show ("VC:H/VI:L/VA:H/CR:M/IR:H/AR:M/" ++ t : String) = String.mk (String.data "VC:H/VI:L/VA:H/CR:M/IR:H/" ++ (String.data "AR" ++ ':' :: (String.data "M" ++ '/' :: (String.mk (String.data "" ++ t.data)).data))) from rfl]
      rw [extract_mid "AR" "M" "VC:H/VI:L/VA:H/CR:M/IR:H/" (String.mk (String.data "" ++ t.data)) (by decide) (by decide) (by decide) (by decide)]
      rfl
  · refine ⟨?_, ?_, ?_, ?_, ?_, ?_⟩
    · rw [show ("VC:H/VI:L/VA:L/CR:M/IR:H/AR:H/" ++ t : String) = String.mk (String.data "" ++ (String.data "VC" ++ ':' :: (String.data "H" ++ '/' :: (String.mk (String.data "VI:L/VA:L/CR:M/IR:H/AR:H/" ++ t.data)).data))) from rfl]
      rw [extract_mid "VC" "H" "" (String.mk (String.data "VI:L/VA:L/CR:M/IR:H/AR:H/" ++ t.data)) (by decide) (by decide) (by decide) (by decide)]
      rfl
    · rw [show ("VC:H/VI:L/VA:L/CR:M/IR:H/AR:H/" ++ t : String) = String.mk (String.data "VC:H/" ++ (String.data "VI" ++ ':' :: (String.data "L" ++ '/' :: (String.mk (String.data "VA:L/CR:M/IR:H/AR:H/" ++ t.data)).data))) from rfl]
      rw [extract_mid "VI" "L" "VC:H/" (String.mk (String.data "VA:L/CR:M/IR:H/AR:H/" ++ t.data)) (by decide) (by decide) (by decide) (by decide)]
      rfl
    · rw [show ("VC:H/VI:L/VA:L/CR:M/IR:H/AR:H/" ++ t : String) = String.mk (String.data "VC:H/VI:L/" ++ (String.data "VA" ++ ':' :: (String.data "L" ++ '/' :: (String.mk (String.data "CR:M/IR:H/AR:H/" ++ t.data)).data))) from rfl]
      rw [extract_mid "VA" "L" "VC:H/VI:L/" (String.mk (String.data "CR:M/IR:H/AR:H/" ++ t.data)) (by decide) (by decide) (by decide) (by decide)]
      rfl
    · rw [show ("VC:H/VI:L/VA:L/CR:M/IR:H/AR:H/" ++ t : String) = String.mk (String.data "VC:H/VI:L/VA:L/" ++ (String.data "CR" ++ ':' :: (String.data "M" ++ '/' :: (String.mk (String.data "IR:H/AR:H/" ++ t.data)).data))) from rfl]
      rw [extract_mid "CR" "M" "VC:H/VI:L/VA:L/" (String.mk (String.data "IR:H/AR:H/" ++ t.data)) (by decide) (by decide) (by decide) (by decide)]
      rfl
    · rw [show ("VC:H/VI:L/VA:L/CR:M/IR:H/AR:H/" ++ t : String) = String.mk (String.data "VC:H/VI:L/VA:L/CR:M/" ++ (String.data "IR" ++ ':' :: (String.data "H" ++ '/' :: (String.mk (String.data "AR:H/" ++ t.data)).data))) from rfl]
      rw [extract_mid "IR" "H" "VC:H/VI:L/VA:L/CR:M/" (String.mk (String.data "AR:H/" ++ t.data)) (by decide) (by decide) (by decide) (by decide)]
      rfl
    · rw [show ("VC:H/VI:L/VA:L/CR:M/IR:H/AR:H/" ++ t : String) = String.mk (String.data "VC:H/VI:L/VA:L/CR:M/IR:H/" ++ (String.data "AR" ++ ':' :: (String.data "H" ++ '/' :: (String.mk (String.data "" ++ t.data)).data))) from rfl]
      rw [extract_mid "AR" "H" "VC:H/VI:L/VA:L/CR:M/IR:H/" (String.mk (String.data "" ++ t.data)) (by decide) (by decide) (by decide) (by decide)]
      rfl
  · refine ⟨?_, ?_, ?_, ?_, ?_, ?_⟩
    · rw [show ("VC:L/VI:H/VA:H/CR:H/IR:M/AR:M/" ++ t : String) = String.mk (String.data "" ++ (String.data "VC" ++ ':' :: (String.data "L" ++ '/' :: (String.mk (String.data "VI:H/VA:H/CR:H/IR:M/AR:M/" ++ t.data)).data))) from rfl]
      rw [extract_mid "VC" "L" "" (String.mk (String.data "VI:H/VA:H/CR:H/IR:M/AR:M/" ++ t.data)) (by decide) (by decide) (by decide) (by decide)]
      rfl
    · rw [show ("VC:L/VI:H/VA:H/CR:H/IR:M/AR:M/" ++ t : String) = String.mk (String.data "VC:L/" ++ (String.data "VI" ++ ':' :: (String.data "H" ++ '/' :: (String.mk (String.data "VA:H/CR:H/IR:M/AR:M/" ++ t.data)).data))) from rfl]
      rw [extract_mid "VI" "H" "VC:L/" (String.mk (String.data "VA:H/CR:H/IR:M/AR:M/" ++ t.data)) (by decide) (by decide) (by decide) (by decide)]
      rfl
    · rw [show ("VC:L/VI:H/VA:H/CR:H/IR:M/AR:M/" ++ t : String) = String.mk (String.data "VC:L/VI:H/" ++ (String.data "VA" ++ ':' :: (String.data "H" ++ '/' :: (String.mk (String.data "CR:H/IR:M/AR:M/" ++ t.data)).data))) from rfl]
      rw [extract_mid "VA" "H" "VC:L/VI:H/" (String.mk (String.data "CR:H/IR:M/AR:M/" ++ t.data)) (by decide) (by decide) (by decide) (by decide)]
      rfl
    · rw [show ("VC:L/VI:H/VA:H/CR:H/IR:M/AR:M/" ++ t : String) = String.mk (String.data "VC:L/VI:H/VA:H/" ++ (String.data "CR" ++ ':' :: (String.data "H" ++ '/' :: (String.mk (String.data "IR:M/AR:M/" ++ t.data)).data))) from rfl]
      rw [extract_mid "CR" "H" "VC:L/VI:H/VA:H/" (String.mk (String.data "IR:M/AR:M/" ++ t.data)) (by decide) (by decide) (by decide) (by decide)]
      rfl
    · rw [show ("VC:L/VI:H/VA:H/CR:H/IR:M/AR:M/" ++ t : String) = String.mk (String.data "VC:L/VI:H/VA:H/CR:H/" ++ (String.data "IR" ++ ':' :: (String.data "M" ++ '/' :: (String.mk (String.data "AR:M/" ++ t.data)).data))) from rfl]
      rw [extract_mid "IR" "M" "VC:L/VI:H/VA:H/CR:H/" (String.mk (String.data "AR:M/" ++ t.data)) (by decide) (by decide) (by decide) (by decide)]
      rfl
    · rw [show ("VC:L/VI:H/VA:H/CR:H/IR:M/AR:M/" ++ t : String) = String.mk (String.data "VC:L/VI:H/VA:H/CR:H/IR:M/" ++ (String.data "AR" ++ ':' :: (String.data "M" ++ '/' :: (String.mk (String.data "" ++ t.data)).data))) from rfl]
      rw [extract_mid "AR" "M" "VC:L/VI:H/VA:H/CR:H/IR:M/" (String.mk (String.data "" ++ t.data)) (by decide) (by decide) (by decide) (by decide)]
      rfl
  · refine ⟨?_, ?_, ?_, ?_, ?_, ?_⟩
    · rw [show ("VC:L/VI:H/VA:L/CR:H/IR:M/AR:H/" ++ t : String) = String.mk (String.data "" ++ (String.data "VC" ++ ':' :: (String.data "L" ++ '/' :: (String.mk (String.data "VI:H/VA:L/CR:H/IR:M/AR:H/" ++ t.data)).data))) from rfl]
      rw [extract_mid "VC" "L" "" (String.mk (String.data "VI:H/VA:L/CR:H/IR:M/AR:H/" ++ t.data)) (by decide) (by decide) (by decide) (by decide)]
      rfl
    · rw [show ("VC:L/VI:H/VA:L/CR:H/IR:M/AR:H/" ++ t : String) = String.mk (String.data "VC:L/" ++ (String.data "VI" ++ ':' :: (String.data "H" ++ '/' :: (String.mk (String.data "VA:L/CR:H/IR:M/AR:H/" ++ t.data)).data))) from rfl]
      rw [extract_mid "VI" "H" "VC:L/" (String.mk (String.data "VA:L/CR:H/IR:M/AR:H/" ++ t.data)) (by decide) (by decide) (by decide) (by decide)]
      rfl
    · rw [show ("VC:L/VI:H/VA:L/CR:H/IR:M/AR:H/" ++ t : String) = String.mk (String.data "VC:L/VI:H/" ++ (String.data "VA" ++ ':' :: (String.data "L" ++ '/' :: (String.mk (String.data "CR:H/IR:M/AR:H/" ++ t.data)).data))) from rfl]
      rw [extract_mid "VA" "L" "VC:L/VI:H/" (String.mk (String.data "CR:H/IR:M/AR:H/" ++ t.data)) (by decide) (by decide) (by decide) (by decide)]
      rfl
    · rw [show ("VC:L/VI:H/VA:L/CR:H/IR:M/AR:H/" ++ t : String) = String.mk (String.data "VC:L/VI:H/VA:L/" ++ (String.data "CR" ++ ':' :: (String.data "H" ++ '/' :: (String.mk (String.data "IR:M/AR:H/" ++ t.data)).data))) from rfl]
      rw [extract_mid "CR" "H" "VC:L/VI:H/VA:L/" (String.mk (String.data "IR:M/AR:H/" ++ t.data)) (by decide) (by decide) (by decide) (by decide)]
      rfl
    · rw [show ("VC:L/VI:H/VA:L/CR:H/IR:M/AR:H/" ++ t : String) = String.mk (String.data "VC:L/VI:H/VA:L/CR:H/" ++ (String.data "IR" ++ ':' :: (String.data "M" ++ '/' :: (String.mk (String.data "AR:H/" ++ t.data)).data))) from rfl]
      rw [extract_mid "IR" "M" "VC:L/VI:H/VA:L/CR:H/" (String.mk (String.data "AR:H/" ++ t.data)) (by decide) (by decide) (by decide) (by decide)]
      rfl
    · rw [show ("VC:L/VI:H/VA:L/CR:H/IR:M/AR:H/" ++ t : String) = String.mk (String.data "VC:L/VI:H/VA:L/CR:H/IR:M/" ++ (String.data "AR" ++ ':' :: (String.data "H" ++ '/' :: (String.mk (String.data "" ++ t.data)).data))) from rfl]
      rw [extract_mid "AR" "H" "VC:L/VI:H/VA:L/CR:H/IR:M/" (String.mk (String.data "" ++ t.data)) (by decide) (by decide) (by decide) (by decide)]
      rfl
  · refine ⟨?_, ?_, ?_, ?_, ?_, ?_⟩
    · rw [show ("VC:L/VI:L/VA:H/CR:H/IR:H/AR:M/" ++ t : String) = String.mk (String.data "" ++ (String.data "VC" ++ ':' :: (String.data "L" ++ '/' :: (String.mk (String.data "VI:L/VA:H/CR:H/IR:H/AR:M/" ++ t.data)).data))) from rfl]
      rw [extract_mid "VC" "L" "" (String.mk (String.data "VI:L/VA:H/CR:H/IR:H/AR:M/" ++ t.data)) (by decide) (by decide) (by decide) (by decide)]
      rfl
    · rw [show ("VC:L/VI:L/VA:H/CR:H/IR:H/AR:M/" ++ t : String) = String.mk (String.data "VC:L/" ++ (String.data "VI" ++ ':' :: (String.data "L" ++ '/' :: (String.mk (String.data "VA:H/CR:H/IR:H/AR:M/" ++ t.data)).data))) from rfl]
      rw [extract_mid "VI" "L" "VC:L/" (String.mk (String.data "VA:H/CR:H/IR:H/AR:M/" ++ t.data)) (by decide) (by decide) (by decide) (by decide)]
      rfl
    · rw [show ("VC:L/VI:L/VA:H/CR:H/IR:H/AR:M/" ++ t : String) = String.mk (String.data "VC:L/VI:L/" ++ (String.data "VA" ++ ':' :: (String.data "H" ++ '/' :: (String.mk (String.data "CR:H/IR:H/AR:M/" ++ t.data)).data))) from rfl]
      rw [extract_mid "VA" "H" "VC:L/VI:L/" (String.mk (String.data "CR:H/IR:H/AR:M/" ++ t.data)) (by decide) (by decide) (by decide) (by decide)]
      rfl
    · rw [show ("VC:L/VI:L/VA:H/CR:H/IR:H/AR:M/" ++ t : String) = String.mk (String.data "VC:L/VI:L/VA:H/" ++ (String.data "CR" ++ ':' :: (String.data "H" ++ '/' :: (String.mk (String.data "IR:H/AR:M/" ++ t.data)).data))) from rfl]
      rw [extract_mid "CR" "H" "VC:L/VI:L/VA:H/" (String.mk (String.data "IR:H/AR:M/" ++ t.data)) (by decide) (by decide) (by decide) (by decide)]
      rfl
    · rw [show ("VC:L/VI:L/VA:H/CR:H/IR:H/AR:M/" ++ t : String) = String.mk (String.data "VC:L/VI:L/VA:H/CR:H/" ++ (String.data "IR" ++ ':' :: (String.data "H" ++ '/' :: (String.mk (String.data "AR:M/" ++ t.data)).data))) from rfl]
      rw [extract_mid "IR" "H" "VC:L/VI:L/VA:H/CR:H/" (String.mk (String.data "AR:M/" ++ t.data)) (by decide) (by decide) (by decide) (by decide)]
      rfl
    · rw [show ("VC:L/VI:L/VA:H/CR:H/IR:H/AR:M/" ++ t : String) = String.mk (String.data "VC:L/VI:L/VA:H/CR:H/IR:H/" ++ (String.data "AR" ++ ':' :: (String.data "M" ++ '/' :: (String.mk (String.data "" ++ t.data)).data))) from rfl]
      rw [extract_mid "AR" "M" "VC:L/VI:L/VA:H/CR:H/IR:H/" (String.mk (String.data "" ++ t.data)) (by decide) (by decide) (by decide) (by decide)]
      rfl
  · refine ⟨?_, ?_, ?_, ?_, ?_, ?_⟩
    · rw [show ("VC:L/VI:L/VA:L/CR:H/IR:H/AR:H/" ++ t : String) = String.mk (String.data "" ++ (String.data "VC" ++ ':' :: (String.data "L" ++ '/' :: (String.mk (String.data "VI:L/VA:L/CR:H/IR:H/AR:H/" ++ t.data)).data))) from rfl]
      rw [extract_mid "VC" "L" "" (String.mk (String.data "VI:L/VA:L/CR:H/IR:H/AR:H/" ++ t.data)) (by decide) (by decide) (by decide) (by decide)]
      rfl
    · rw [show ("VC:L/VI:L/VA:L/CR:H/IR:H/AR:H/" ++ t : String) = String.mk (String.data "VC:L/" ++ (String.data "VI" ++ ':' :: (String.data "L" ++ '/' :: (String.mk (String.data "VA:L/CR:H/IR:H/AR:H/" ++ t.data)).data))) from rfl]
      rw [extract_mid "VI" "L" "VC:L/" (String.mk (String.data "VA:L/CR:H/IR:H/AR:H/" ++ t.data)) (by decide) (by decide) (by decide) (by decide)]
      rfl
    · rw [show ("VC:L/VI:L/VA:L/CR:H/IR:H/AR:H/" ++ t : String) = String.mk (String.data "VC:L/VI:L/" ++ (String.data "VA" ++ ':' :: (String.data "L" ++ '/' :: (String.mk (String.data "CR:H/IR:H/AR:H/" ++ t.data)).data))) from rfl]
      rw [extract_mid "VA" "L" "VC:L/VI:L/" (String.mk (String.data "CR:H/IR:H/AR:H/" ++ t.data)) (by decide) (by decide) (by decide) (by decide)]
      rfl
    · rw [show ("VC:L/VI:L/VA:L/CR:H/IR:H/AR:H/" ++ t : String) = String.mk (String.data "VC:L/VI:L/VA:L/" ++ (String.data "CR" ++ ':' :: (String.data "H" ++ '/' :: (String.mk (String.data "IR:H/AR:H/" ++ t.data)).data))) from rfl]
      rw [extract_mid "CR" "H" "VC:L/VI:L/VA:L/" (String.mk (String.data "IR:H/AR:H/" ++ t.data)) (by decide) (by decide) (by decide) (by decide)]
      rfl
    · rw [show ("VC:L/VI:L/VA:L/CR:H/IR:H/AR:H/" ++ t : String) = String.mk (String.data "VC:L/VI:L/VA:L/CR:H/" ++ (String.data "IR" ++ ':' :: (String.data "H" ++ '/' :: (String.mk (String.data "AR:H/" ++ t.data)).data))) from rfl]
      rw [extract_mid "IR" "H" "VC:L/VI:L/VA:L/CR:H/" (String.mk (String.data "AR:H/" ++ t.data)) (by decide) (by decide) (by decide) (by decide)]
      rfl
    · rw [show ("VC:L/VI:L/VA:L/CR:H/IR:H/AR:H/" ++ t : String) = String.mk (String.data "VC:L/VI:L/VA:L/CR:H/IR:H/" ++ (String.data "AR" ++ ':' :: (String.data "H" ++ '/' :: (String.mk (String.data "" ++ t.data)).data))) from rfl]
      rw [extract_mid "AR" "H" "VC:L/VI:L/VA:L/CR:H/IR:H/" (String.mk (String.data "" ++ t.data)) (by decide) (by decide) (by decide) (by decide)]
      rfl

/-- Extraction of the EQ4 metrics from an extended EQ4 fragment. -/
theorem extractE4 : ∀ d ∈ allE4, ∀ t : String,
    (SC_levels (some (extractValueMetric "SC" (d ++ t)))).isSome = true ∧
    (SI_levels (some (extractValueMetric "SI" (d ++ t)))).isSome = true ∧
    (SI_levels (some (extractValueMetric "SA" (d ++ t)))).isSome = true := by
  intro d hd t
  fin_cases hd
  · refine ⟨?_, ?_, ?_⟩
    · rw [show ("SC:H/SI:S/SA:S/" ++ t : String) = String.mk (String.data "" ++ (String.data "SC" ++ ':' :: (String.data "H" ++ '/' :: (String.mk (String.data "SI:S/SA:S/" ++ t.data)).data))) from rfl]
      rw [extract_mid "SC" "H" "" (String.mk (String.data "SI:S/SA:S/" ++ t.data)) (by decide) (by decide) (by decide) (by decide)]
      rfl
    · rw [show ("SC:H/SI:S/SA:S/" ++ t : String) = String.mk (String.data "SC:H/" ++ (String.data "SI" ++ ':' :: (String.data "S" ++ '/' :: (String.mk (String.data "SA:S/" ++ t.data)).data))) from rfl]
      rw [extract_mid "SI" "S" "SC:H/" (String.mk (String.data "SA:S/" ++ t.data)) (by decide) (by decide) (by decide) (by decide)]
      rfl
    · rw [show ("SC:H/SI:S/SA:S/" ++ t : String) = String.mk (String.data "SC:H/SI:S/" ++ (String.data "SA" ++ ':' :: (String.data "S" ++ '/' :: (String.mk (String.data "" ++ t.data)).data))) from rfl]
      rw [extract_mid "SA" "S" "SC:H/SI:S/" (String.mk (String.data "" ++ t.data)) (by decide) (by decide) (by decide) (by decide)]
      rfl
  · refine ⟨?_, ?_, ?_⟩
    · rw [show ("SC:H/SI:H/SA:H/" ++ t : String) = String.mk (String.data "" ++ (String.data "SC" ++ ':' :: (String.data "H" ++ '/' :: (String.mk (String.data "SI:H/SA:H/" ++ t.data)).data))) from rfl]
      rw [extract_mid "SC" "H" "" (String.mk (String.data "SI:H/SA:H/" ++ t.data)) (by decide) (by decide) (by decide) (by decide)]
      rfl
    · rw [show ("SC:H/SI:H/SA:H/" ++ t : String) = String.mk (String.data "SC:H/" ++ (String.data "SI" ++ ':' :: (String.data "H" ++ '/' :: (String.mk (String.data "SA:H/" ++ t.data)).data))) from rfl]
      rw [extract_mid "SI" "H" "SC:H/" (String.mk (String.data "SA:H/" ++ t.data)) (by decide) (by decide) (by decide) (by decide)]
      rfl
    · rw [show ("SC:H/SI:H/SA:H/" ++ t : String) = String.mk (String.data "SC:H/SI:H/" ++ (String.data "SA" ++ ':' :: (String.data "H" ++ '/' :: (String.mk (String.data "" ++ t.data)).data))) from rfl]
      rw [extract_mid "SA" "H" "SC:H/SI:H/" (String.mk (String.data "" ++ t.data)) (by decide) (by decide) (by decide) (by decide)]
      rfl
  · refine ⟨?_, ?_, ?_⟩
    · rw [show ("SC:L/SI:L/SA:L/" ++ t : String) = String.mk (String.data "" ++ (String.data "SC" ++ ':' :: (String.data "L" ++ '/' :: (String.mk (String.data "SI:L/SA:L/" ++ t.data)).data))) from rfl]
      rw [extract_mid "SC" "L" "" (String.mk (String.data "SI:L/SA:L/" ++ t.data)) (by decide) (by decide) (by decide) (by decide)]
      rfl
    · rw [show ("SC:L/SI:L/SA:L/" ++ t : String) = String.mk (String.data "SC:L/" ++ (String.data "SI" ++ ':' :: (String.data "L" ++ '/' :: (String.mk (String.data "SA:L/" ++ t.data)).data))) from rfl]
      rw [extract_mid "SI" "L" "SC:L/" (String.mk (String.data "SA:L/" ++ t.data)) (by decide) (by decide) (by decide) (by decide)]
      rfl
    · rw [show ("SC:L/SI:L/SA:L/" ++ t : String) = String.mk (String.data "SC:L/SI:L/" ++ (String.data "SA" ++ ':' :: (String.data "L" ++ '/' :: (String.mk (String.data "" ++ t.data)).data))) from rfl]
      rw [extract_mid "SA" "L" "SC:L/SI:L/" (String.mk (String.data "" ++ t.data)) (by decide) (by decide) (by decide) (by decide)]
      rfl

/-! ### C6: all severity distances of a candidate max vector are numbers -/

/-- All fourteen severity-distance fields are numbers (not NaN). -/
def allDistsSome (d : Dists) : Prop :=
  d.dAV.isSome = true ∧ d.dPR.isSome = true ∧ d.dUI.isSome = true ∧
  d.dAC.isSome = true ∧ d.dAT.isSome = true ∧ d.dVC.isSome = true ∧
  d.dVI.isSome = true ∧ d.dVA.isSome = true ∧ d.dSC.isSome = true ∧
  d.dSI.isSome = true ∧ d.dSA.isSome = true ∧ d.dCR.isSome = true ∧
  d.dIR.isSome = true ∧ d.dAR.isSome = true

theorem jsSub_isSome (x y : Option ℚ) (hx : x.isSome = true) (hy : y.isSome = true) :
    (jsSub x y).isSome = true := by
  cases x with
  | none => cases hx
  | some a =>
    cases y with
    | none => cases hy
    | some b => rfl

theorem jsAdd_isSome (x y : Option ℚ) (hx : x.isSome = true) (hy : y.isSome = true) :
    (jsAdd x y).isSome = true := by
  cases x with
  | none => cases hx
  | some a =>
    cases y with
    | none => cases hy
    | some b => rfl

/-- The level tables are defined on their domains. -/
theorem levels_dom :
    (∀ v ∈ (["N", "A", "L", "P"] : List String), (AV_levels (some v)).isSome = true) ∧
    (∀ v ∈ (["L", "H"] : List String), (AC_levels (some v)).isSome = true) ∧
    (∀ v ∈ (["N", "P"] : List String), (AT_levels (some v)).isSome = true) ∧
    (∀ v ∈ (["N", "L", "H"] : List String), (PR_levels (some v)).isSome = true) ∧
    (∀ v ∈ (["N", "P", "A"] : List String), (UI_levels (some v)).isSome = true) ∧
    (∀ v ∈ (["H", "L", "N"] : List String), (VC_levels (some v)).isSome = true) ∧
    (∀ v ∈ (["H", "L", "N"] : List String), (SC_levels (some v)).isSome = true) ∧
    (∀ v ∈ (["S", "H", "L", "N"] : List String), (SI_levels (some v)).isSome = true) ∧
    (∀ v ∈ (["H", "M", "L"] : List String), (CR_levels (some v)).isSome = true) := by
  refine ⟨?_, ?_, ?_, ?_, ?_, ?_, ?_, ?_, ?_⟩ <;> (intro v hv; fin_cases hv <;> rfl)

/-- On a candidate max vector of the search list, every severity distance of
a record satisfying the effective-value facts is a number. -/
theorem computeDists_isSome (sel : Rec) (hm : MFacts sel) (mac mv : String)
    (hmv : mv ∈ maxVectors mac) : allDistsSome (computeDists sel mv) := by
  obtain ⟨a, ha, b, hb, c, hc, d, hd, e, heq⟩ := maxVectors_decomp mac mv hmv
  obtain ⟨⟨vAV, hAVd, hAV⟩, ⟨vAC, hACd, hAC⟩, ⟨vAT, hATd, hAT⟩, ⟨vPR, hPRd, hPR⟩,
    ⟨vUI, hUId, hUI⟩, ⟨vVC, hVCd, hVC⟩, ⟨vVI, hVId, hVI⟩, ⟨vVA, hVAd, hVA⟩,
    ⟨vSC, hSCd, hSC⟩, ⟨vSI, hSId, hSI⟩, ⟨vSA, hSAd, hSA⟩, ⟨vCR, hCRd, hCR⟩,
    ⟨vIR, hIRd, hIR⟩, ⟨vAR, hARd, hAR⟩⟩ := hm
  subst heq
  have hlev := levels_dom
  refine ⟨?_, ?_, ?_, ?_, ?_, ?_, ?_, ?_, ?_, ?_, ?_, ?_, ?_, ?_⟩
  · exact jsSub_isSome _ _ (by rw [hAV]; exact hlev.1 vAV hAVd)
      (extractE1 a ha (b ++ (c ++ (d ++ e)))).1
  · exact jsSub_isSome _ _ (by rw [hPR]; exact hlev.2.2.2.1 vPR hPRd)
      (extractE1 a ha (b ++ (c ++ (d ++ e)))).2.1
  · exact jsSub_isSome _ _ (by rw [hUI]; exact hlev.2.2.2.2.1 vUI hUId)
      (extractE1 a ha (b ++ (c ++ (d ++ e)))).2.2
  · refine jsSub_isSome _ _ (by rw [hAC]; exact hlev.2.1 vAC hACd) ?_
    rw [extract_strip "AC" a (b ++ (c ++ (d ++ e))) (skipE1 a ha).1
      (occE2 b hb (c ++ (d ++ e))).1]
    exact (extractE2 b hb (c ++ (d ++ e))).1
  · refine jsSub_isSome _ _ (by rw [hAT]; exact hlev.2.2.1 vAT hATd) ?_
    rw [extract_strip "AT" a (b ++ (c ++ (d ++ e))) (skipE1 a ha).2.1
      (occE2 b hb (c ++ (d ++ e))).2]
    exact (extractE2 b hb (c ++ (d ++ e))).2
  · refine jsSub_isSome _ _ (by rw [hVC]; exact hlev.2.2.2.2.2.1 vVC hVCd) ?_
    rw [extract_strip "VC" a (b ++ (c ++ (d ++ e))) (skipE1 a ha).2.2.1
      (occ_strip _ b (c ++ (d ++ e)) (skipE2 b hb).1 (occE36 c hc (d ++ e)).1)]
    rw [extract_strip "VC" b (c ++ (d ++ e)) (skipE2 b hb).1 (occE36 c hc (d ++ e)).1]
    exact (extractE36 c hc (d ++ e)).1
  · refine jsSub_isSome _ _ (by rw [hVI]; exact hlev.2.2.2.2.2.1 vVI hVId) ?_
    rw [extract_strip "VI" a (b ++ (c ++ (d ++ e))) (skipE1 a ha).2.2.2.1
      (occ_strip _ b (c ++ (d ++ e)) (skipE2 b hb).2.1 (occE36 c hc (d ++ e)).2.1)]
    rw [extract_strip "VI" b (c ++ (d ++ e)) (skipE2 b hb).2.1 (occE36 c hc (d ++ e)).2.1]
    exact (extractE36 c hc (d ++ e)).2.1
  · refine jsSub_isSome _ _ (by rw [hVA]; exact hlev.2.2.2.2.2.1 vVA hVAd) ?_
    rw [extract_strip "VA" a (b ++ (c ++ (d ++ e))) (skipE1 a ha).2.2.2.2.1
      (occ_strip _ b (c ++ (d ++ e)) (skipE2 b hb).2.2.1 (occE36 c hc (d ++ e)).2.2.1)]
    rw [extract_strip "VA" b (c ++ (d ++ e)) (skipE2 b hb).2.2.1 (occE36 c hc (d ++ e)).2.2.1]
    exact (extractE36 c hc (d ++ e)).2.2.1
  · refine jsSub_isSome _ _ (by rw [hSC]; exact hlev.2.2.2.2.2.2.1 vSC hSCd) ?_
    rw [extract_strip "SC" a (b ++ (c ++ (d ++ e))) (skipE1 a ha).2.2.2.2.2.2.2.2.1
      (occ_strip _ b (c ++ (d ++ e)) (skipE2 b hb).2.2.2.2.2.2.1
        (occ_strip _ c (d ++ e) (skipE36 c hc).1 (occE4 d hd e).1))]
    rw [extract_strip "SC" b (c ++ (d ++ e)) (skipE2 b hb).2.2.2.2.2.2.1
      (occ_strip _ c (d ++ e) (skipE36 c hc).1 (occE4 d hd e).1)]
    rw [extract_strip "SC" c (d ++ e) (skipE36 c hc).1 (occE4 d hd e).1]
    exact (extractE4 d hd e).1
  · refine jsSub_isSome _ _ (by rw [hSI]; exact hlev.2.2.2.2.2.2.2.1 vSI hSId) ?_
    rw [extract_strip "SI" a (b ++ (c ++ (d ++ e))) (skipE1 a ha).2.2.2.2.2.2.2.2.2.1
      (occ_strip _ b (c ++ (d ++ e)) (skipE2 b hb).2.2.2.2.2.2.2.1
        (occ_strip _ c (d ++ e) (skipE36 c hc).2.1 (occE4 d hd e).2.1))]
    rw [extract_strip "SI" b (c ++ (d ++ e)) (skipE2 b hb).2.2.2.2.2.2.2.1
      (occ_strip _ c (d ++ e) (skipE36 c hc).2.1 (occE4 d hd e).2.1)]
    rw [extract_strip "SI" c (d ++ e) (skipE36 c hc).2.1 (occE4 d hd e).2.1]
    exact (extractE4 d hd e).2.1
  · refine jsSub_isSome _ _ (by rw [hSA]; exact hlev.2.2.2.2.2.2.2.1 vSA hSAd) ?_
    rw [extract_strip "SA" a (b ++ (c ++ (d ++ e))) (skipE1 a ha).2.2.2.2.2.2.2.2.2.2
      (occ_strip _ b (c ++ (d ++ e)) (skipE2 b hb).2.2.2.2.2.2.2.2
        (occ_strip _ c (d ++ e) (skipE36 c hc).2.2 (occE4 d hd e).2.2))]
    rw [extract_strip "SA" b (c ++ (d ++ e)) (skipE2 b hb).2.2.2.2.2.2.2.2
      (occ_strip _ c (d ++ e) (skipE36 c hc).2.2 (occE4 d hd e).2.2)]
    rw [extract_strip "SA" c (d ++ e) (skipE36 c hc).2.2 (occE4 d hd e).2.2]
    exact (extractE4 d hd e).2.2
  · refine jsSub_isSome _ _ (by rw [hCR]; exact hlev.2.2.2.2.2.2.2.2 vCR hCRd) ?_
    rw [extract_strip "CR" a (b ++ (c ++ (d ++ e))) (skipE1 a ha).2.2.2.2.2.1
      (occ_strip _ b (c ++ (d ++ e)) (skipE2 b hb).2.2.2.1 (occE36 c hc (d ++ e)).2.2.2.1)]
    rw [extract_strip "CR" b (c ++ (d ++ e)) (skipE2 b hb).2.2.2.1
      (occE36 c hc (d ++ e)).2.2.2.1]
    exact (extractE36 c hc (d ++ e)).2.2.2.1
  · refine jsSub_isSome _ _ (by rw [hIR]; exact hlev.2.2.2.2.2.2.2.2 vIR hIRd) ?_
    rw [extract_strip "IR" a (b ++ (c ++ (d ++ e))) (skipE1 a ha).2.2.2.2.2.2.1
      (occ_strip _ b (c ++ (d ++ e)) (skipE2 b hb).2.2.2.2.1
        (occE36 c hc (d ++ e)).2.2.2.2.1)]
    rw [extract_strip "IR" b (c ++ (d ++ e)) (skipE2 b hb).2.2.2.2.1
      (occE36 c hc (d ++ e)).2.2.2.2.1]
    exact (extractE36 c hc (d ++ e)).2.2.2.2.1
  · refine jsSub_isSome _ _ (by rw [hAR]; exact hlev.2.2.2.2.2.2.2.2 vAR hARd) ?_
    rw [extract_strip "AR" a (b ++ (c ++ (d ++ e))) (skipE1 a ha).2.2.2.2.2.2.2.1
      (occ_strip _ b (c ++ (d ++ e)) (skipE2 b hb).2.2.2.2.2.1
        (occE36 c hc (d ++ e)).2.2.2.2.2)]
    rw [extract_strip "AR" b (c ++ (d ++ e)) (skipE2 b hb).2.2.2.2.2.1
      (occE36 c hc (d ++ e)).2.2.2.2.2]
    exact (extractE36 c hc (d ++ e)).2.2.2.2.2

/-- The distance-search loop returns either its accumulator or the distances
of some candidate of the list. -/
theorem findDists_cases (sel : Rec) :
    ∀ (l : List String) (acc : Dists),
      findDists sel l acc = acc ∨ ∃ v ∈ l, findDists sel l acc = computeDists sel v := by
  intro l
  induction l with
  | nil => intro acc; exact Or.inl rfl
  | cons v rest ih =>
    intro acc
    rw [findDists]
    by_cases hneg : anyNegDist (computeDists sel v) = true
    · rw [if_pos hneg]
      rcases ih (computeDists sel v) with hc | ⟨w, hw, hc⟩
      · exact Or.inr ⟨v, List.mem_cons_self v rest, hc⟩
      · exact Or.inr ⟨w, List.mem_cons_of_mem v hw, hc⟩
    · rw [if_neg hneg]
      exact Or.inr ⟨v, List.mem_cons_self v rest, rfl⟩

/-- The distances used by `cvss_score` are always numbers for a record
satisfying the effective-value facts. -/
theorem findDists_some (sel : Rec) (hm : MFacts sel) (mac : String) :
    allDistsSome (findDists sel (maxVectors mac) zeroDists) := by
  rcases findDists_cases sel (maxVectors mac) zeroDists with h | ⟨v, hv, h⟩
  · rw [h]
    exact ⟨rfl, rfl, rfl, rfl, rfl, rfl, rfl, rfl, rfl, rfl, rfl, rfl, rfl, rfl⟩
  · rw [h]
    exact computeDists_isSome sel hm mac v hv

/-! ### C6: the clamped, rounded v4 score is a one-decimal value in [0, 10] -/

theorem jsDiv_isSome (x : Option ℚ) (b : ℚ) (hx : x.isSome = true) (hb : b ≠ 0) :
    (jsDiv x (some b)).isSome = true := by
  cases x with
  | none => cases hx
  | some a =>
    simp only [jsDiv, if_neg hb]
    rfl

theorem normalizedContribution_some (avail cur ms : Option ℚ)
    (hcur : cur.isSome = true) (hms : ∃ w, ms = some w ∧ w ≠ 0) :
    ((normalizedContribution avail cur ms).2).isSome = true := by
  obtain ⟨w, hw, hw0⟩ := hms
  cases avail with
  | none => rfl
  | some a =>
    rw [normalizedContribution]
    simp only []
    cases cur with
    | none => cases hcur
    | some c =>
      rw [hw]
      simp only [jsDiv, if_neg hw0]
      rfl

/-- The final clamp-and-round step of `cvss_score` maps any number to the
one-decimal grid of [0, 10]. -/
theorem clamp_round (x : Option ℚ) (hx : x.isSome = true) :
    ∃ k : ℕ, k ≤ 100 ∧
      jsRound10 (if jsGt (if jsIsNeg x then some 0 else x) (some 10) then some 10
        else if jsIsNeg x then some 0 else x) = some ((k : ℚ) / 10) := by
  obtain ⟨v, rfl⟩ := Option.isSome_iff_exists.mp hx
  by_cases hneg : jsIsNeg (some v) = true
  · rw [if_pos hneg]
    have hg : jsGt (some (0 : ℚ)) (some 10) = false := by
      simp only [jsGt, decide_eq_false_iff_not, not_lt]
      norm_num
    rw [hg]
    simp only [Bool.false_eq_true, if_false]
    refine ⟨0, by norm_num, ?_⟩
    rw [jsRound10]
    have h0 : (0 : ℚ) * 10 = ((0 : ℤ) : ℚ) := by norm_num
    rw [h0, jsRound_intCast]
    norm_num
  · rw [if_neg hneg]
    by_cases hgt : jsGt (some v) (some 10) = true
    · rw [if_pos hgt]
      refine ⟨100, le_refl _, ?_⟩
      rw [jsRound10]
      have h1 : (10 : ℚ) * 10 = ((100 : ℤ) : ℚ) := by norm_num
      rw [h1, jsRound_intCast]
      norm_num
    · rw [if_neg hgt]
      have h0 : 0 ≤ v := by
        have hvn : ¬(v < 0) := fun hc => hneg (by
          simp only [jsIsNeg]
          exact decide_eq_true hc)
        linarith
      have h10 : v ≤ 10 := by
        have hvg : ¬((10 : ℚ) < v) := fun hc => hgt (by
          simp only [jsGt]
          exact decide_eq_true hc)
        linarith
      have hlow : 0 ≤ jsRound (v * 10) := by
        rw [jsRound_eq_floor]
        exact Int.floor_nonneg.mpr (by linarith)
      have hhigh : jsRound (v * 10) ≤ 100 := by
        rw [jsRound_eq_floor]
        have hlt : (⌊v * 10 + 1/2⌋ : ℤ) < 101 := Int.floor_lt.mpr (by push_cast; linarith)
        omega
      refine ⟨(jsRound (v * 10)).toNat, by omega, ?_⟩
      rw [jsRound10]
      congr 1
      have hcast : (((jsRound (v * 10)).toNat : ℕ) : ℚ) = ((jsRound (v * 10) : ℤ) : ℚ) := by
        exact_mod_cast congrArg (fun z : ℤ => (z : ℚ)) (Int.toNat_of_nonneg hlow)
      rw [hcast]

/-- `cvss_score` returns a one-decimal value of [0, 10] whenever the lookup
value exists, the severity distances are numbers and the four max-severity
denominators are nonzero. -/
theorem cvss_score_range_core (sel : Rec) (lookup : String → Option ℚ)
    (msd : MaxSeverityData) (mac : String) (d1 d2 d3 d4 d5 d6 : ℕ)
    (hb1 : d1 ≤ 9) (hb2 : d2 ≤ 9) (hb3 : d3 ≤ 9) (hb4 : d4 ≤ 9) (hb5 : d5 ≤ 9)
    (hb6 : d6 ≤ 9)
    (hb : mac.data = [Nat.digitChar d1, Nat.digitChar d2, Nat.digitChar d3,
      Nat.digitChar d4, Nat.digitChar d5, Nat.digitChar d6])
    (V : ℚ) (hV : lookup mac = some V)
    (hdists : allDistsSome (findDists sel (maxVectors mac) zeroDists))
    (hm1 : ∃ w, msd.eq1T (some d1) = some w ∧ w ≠ 0)
    (hm2 : ∃ w, msd.eq2T (some d2) = some w ∧ w ≠ 0)
    (hm36 : ∃ w, msd.eq3eq6T (some d3) (some d6) = some w ∧ w ≠ 0)
    (hm4 : ∃ w, msd.eq4T (some d4) = some w ∧ w ≠ 0) :
    ∃ k : ℕ, k ≤ 100 ∧ cvss_score sel lookup msd mac = some ((k : ℚ) / 10) := by
  cases hshort : (mIs sel "VC" "N" && mIs sel "VI" "N" && mIs sel "VA" "N" &&
      mIs sel "SC" "N" && mIs sel "SI" "N" && mIs sel "SA" "N") with
  | true =>
    rw [cvss_score, hshort]
    rw [if_pos rfl]
    exact ⟨0, by norm_num, by norm_num⟩
  | false =>
    rw [cvss_score, hshort]
    simp only [Bool.false_eq_true, if_false]
    simp only [hb, List.get?]
    simp only [charDigit_digitChar d1 hb1, charDigit_digitChar d2 hb2,
      charDigit_digitChar d3 hb3, charDigit_digitChar d4 hb4,
      charDigit_digitChar d5 hb5, charDigit_digitChar d6 hb6]
    rw [hV]
    apply clamp_round
    apply jsSub_isSome
    · rfl
    · split
      · rfl
      · rename_i hn
        apply jsDiv_isSome
        · apply jsAdd_isSome
          · apply jsAdd_isSome
            · apply jsAdd_isSome
              · apply jsAdd_isSome
                · apply normalizedContribution_some
                  · exact jsAdd_isSome _ _ (jsAdd_isSome _ _ hdists.1 hdists.2.1)
                      hdists.2.2.1
                  · obtain ⟨w, hw, hw0⟩ := hm1
                    exact ⟨w * (1/10), by rw [hw]; rfl,
                      mul_ne_zero hw0 (by norm_num)⟩
                · apply normalizedContribution_some
                  · exact jsAdd_isSome _ _ hdists.2.2.2.1 hdists.2.2.2.2.1
                  · obtain ⟨w, hw, hw0⟩ := hm2
                    exact ⟨w * (1/10), by rw [hw]; rfl,
                      mul_ne_zero hw0 (by norm_num)⟩
              · apply normalizedContribution_some
                · exact jsAdd_isSome _ _
                    (jsAdd_isSome _ _
                      (jsAdd_isSome _ _
                        (jsAdd_isSome _ _
                          (jsAdd_isSome _ _ hdists.2.2.2.2.2.1 hdists.2.2.2.2.2.2.1)
                          hdists.2.2.2.2.2.2.2.1)
                        hdists.2.2.2.2.2.2.2.2.2.2.2.1)
                      hdists.2.2.2.2.2.2.2.2.2.2.2.2.1)
                    hdists.2.2.2.2.2.2.2.2.2.2.2.2.2
                · obtain ⟨w, hw, hw0⟩ := hm36
                  exact ⟨w * (1/10), by rw [hw]; rfl,
                    mul_ne_zero hw0 (by norm_num)⟩
            · apply normalizedContribution_some
              · exact jsAdd_isSome _ _
                  (jsAdd_isSome _ _ hdists.2.2.2.2.2.2.2.2.1 hdists.2.2.2.2.2.2.2.2.2.1)
                  hdists.2.2.2.2.2.2.2.2.2.2.1
              · obtain ⟨w, hw, hw0⟩ := hm4
                exact ⟨w * (1/10), by rw [hw]; rfl,
                  mul_ne_zero hw0 (by norm_num)⟩
          · rcases hl5 : lookup (macroStr d1 d2 d3 d4 (d5 + 1) d6) with _ | q5
            · rfl
            · rfl
        · exact Nat.cast_ne_zero.mpr hn

/-- The Global Lookup Table is defined on every `macroVector` output. -/
theorem lookup_macroVector (sel : Rec) :
    ∃ V : ℚ, cvssLookup_globalV4 (macroVector sel) = some V := by
  rw [cvssLookup_globalV4]
  by_cases h0 : macroVector sel = "000000"
  · rw [if_pos h0]
    exact ⟨10, rfl⟩
  · rw [if_neg h0, macroVector_valid sel]
    exact ⟨5, by simp⟩

theorem maxSeverityEq1_cases (n : ℕ) (hn : n ≤ 2) :
    ∃ w : ℚ, maxSeverityEq1 (some n) = some w ∧ w ≠ 0 := by
  interval_cases n
  · exact ⟨1, rfl, by norm_num⟩
  · exact ⟨4, rfl, by norm_num⟩
  · exact ⟨5, rfl, by norm_num⟩

theorem maxSeverityEq2_cases (n : ℕ) (hn : n ≤ 1) :
    ∃ w : ℚ, maxSeverityEq2 (some n) = some w ∧ w ≠ 0 := by
  interval_cases n
  · exact ⟨1, rfl, by norm_num⟩
  · exact ⟨2, rfl, by norm_num⟩

theorem maxSeverityEq4_cases (n : ℕ) (hn : n ≤ 2) :
    ∃ w : ℚ, maxSeverityEq4 (some n) = some w ∧ w ≠ 0 := by
  interval_cases n
  · exact ⟨6, rfl, by norm_num⟩
  · exact ⟨5, rfl, by norm_num⟩
  · exact ⟨4, rfl, by norm_num⟩

theorem maxSeverityEq3Eq6_cases (n3 n6 : ℕ) (h3 : n3 ≤ 2) (h6 : n6 ≤ 1)
    (hc : n3 = 2 → n6 = 1) :
    ∃ w : ℚ, maxSeverityEq3Eq6 (some n3) (some n6) = some w ∧ w ≠ 0 := by
  interval_cases n3 <;> interval_cases n6
  · exact ⟨7, rfl, by norm_num⟩
  · exact ⟨6, rfl, by norm_num⟩
  · exact ⟨8, rfl, by norm_num⟩
  · exact ⟨8, rfl, by norm_num⟩
  · omega
  · exact ⟨10, rfl, by norm_num⟩

/-- Range of `calculateBaseScoreV4` on every valid v4 vector. -/
theorem calculateBaseScoreV4_range (s : String) (out : Rec)
    (h : validateVectorV4 s = .ok out) :
    ∃ k : ℕ, k ≤ 100 ∧ calculateBaseScoreV4 s = .ok (some ((k : ℚ) / 10)) := by
  have hm := MFacts_of_valid s out h
  obtain ⟨V, hV⟩ := lookup_macroVector (parseVectorV4 s)
  obtain ⟨k, hk, hsc⟩ := cvss_score_range_core (parseVectorV4 s) cvssLookup_globalV4
    maxSeverityV4 (macroVector (parseVectorV4 s))
    (eq1Of (parseVectorV4 s)) (eq2Of (parseVectorV4 s)) (eq3Of (parseVectorV4 s))
    (eq4Of (parseVectorV4 s)) (eq5Of (parseVectorV4 s)) (eq6Of (parseVectorV4 s))
    (le_trans (eq1Of_le _) (by norm_num)) (le_trans (eq2Of_le _) (by norm_num))
    (le_trans (eq3Of_le _) (by norm_num)) (le_trans (eq4Of_le _) (by norm_num))
    (le_trans (eq5Of_le _) (by norm_num)) (le_trans (eq6Of_le _) (by norm_num))
    (macroVector_digits _) V hV
    (findDists_some _ hm _)
    (maxSeverityEq1_cases _ (eq1Of_le _))
    (maxSeverityEq2_cases _ (eq2Of_le _))
    (maxSeverityEq3Eq6_cases _ _ (eq3Of_le _) (eq6Of_le _) (eq3_eq6_coupling _))
    (maxSeverityEq4_cases _ (eq4Of_le _))
  refine ⟨k, hk, ?_⟩
  rw [calculateBaseScoreV4, h]
  simp only []
  rw [hsc]

/-! ### C6: facts extracted from a successful v3.x validation -/

/-- Inversion of a successful `validate` run. -/
theorem validate_ok_inv (s : String) (vr : VRes) (h : validate s = .ok vr) :
    vr.metricsMap = parseMetricsAsMap s ∧
    checkMandatoryMetrics (parseMetricsAsMap s) baseMetrics = .ok () ∧
    checkMetricsValues (parseMetricsAsMap s) allKnownMetrics allKnownMetricValues
      = .ok () := by
  rw [validate] at h
  by_cases h0 : (!jsStartsWith s "CVSS:") = true
  · rw [if_pos h0] at h
    cases h
  · rw [if_neg h0] at h
    simp only [] at h
    rcases hver : validateVersion (parseVersion s) with e | u1
    · rw [hver] at h
      cases h
    · rw [hver] at h
      simp only [] at h
      rcases hvec : validateVector (parseVector s) with e | u2
      · rw [hvec] at h
        cases h
      · rw [hvec] at h
        simp only [] at h
        rcases hman : checkMandatoryMetrics (parseMetricsAsMap s) baseMetrics with e | u3
        · rw [hman] at h
          cases h
        · rw [hman] at h
          simp only [] at h
          rcases hunk : checkUnknownMetrics (parseMetricsAsMap s) allKnownMetrics with e | u4
          · rw [hunk] at h
            cases h
          · rw [hunk] at h
            simp only [] at h
            rcases hvv : checkMetricsValues (parseMetricsAsMap s) allKnownMetrics
                allKnownMetricValues with e | u5
            · rw [hvv] at h
              cases h
            · rw [hvv] at h
              simp only [] at h
              cases h
              exact ⟨rfl, rfl, rfl⟩

/-- A present key of the map has a defined value. -/
theorem hasM_getM_isSome (mp : MMap) (k : String) (h : hasM mp k = true) :
    ∃ v, getM mp k = some v := by
  rw [hasM] at h
  have hex : ∃ p ∈ mp, (fun p : String × String => decide (p.1 = k)) p = true := by
    simpa using List.any_eq_true.mp h
  have hs : (mp.find? (fun p => p.1 = k)).isSome := List.find?_isSome.mpr (by
    obtain ⟨p, hp, hpk⟩ := hex
    exact ⟨p, hp, hpk⟩)
  rcases hf : mp.find? (fun p => p.1 = k) with _ | p
  · rw [hf] at hs
    cases hs
  · refine ⟨p.2, ?_⟩
    rw [getM, hf]
    rfl

/-- A defined value makes the key present. -/
theorem getM_some_hasM (mp : MMap) (k v : String) (h : getM mp k = some v) :
    hasM mp k = true := by
  rw [getM] at h
  rcases hf : mp.find? (fun p => p.1 = k) with _ | p
  · rw [hf] at h
    cases h
  · have hmem : p ∈ mp := List.mem_of_find?_eq_some hf
    have hkey : p.1 = k := by
      have := List.find?_some hf
      simpa using this
    rw [hasM]
    apply List.any_eq_true.mpr
    exact ⟨p, hmem, by simpa using hkey⟩

/-- All eight mandatory base metrics have defined values. -/
theorem mandatory_present (mp : MMap)
    (h : checkMandatoryMetrics mp baseMetrics = .ok ()) :
    ∀ met ∈ baseMetrics, ∃ v, getM mp met = some v := by
  rw [checkMandatoryMetrics] at h
  split at h
  · rename_i hall
    intro met hmet
    exact hasM_getM_isSome mp met (by simpa using List.all_eq_true.mp hall met hmet)
  · cases h

/-- Every present metric's value is in its allowed value set. -/
theorem values_allowed (mp : MMap)
    (h : checkMetricsValues mp allKnownMetrics allKnownMetricValues = .ok ()) :
    ∀ met ∈ allKnownMetrics, ∀ v, getM mp met = some v → v ≠ "" →
      v ∈ allKnownMetricValues met := by
  rw [checkMetricsValues] at h
  split at h
  · rename_i hall
    intro met hmet v hv hne
    have hm := List.all_eq_true.mp hall met hmet
    simp only [] at hm
    rw [hv] at hm
    simp only [] at hm
    rw [if_neg hne] at hm
    exact List.mem_of_elem_eq_true hm
  · cases h

/-- A successful `get` pins down a member pair of the association list. -/
theorem getM_some_mem (mp : MMap) (k v : String) (h : getM mp k = some v) :
    (k, v) ∈ mp := by
  rw [getM] at h
  rcases hf : mp.find? (fun p => p.1 = k) with _ | p
  · rw [hf] at h
    cases h
  · rw [hf] at h
    obtain ⟨a, b⟩ := p
    have hb : b = v := by simpa using h
    have ha : a = k := by simpa using List.find?_some hf
    subst hb
    subst ha
    exact List.mem_of_find?_eq_some hf

/-! ### C6: weight bounds of the v3.x numeric tables -/

/-- The non-scope-dependent weights of the metrics consumed by the base,
temporal and environmental equations are defined and lie in [0, 1.5]. -/
theorem metricValueScore_bounds :
    (∀ met ∈ (["AV", "MAV"] : List String), ∀ v ∈ (["N", "A", "L", "P"] : List String),
      ∃ w, metricValueScore met v = some w ∧ 0 ≤ w ∧ w ≤ 1) ∧
    (∀ met ∈ (["AC", "MAC"] : List String), ∀ v ∈ (["L", "H"] : List String),
      ∃ w, metricValueScore met v = some w ∧ 0 ≤ w ∧ w ≤ 1) ∧
    (∀ met ∈ (["UI", "MUI"] : List String), ∀ v ∈ (["N", "R"] : List String),
      ∃ w, metricValueScore met v = some w ∧ 0 ≤ w ∧ w ≤ 1) ∧
    (∀ met ∈ (["C", "I", "A", "MC", "MI", "MA"] : List String),
      ∀ v ∈ (["N", "L", "H"] : List String),
      ∃ w, metricValueScore met v = some w ∧ 0 ≤ w ∧ w ≤ 1) ∧
    (∀ v ∈ (["X", "U", "P", "F", "H"] : List String),
      ∃ w, metricValueScore "E" v = some w ∧ 0 ≤ w ∧ w ≤ 1) ∧
    (∀ v ∈ (["X", "O", "T", "W", "U"] : List String),
      ∃ w, metricValueScore "RL" v = some w ∧ 0 ≤ w ∧ w ≤ 1) ∧
    (∀ v ∈ (["X", "U", "R", "C"] : List String),
      ∃ w, metricValueScore "RC" v = some w ∧ 0 ≤ w ∧ w ≤ 1) ∧
    (∀ met ∈ (["CR", "IR", "AR"] : List String),
      ∀ v ∈ (["X", "L", "M", "H"] : List String),
      ∃ w, metricValueScore met v = some w ∧ 0 ≤ w ∧ w ≤ 3/2) := by
  refine ⟨?_, ?_, ?_, ?_, ?_, ?_, ?_, ?_⟩ <;>
    first
    | (intro met hmet v hv
       fin_cases hmet <;> fin_cases hv <;>
         exact ⟨_, rfl, by norm_num, by norm_num⟩)
    | (intro v hv
       fin_cases hv <;> exact ⟨_, rfl, by norm_num, by norm_num⟩)

/-- The scope-dependent Privileges-Required weights are defined and lie in
[0, 1] on all valid inputs. -/
theorem priv_bounds : ∀ v ∈ (["N", "L", "H"] : List String),
    ∀ sc ∈ (["U", "C"] : List String),
    ∃ w, getPrivilegesRequiredNumericValue v sc = some w ∧ 0 ≤ w ∧ w ≤ 1 := by
  intro v hv sc hsc
  fin_cases hv <;> fin_cases hsc <;> exact ⟨_, rfl, by norm_num, by norm_num⟩

/-- `getMetricNumericValue` of a plain metric routes to the weight table. -/
theorem getMetricNumericValue_plain (met : String) (mp : MMap) (v : String)
    (h1 : met ≠ "PR") (h2 : met ≠ "MPR") (hv : getM mp met = some v) :
    getMetricNumericValue met mp = metricValueScore met v := by
  rw [getMetricNumericValue, getMetricValue, hv]
  simp only []
  rw [if_neg h1, if_neg h2]

/-- `getMetricNumericValue` of `PR` routes through the scope value. -/
theorem getMetricNumericValue_PR (mp : MMap) (v sc : String)
    (hv : getM mp "PR" = some v) (hs : getM mp "S" = some sc) :
    getMetricNumericValue "PR" mp = getPrivilegesRequiredNumericValue v sc := by
  rw [getMetricNumericValue, getMetricValue, hv]
  simp only []
  rw [show getMetricValue "S" mp = getM mp "S" from rfl, hs]
  simp

/-- `getMetricNumericValue` of `MPR` routes through the modified scope. -/
theorem getMetricNumericValue_MPR (mp : MMap) (v sc : String)
    (hv : getM mp "MPR" = some v) (hs : getM mp "MS" = some sc) :
    getMetricNumericValue "MPR" mp = getPrivilegesRequiredNumericValue v sc := by
  rw [getMetricNumericValue, getMetricValue, hv]
  simp only []
  rw [show getMetricValue "MS" mp = getM mp "MS" from rfl, hs]
  simp

/-! ### C6: the metric-default population as named step folds -/

/-- One temporal defaulting step. -/
def tempStep (acc : MMap) (met : String) : MMap :=
  if hasM acc met then acc else setM acc met "X"

/-- `populateTemporalMetricDefaults` as a `tempStep` fold. -/
theorem populateTemp_eq (mp : MMap) :
    populateTemporalMetricDefaults mp = List.foldl tempStep mp temporalMetrics := rfl

/-- One environmental defaulting step. -/
def envStep (acc : MMap) (met : String) : MMap :=
  let acc2 := tempStep acc met
  if getM acc2 met = some "X" then
    match modifiedMetricsMap met with
    | some base =>
      if hasM acc2 base then setM acc2 met ((getM acc2 base).getD "X")
      else setM acc2 met "X"
    | none => setM acc2 met "X"
  else acc2

/-- `populateEnvironmentalMetricDefaults` as an `envStep` fold. -/
theorem populateEnv_eq (mp : MMap) :
    populateEnvironmentalMetricDefaults mp = List.foldl envStep mp environmentalMetrics :=
  rfl

theorem tempStep_getM_other (acc : MMap) (met k : String) (h : k ≠ met) :
    getM (tempStep acc met) k = getM acc k := by
  rw [tempStep]
  by_cases hm : hasM acc met
  · rw [if_pos hm]
  · rw [if_neg hm, getM_setM, if_neg h]

theorem tempStep_getM_self (acc : MMap) (met : String) :
    (∃ v, getM acc met = some v ∧ getM (tempStep acc met) met = some v) ∨
      getM (tempStep acc met) met = some "X" := by
  by_cases hm : hasM acc met
  · obtain ⟨v, hv⟩ := hasM_getM_isSome acc met hm
    exact Or.inl ⟨v, hv, by rw [tempStep, if_pos hm]; exact hv⟩
  · refine Or.inr ?_
    rw [tempStep, if_neg hm, getM_setM, if_pos rfl]

theorem envStep_getM_other (acc : MMap) (met k : String) (h : k ≠ met) :
    getM (envStep acc met) k = getM acc k := by
  rw [envStep]
  by_cases hx : getM (tempStep acc met) met = some "X"
  · rw [if_pos hx]
    rcases hmm : modifiedMetricsMap met with _ | base
    · simp only []
      rw [getM_setM, if_neg h]
      exact tempStep_getM_other acc met k h
    · simp only []
      by_cases hb : hasM (tempStep acc met) base
      · rw [if_pos hb, getM_setM, if_neg h]
        exact tempStep_getM_other acc met k h
      · rw [if_neg hb, getM_setM, if_neg h]
        exact tempStep_getM_other acc met k h
  · rw [if_neg hx]
    exact tempStep_getM_other acc met k h

theorem envStep_getM_self_mod (acc : MMap) (met base : String)
    (hmm : modifiedMetricsMap met = some base) (hbm : base ≠ met)
    (vb : String) (hvb : getM acc base = some vb) :
    getM (envStep acc met) met = some vb ∨
      ∃ v, getM acc met = some v ∧ v ≠ "X" ∧ getM (envStep acc met) met = some v := by
  rw [envStep]
  have hb2 : getM (tempStep acc met) base = some vb := by
    rw [tempStep_getM_other acc met base hbm]
    exact hvb
  have hb2has : hasM (tempStep acc met) base = true := getM_some_hasM _ _ _ hb2
  by_cases hx : getM (tempStep acc met) met = some "X"
  · rw [if_pos hx, hmm]
    simp only []
    rw [if_pos hb2has, getM_setM, if_pos rfl, hb2]
    exact Or.inl rfl
  · rw [if_neg hx]
    rcases tempStep_getM_self acc met with ⟨v, hv, hres⟩ | hres
    · refine Or.inr ⟨v, hv, ?_, hres⟩
      intro hveq
      rw [hveq] at hres
      exact hx hres
    · exact absurd hres hx

theorem envStep_getM_self_none (acc : MMap) (met : String)
    (hmm : modifiedMetricsMap met = none) :
    getM (envStep acc met) met = some "X" ∨
      ∃ v, getM acc met = some v ∧ v ≠ "X" ∧ getM (envStep acc met) met = some v := by
  rw [envStep]
  by_cases hx : getM (tempStep acc met) met = some "X"
  · rw [if_pos hx, hmm]
    simp only []
    rw [getM_setM, if_pos rfl]
    exact Or.inl rfl
  · rw [if_neg hx]
    rcases tempStep_getM_self acc met with ⟨v, hv, hres⟩ | hres
    · refine Or.inr ⟨v, hv, ?_, hres⟩
      intro hveq
      rw [hveq] at hres
      exact hx hres
    · exact absurd hres hx

/-- Folding a `getM`-preserving step over keys not containing `k`. -/
theorem foldl_getM_other (step : MMap → String → MMap)
    (hstep : ∀ acc met k, k ≠ met → getM (step acc met) k = getM acc k) :
    ∀ (l : List String) (mp : MMap) (k : String), k ∉ l →
      getM (List.foldl step mp l) k = getM mp k := by
  intro l
  induction l with
  | nil =>
    intro mp k _
    rfl
  | cons met rest ih =>
    intro mp k hk
    rw [List.foldl_cons,
      ih (step mp met) k (fun hc => hk (List.mem_cons_of_mem met hc)),
      hstep mp met k (fun hc => hk (by rw [hc]; exact List.mem_cons_self met rest))]

/-- Splitting a fold at a designated key. -/
theorem foldl_split (step : MMap → String → MMap) (mp : MMap)
    (l1 l2 : List String) (met : String) :
    List.foldl step mp (l1 ++ met :: l2)
      = List.foldl step (step (List.foldl step mp l1) met) l2 := by
  rw [List.foldl_append, List.foldl_cons]

/-- Final value of a temporal metric after both population passes. -/
theorem populated_temp_metric (mp : MMap) (met : String) (l1 l2 : List String)
    (hsplit : temporalMetrics = l1 ++ met :: l2)
    (hnotenv : met ∉ environmentalMetrics)
    (hnotl2 : met ∉ l2) (hnotl1 : met ∉ l1) :
    getM (populateEnvironmentalMetricDefaults (populateTemporalMetricDefaults mp)) met
        = some "X" ∨
      ∃ v, getM mp met = some v ∧
        getM (populateEnvironmentalMetricDefaults (populateTemporalMetricDefaults mp)) met
          = some v := by
  rw [populateEnv_eq,
    foldl_getM_other envStep (fun a m k hk => envStep_getM_other a m k hk)
      environmentalMetrics _ met hnotenv,
    populateTemp_eq, hsplit, foldl_split,
    foldl_getM_other tempStep (fun a m k hk => tempStep_getM_other a m k hk) l2 _ met hnotl2]
  rcases tempStep_getM_self (List.foldl tempStep mp l1) met with ⟨v, hv, hres⟩ | hres
  · refine Or.inr ⟨v, ?_, hres⟩
    rw [foldl_getM_other tempStep (fun a m k hk => tempStep_getM_other a m k hk)
      l1 _ met hnotl1] at hv
    exact hv
  · exact Or.inl hres

/-- Final value of a modified environmental metric with a base fallback. -/
theorem populated_mod_metric (mp : MMap) (met base : String) (l1 l2 : List String)
    (hsplit : environmentalMetrics = l1 ++ met :: l2)
    (hmm : modifiedMetricsMap met = some base) (hbm : base ≠ met)
    (hnotl2 : met ∉ l2) (hnotl1 : met ∉ l1) (hbase_notl1 : base ∉ l1)
    (hbase_nottemp : base ∉ temporalMetrics) (hmet_nottemp : met ∉ temporalMetrics)
    (vb : String) (hvb : getM mp base = some vb) :
    getM (populateEnvironmentalMetricDefaults (populateTemporalMetricDefaults mp)) met
        = some vb ∨
      ∃ v, getM mp met = some v ∧ v ≠ "X" ∧
        getM (populateEnvironmentalMetricDefaults (populateTemporalMetricDefaults mp)) met
          = some v := by
  rw [populateEnv_eq, hsplit, foldl_split,
    foldl_getM_other envStep (fun a m k hk => envStep_getM_other a m k hk) l2 _ met hnotl2]
  have hb : getM (List.foldl envStep (populateTemporalMetricDefaults mp) l1) base
      = some vb := by
    rw [foldl_getM_other envStep (fun a m k hk => envStep_getM_other a m k hk)
        l1 _ base hbase_notl1,
      populateTemp_eq,
      foldl_getM_other tempStep (fun a m k hk => tempStep_getM_other a m k hk)
        temporalMetrics _ base hbase_nottemp]
    exact hvb
  rcases envStep_getM_self_mod _ met base hmm hbm vb hb with h1 | ⟨v, hv, hvx, hres⟩
  · exact Or.inl h1
  · refine Or.inr ⟨v, ?_, hvx, hres⟩
    rw [foldl_getM_other envStep (fun a m k hk => envStep_getM_other a m k hk)
        l1 _ met hnotl1,
      populateTemp_eq,
      foldl_getM_other tempStep (fun a m k hk => tempStep_getM_other a m k hk)
        temporalMetrics _ met hmet_nottemp] at hv
    exact hv

/-- Final value of a requirement metric (no base fallback). -/
theorem populated_none_metric (mp : MMap) (met : String) (l1 l2 : List String)
    (hsplit : environmentalMetrics = l1 ++ met :: l2)
    (hmm : modifiedMetricsMap met = none)
    (hnotl2 : met ∉ l2) (hnotl1 : met ∉ l1) (hmet_nottemp : met ∉ temporalMetrics) :
    getM (populateEnvironmentalMetricDefaults (populateTemporalMetricDefaults mp)) met
        = some "X" ∨
      ∃ v, getM mp met = some v ∧ v ≠ "X" ∧
        getM (populateEnvironmentalMetricDefaults (populateTemporalMetricDefaults mp)) met
          = some v := by
  rw [populateEnv_eq, hsplit, foldl_split,
    foldl_getM_other envStep (fun a m k hk => envStep_getM_other a m k hk) l2 _ met hnotl2]
  rcases envStep_getM_self_none _ met hmm with h1 | ⟨v, hv, hvx, hres⟩
  · exact Or.inl h1
  · refine Or.inr ⟨v, ?_, hvx, hres⟩
    rw [foldl_getM_other envStep (fun a m k hk => envStep_getM_other a m k hk)
        l1 _ met hnotl1,
      populateTemp_eq,
      foldl_getM_other tempStep (fun a m k hk => tempStep_getM_other a m k hk)
        temporalMetrics _ met hmet_nottemp] at hv
    exact hv

/-- `getM` of a key untouched by both population passes. -/
theorem populated_other_metric (mp : MMap) (k : String)
    (hnotenv : k ∉ environmentalMetrics) (hnottemp : k ∉ temporalMetrics) :
    getM (populateEnvironmentalMetricDefaults (populateTemporalMetricDefaults mp)) k
      = getM mp k := by
  rw [populateEnv_eq,
    foldl_getM_other envStep (fun a m kk hk => envStep_getM_other a m kk hk)
      environmentalMetrics _ k hnotenv,
    populateTemp_eq,
    foldl_getM_other tempStep (fun a m kk hk => tempStep_getM_other a m kk hk)
      temporalMetrics _ k hnottemp]

/-! ### C6: value sets of the populated metric maps -/

theorem mem_tail_of_ne_head (v x : String) (l : List String)
    (h : v ∈ x :: l) (hne : v ≠ x) : v ∈ l := by
  rcases List.mem_cons.mp h with h1 | h1
  · exact absurd h1 hne
  · exact h1

/-- Final value of a temporal metric after the temporal pass alone. -/
theorem temp_only_metric (mp : MMap) (met : String) (l1 l2 : List String)
    (hsplit : temporalMetrics = l1 ++ met :: l2)
    (hnotl2 : met ∉ l2) (hnotl1 : met ∉ l1) :
    getM (populateTemporalMetricDefaults mp) met = some "X" ∨
      ∃ v, getM mp met = some v ∧
        getM (populateTemporalMetricDefaults mp) met = some v := by
  rw [populateTemp_eq, hsplit, foldl_split,
    foldl_getM_other tempStep (fun a m k hk => tempStep_getM_other a m k hk) l2 _ met hnotl2]
  rcases tempStep_getM_self (List.foldl tempStep mp l1) met with ⟨v, hv, hres⟩ | hres
  · refine Or.inr ⟨v, ?_, hres⟩
    rw [foldl_getM_other tempStep (fun a m k hk => tempStep_getM_other a m k hk)
      l1 _ met hnotl1] at hv
    exact hv
  · exact Or.inl hres

/-- The values of the three temporal metrics after the temporal pass. -/
theorem temporal_values (mp : MMap)
    (hvals : ∀ met ∈ allKnownMetrics, ∀ v, getM mp met = some v →
      v ∈ allKnownMetricValues met) :
    (∃ v, getM (populateTemporalMetricDefaults mp) "E" = some v ∧
      v ∈ (["X", "U", "P", "F", "H"] : List String)) ∧
    (∃ v, getM (populateTemporalMetricDefaults mp) "RL" = some v ∧
      v ∈ (["X", "O", "T", "W", "U"] : List String)) ∧
    (∃ v, getM (populateTemporalMetricDefaults mp) "RC" = some v ∧
      v ∈ (["X", "U", "R", "C"] : List String)) := by
  refine ⟨?_, ?_, ?_⟩
  · rcases temp_only_metric mp "E" [] ["RL", "RC"] rfl (by decide) (by decide) with
      h1 | ⟨v, hv, hres⟩
    · exact ⟨"X", h1, by decide⟩
    · exact ⟨v, hres, hvals "E" (by decide) v hv⟩
  · rcases temp_only_metric mp "RL" ["E"] ["RC"] rfl (by decide) (by decide) with
      h1 | ⟨v, hv, hres⟩
    · exact ⟨"X", h1, by decide⟩
    · exact ⟨v, hres, hvals "RL" (by decide) v hv⟩
  · rcases temp_only_metric mp "RC" ["E", "RL"] [] rfl (by decide) (by decide) with
      h1 | ⟨v, hv, hres⟩
    · exact ⟨"X", h1, by decide⟩
    · exact ⟨v, hres, hvals "RC" (by decide) v hv⟩

/-- The values of every metric consumed by the environmental equations after
both population passes. -/
theorem populated_values (mp : MMap)
    (hman : ∀ met ∈ baseMetrics, ∃ v, getM mp met = some v)
    (hvals : ∀ met ∈ allKnownMetrics, ∀ v, getM mp met = some v →
      v ∈ allKnownMetricValues met) :
    (∃ v, getM (populateEnvironmentalMetricDefaults
        (populateTemporalMetricDefaults mp)) "E" = some v ∧
      v ∈ (["X", "U", "P", "F", "H"] : List String)) ∧
    (∃ v, getM (populateEnvironmentalMetricDefaults
        (populateTemporalMetricDefaults mp)) "RL" = some v ∧
      v ∈ (["X", "O", "T", "W", "U"] : List String)) ∧
    (∃ v, getM (populateEnvironmentalMetricDefaults
        (populateTemporalMetricDefaults mp)) "RC" = some v ∧
      v ∈ (["X", "U", "R", "C"] : List String)) ∧
    (∃ v, getM (populateEnvironmentalMetricDefaults
        (populateTemporalMetricDefaults mp)) "CR" = some v ∧
      v ∈ (["X", "L", "M", "H"] : List String)) ∧
    (∃ v, getM (populateEnvironmentalMetricDefaults
        (populateTemporalMetricDefaults mp)) "IR" = some v ∧
      v ∈ (["X", "L", "M", "H"] : List String)) ∧
    (∃ v, getM (populateEnvironmentalMetricDefaults
        (populateTemporalMetricDefaults mp)) "AR" = some v ∧
      v ∈ (["X", "L", "M", "H"] : List String)) ∧
    (∃ v, getM (populateEnvironmentalMetricDefaults
        (populateTemporalMetricDefaults mp)) "MAV" = some v ∧
      v ∈ (["N", "A", "L", "P"] : List String)) ∧
    (∃ v, getM (populateEnvironmentalMetricDefaults
        (populateTemporalMetricDefaults mp)) "MAC" = some v ∧
      v ∈ (["L", "H"] : List String)) ∧
    (∃ v, getM (populateEnvironmentalMetricDefaults
        (populateTemporalMetricDefaults mp)) "MPR" = some v ∧
      v ∈ (["N", "L", "H"] : List String)) ∧
    (∃ v, getM (populateEnvironmentalMetricDefaults
        (populateTemporalMetricDefaults mp)) "MUI" = some v ∧
      v ∈ (["N", "R"] : List String)) ∧
    (∃ v, getM (populateEnvironmentalMetricDefaults
        (populateTemporalMetricDefaults mp)) "MS" = some v ∧
      v ∈ (["U", "C"] : List String)) ∧
    (∃ v, getM (populateEnvironmentalMetricDefaults
        (populateTemporalMetricDefaults mp)) "MC" = some v ∧
      v ∈ (["N", "L", "H"] : List String)) ∧
    (∃ v, getM (populateEnvironmentalMetricDefaults
        (populateTemporalMetricDefaults mp)) "MI" = some v ∧
      v ∈ (["N", "L", "H"] : List String)) ∧
    (∃ v, getM (populateEnvironmentalMetricDefaults
        (populateTemporalMetricDefaults mp)) "MA" = some v ∧
      v ∈ (["N", "L", "H"] : List String)) := by
  obtain ⟨vAV, hAV⟩ := hman "AV" (by decide)
  obtain ⟨vAC, hAC⟩ := hman "AC" (by decide)
  obtain ⟨vPR, hPR⟩ := hman "PR" (by decide)
  obtain ⟨vUI, hUI⟩ := hman "UI" (by decide)
  obtain ⟨vS, hS⟩ := hman "S" (by decide)
  obtain ⟨vC, hC⟩ := hman "C" (by decide)
  obtain ⟨vI, hI⟩ := hman "I" (by decide)
  obtain ⟨vA, hA⟩ := hman "A" (by decide)
  refine ⟨?_, ?_, ?_, ?_, ?_, ?_, ?_, ?_, ?_, ?_, ?_, ?_, ?_, ?_⟩
  · rcases populated_temp_metric mp "E" [] ["RL", "RC"] rfl (by decide) (by decide)
      (by decide) with h1 | ⟨v, hv, hres⟩
    · exact ⟨"X", h1, by decide⟩
    · exact ⟨v, hres, hvals "E" (by decide) v hv⟩
  · rcases populated_temp_metric mp "RL" ["E"] ["RC"] rfl (by decide) (by decide)
      (by decide) with h1 | ⟨v, hv, hres⟩
    · exact ⟨"X", h1, by decide⟩
    · exact ⟨v, hres, hvals "RL" (by decide) v hv⟩
  · rcases populated_temp_metric mp "RC" ["E", "RL"] [] rfl (by decide) (by decide)
      (by decide) with h1 | ⟨v, hv, hres⟩
    · exact ⟨"X", h1, by decide⟩
    · exact ⟨v, hres, hvals "RC" (by decide) v hv⟩
  · rcases populated_none_metric mp "CR" []
      ["IR", "AR", "MAV", "MAC", "MPR", "MUI", "MS", "MC", "MI", "MA"] rfl rfl
      (by decide) (by decide) (by decide) with h1 | ⟨v, hv, _, hres⟩
    · exact ⟨"X", h1, by decide⟩
    · exact ⟨v, hres, hvals "CR" (by decide) v hv⟩
  · rcases populated_none_metric mp "IR" ["CR"]
      ["AR", "MAV", "MAC", "MPR", "MUI", "MS", "MC", "MI", "MA"] rfl rfl
      (by decide) (by decide) (by decide) with h1 | ⟨v, hv, _, hres⟩
    · exact ⟨"X", h1, by decide⟩
    · exact ⟨v, hres, hvals "IR" (by decide) v hv⟩
  · rcases populated_none_metric mp "AR" ["CR", "IR"]
      ["MAV", "MAC", "MPR", "MUI", "MS", "MC", "MI", "MA"] rfl rfl
      (by decide) (by decide) (by decide) with h1 | ⟨v, hv, _, hres⟩
    · exact ⟨"X", h1, by decide⟩
    · exact ⟨v, hres, hvals "AR" (by decide) v hv⟩
  · rcases populated_mod_metric mp "MAV" "AV" ["CR", "IR", "AR"]
      ["MAC", "MPR", "MUI", "MS", "MC", "MI", "MA"] rfl rfl (by decide)
      (by decide) (by decide) (by decide) (by decide) (by decide) vAV hAV with
      h1 | ⟨v, hv, hvx, hres⟩
    · exact ⟨vAV, h1, hvals "AV" (by decide) vAV hAV⟩
    · exact ⟨v, hres, mem_tail_of_ne_head v "X" _ (hvals "MAV" (by decide) v hv) hvx⟩
  · rcases populated_mod_metric mp "MAC" "AC" ["CR", "IR", "AR", "MAV"]
      ["MPR", "MUI", "MS", "MC", "MI", "MA"] rfl rfl (by decide)
      (by decide) (by decide) (by decide) (by decide) (by decide) vAC hAC with
      h1 | ⟨v, hv, hvx, hres⟩
    · exact ⟨vAC, h1, hvals "AC" (by decide) vAC hAC⟩
    · exact ⟨v, hres, mem_tail_of_ne_head v "X" _ (hvals "MAC" (by decide) v hv) hvx⟩
  · rcases populated_mod_metric mp "MPR" "PR" ["CR", "IR", "AR", "MAV", "MAC"]
      ["MUI", "MS", "MC", "MI", "MA"] rfl rfl (by decide)
      (by decide) (by decide) (by decide) (by decide) (by decide) vPR hPR with
      h1 | ⟨v, hv, hvx, hres⟩
    · exact ⟨vPR, h1, hvals "PR" (by decide) vPR hPR⟩
    · exact ⟨v, hres, mem_tail_of_ne_head v "X" _ (hvals "MPR" (by decide) v hv) hvx⟩
  · rcases populated_mod_metric mp "MUI" "UI" ["CR", "IR", "AR", "MAV", "MAC", "MPR"]
      ["MS", "MC", "MI", "MA"] rfl rfl (by decide)
      (by decide) (by decide) (by decide) (by decide) (by decide) vUI hUI with
      h1 | ⟨v, hv, hvx, hres⟩
    · exact ⟨vUI, h1, hvals "UI" (by decide) vUI hUI⟩
    · exact ⟨v, hres, mem_tail_of_ne_head v "X" _ (hvals "MUI" (by decide) v hv) hvx⟩
  · rcases populated_mod_metric mp "MS" "S" ["CR", "IR", "AR", "MAV", "MAC", "MPR", "MUI"]
      ["MC", "MI", "MA"] rfl rfl (by decide)
      (by decide) (by decide) (by decide) (by decide) (by decide) vS hS with
      h1 | ⟨v, hv, hvx, hres⟩
    · exact ⟨vS, h1, hvals "S" (by decide) vS hS⟩
    · exact ⟨v, hres, mem_tail_of_ne_head v "X" _ (hvals "MS" (by decide) v hv) hvx⟩
  · rcases populated_mod_metric mp "MC" "C"
      ["CR", "IR", "AR", "MAV", "MAC", "MPR", "MUI", "MS"]
      ["MI", "MA"] rfl rfl (by decide)
      (by decide) (by decide) (by decide) (by decide) (by decide) vC hC with
      h1 | ⟨v, hv, hvx, hres⟩
    · exact ⟨vC, h1, hvals "C" (by decide) vC hC⟩
    · exact ⟨v, hres, mem_tail_of_ne_head v "X" _ (hvals "MC" (by decide) v hv) hvx⟩
  · rcases populated_mod_metric mp "MI" "I"
      ["CR", "IR", "AR", "MAV", "MAC", "MPR", "MUI", "MS", "MC"]
      ["MA"] rfl rfl (by decide)
      (by decide) (by decide) (by decide) (by decide) (by decide) vI hI with
      h1 | ⟨v, hv, hvx, hres⟩
    · exact ⟨vI, h1, hvals "I" (by decide) vI hI⟩
    · exact ⟨v, hres, mem_tail_of_ne_head v "X" _ (hvals "MI" (by decide) v hv) hvx⟩
  · rcases populated_mod_metric mp "MA" "A"
      ["CR", "IR", "AR", "MAV", "MAC", "MPR", "MUI", "MS", "MC", "MI"]
      [] rfl rfl (by decide)
      (by decide) (by decide) (by decide) (by decide) (by decide) vA hA with
      h1 | ⟨v, hv, hvx, hres⟩
    · exact ⟨vA, h1, hvals "A" (by decide) vA hA⟩
    · exact ⟨v, hres, mem_tail_of_ne_head v "X" _ (hvals "MA" (by decide) v hv) hvx⟩

/-! ### C6: range of the v3.x base score -/

/-- The base-score expression of `calculateBaseResult` lies on the
one-decimal grid of [0, 10] for any map with valid mandatory metrics. -/
theorem base_score_expr_range (mp : MMap)
    (hman : ∀ met ∈ baseMetrics, ∃ v, getM mp met = some v)
    (hvals : ∀ met ∈ allKnownMetrics, ∀ v, getM mp met = some v →
      v ∈ allKnownMetricValues met) :
    ∃ k : ℕ, k ≤ 100 ∧
      (if jsLe (calculateImpact mp (calculateIss mp)) 0 then some 0
       else if getM mp "S" = some "U" then
         roundUpOpt (jsMin (jsAdd (calculateImpact mp (calculateIss mp))
           (calculateExploitability mp)) 10)
       else
         roundUpOpt (jsMin (jsMul (some (108/100))
           (jsAdd (calculateImpact mp (calculateIss mp))
             (calculateExploitability mp))) 10))
      = some ((k : ℚ) / 10) := by
  obtain ⟨vAV, hAV⟩ := hman "AV" (by decide)
  obtain ⟨vAC, hAC⟩ := hman "AC" (by decide)
  obtain ⟨vPR, hPR⟩ := hman "PR" (by decide)
  obtain ⟨vUI, hUI⟩ := hman "UI" (by decide)
  obtain ⟨vS, hS⟩ := hman "S" (by decide)
  obtain ⟨vC, hC⟩ := hman "C" (by decide)
  obtain ⟨vI, hI⟩ := hman "I" (by decide)
  obtain ⟨vA, hA⟩ := hman "A" (by decide)
  obtain ⟨wC, hwC, hwC0, hwC1⟩ :=
    metricValueScore_bounds.2.2.2.1 "C" (by decide) vC (hvals "C" (by decide) vC hC)
  obtain ⟨wI, hwI, hwI0, hwI1⟩ :=
    metricValueScore_bounds.2.2.2.1 "I" (by decide) vI (hvals "I" (by decide) vI hI)
  obtain ⟨wA, hwA, hwA0, hwA1⟩ :=
    metricValueScore_bounds.2.2.2.1 "A" (by decide) vA (hvals "A" (by decide) vA hA)
  obtain ⟨wAV, hwAV, hwAV0, hwAV1⟩ :=
    metricValueScore_bounds.1 "AV" (by decide) vAV (hvals "AV" (by decide) vAV hAV)
  obtain ⟨wAC, hwAC, hwAC0, hwAC1⟩ :=
    metricValueScore_bounds.2.1 "AC" (by decide) vAC (hvals "AC" (by decide) vAC hAC)
  obtain ⟨wUI, hwUI, hwUI0, hwUI1⟩ :=
    metricValueScore_bounds.2.2.1 "UI" (by decide) vUI (hvals "UI" (by decide) vUI hUI)
  obtain ⟨wPR, hwPR, hwPR0, hwPR1⟩ :=
    priv_bounds vPR (hvals "PR" (by decide) vPR hPR) vS (hvals "S" (by decide) vS hS)
  have hgC : getMetricNumericValue "C" mp = some wC := by
    rw [getMetricNumericValue_plain "C" mp vC (by decide) (by decide) hC, hwC]
  have hgI : getMetricNumericValue "I" mp = some wI := by
    rw [getMetricNumericValue_plain "I" mp vI (by decide) (by decide) hI, hwI]
  have hgA : getMetricNumericValue "A" mp = some wA := by
    rw [getMetricNumericValue_plain "A" mp vA (by decide) (by decide) hA, hwA]
  have hgAV : getMetricNumericValue "AV" mp = some wAV := by
    rw [getMetricNumericValue_plain "AV" mp vAV (by decide) (by decide) hAV, hwAV]
  have hgAC : getMetricNumericValue "AC" mp = some wAC := by
    rw [getMetricNumericValue_plain "AC" mp vAC (by decide) (by decide) hAC, hwAC]
  have hgUI : getMetricNumericValue "UI" mp = some wUI := by
    rw [getMetricNumericValue_plain "UI" mp vUI (by decide) (by decide) hUI, hwUI]
  have hgPR : getMetricNumericValue "PR" mp = some wPR := by
    rw [getMetricNumericValue_PR mp vPR vS hPR hS, hwPR]
  have hiss : calculateIss mp = some (1 - (1 - wC) * (1 - wI) * (1 - wA)) := by
    rw [calculateIss, hgC, hgI, hgA]
    rfl
  have himp : ∃ x, calculateImpact mp (calculateIss mp) = some x := by
    rw [calculateImpact, hiss]
    by_cases hsU : getM mp "S" = some "U"
    · rw [if_pos hsU]
      exact ⟨_, rfl⟩
    · rw [if_neg hsU]
      exact ⟨_, rfl⟩
  have hexp : ∃ e2, calculateExploitability mp = some e2 ∧ 0 ≤ e2 := by
    rw [calculateExploitability, hgAV, hgAC, hgPR, hgUI]
    refine ⟨_, rfl, ?_⟩
    exact mul_nonneg (mul_nonneg (mul_nonneg (mul_nonneg (by norm_num) hwAV0)
      hwAC0) hwPR0) hwUI0
  obtain ⟨x, hx⟩ := himp
  obtain ⟨e2, he2, he20⟩ := hexp
  by_cases hle : jsLe (calculateImpact mp (calculateIss mp)) 0 = true
  · rw [if_pos hle]
    exact ⟨0, by norm_num, by norm_num⟩
  · rw [if_neg hle]
    have hxpos : 0 < x := by
      have hnle : ¬(x ≤ 0) := fun hc => hle (by
        rw [hx]
        simp only [jsLe]
        exact decide_eq_true hc)
      linarith
    by_cases hsU : getM mp "S" = some "U"
    · rw [if_pos hsU, hx, he2]
      rw [show jsMin (jsAdd (some x) (some e2)) 10 = some (min (x + e2) 10) from rfl]
      obtain ⟨k, hk, hr⟩ := roundUp_bounds (min (x + e2) 10)
        (le_min (by linarith) (by norm_num)) (min_le_right _ _)
      refine ⟨k, hk, ?_⟩
      rw [show roundUpOpt (some (min (x + e2) 10))
          = some (roundUp (min (x + e2) 10)) from rfl, hr]
    · rw [if_neg hsU, hx, he2]
      rw [show jsMin (jsMul (some (108/100)) (jsAdd (some x) (some e2))) 10
          = some (min (108/100 * (x + e2)) 10) from rfl]
      obtain ⟨k, hk, hr⟩ := roundUp_bounds (min (108/100 * (x + e2)) 10)
        (le_min (mul_nonneg (by norm_num) (by linarith)) (by norm_num))
        (min_le_right _ _)
      refine ⟨k, hk, ?_⟩
      rw [show roundUpOpt (some (min (108/100 * (x + e2)) 10))
          = some (roundUp (min (108/100 * (x + e2)) 10)) from rfl, hr]

/-- Range of the base score of `calculateBaseResult` on a validated vector. -/
theorem calculateBaseResult_score_range (s : String) (vr : VRes)
    (h : validate s = .ok vr)
    (hne : ∀ p ∈ parseMetricsAsMap s, p.2 ≠ "") :
    ∃ r : ScoreResult, calculateBaseResult s = .ok r ∧
      ∃ k : ℕ, k ≤ 100 ∧ r.score = some ((k : ℚ) / 10) := by
  obtain ⟨hmmEq, hmand, hvalsok⟩ := validate_ok_inv s vr h
  have hman := mandatory_present _ hmand
  have hvals : ∀ met ∈ allKnownMetrics, ∀ v, getM (parseMetricsAsMap s) met = some v →
      v ∈ allKnownMetricValues met := fun met hmet v hv =>
    values_allowed _ hvalsok met hmet v hv (hne (met, v) (getM_some_mem _ met v hv))
  obtain ⟨k, hk, hscore⟩ := base_score_expr_range (parseMetricsAsMap s) hman hvals
  rw [calculateBaseResult, h]
  simp only []
  refine ⟨_, rfl, k, hk, ?_⟩
  simp only []
  rw [hmmEq]
  exact hscore

/-! ### C6: range of the v3.x temporal score -/

/-- A product of a grid value with at most three sub-unit weights stays in
[0, 10]. -/
theorem temporal_product_bounds (b w1 w2 w3 : ℚ)
    (hb0 : 0 ≤ b) (hb1 : b ≤ 10)
    (h10 : 0 ≤ w1) (h11 : w1 ≤ 1) (h20 : 0 ≤ w2) (h21 : w2 ≤ 1)
    (h30 : 0 ≤ w3) (h31 : w3 ≤ 1) :
    0 ≤ b * w1 * w2 * w3 ∧ b * w1 * w2 * w3 ≤ 10 := by
  have p1 : 0 ≤ b * w1 := mul_nonneg hb0 h10
  have p2 : 0 ≤ b * w1 * w2 := mul_nonneg p1 h20
  have q1 : b * w1 ≤ b := mul_le_of_le_one_right hb0 h11
  have q2 : b * w1 * w2 ≤ b := le_trans (mul_le_of_le_one_right p1 h21) q1
  have q3 : b * w1 * w2 * w3 ≤ b := le_trans (mul_le_of_le_one_right p2 h31) q2
  exact ⟨mul_nonneg p2 h30, le_trans q3 hb1⟩

/-- Range of `calculateTemporalScore` on a validated vector. -/
theorem calculateTemporalScore_range (s : String) (vr : VRes)
    (h : validate s = .ok vr)
    (hne : ∀ p ∈ parseMetricsAsMap s, p.2 ≠ "") :
    ∃ k : ℕ, k ≤ 100 ∧ calculateTemporalScore s = .ok (some ((k : ℚ) / 10)) := by
  obtain ⟨hmmEq, hmand, hvalsok⟩ := validate_ok_inv s vr h
  have hvals : ∀ met ∈ allKnownMetrics, ∀ v, getM (parseMetricsAsMap s) met = some v →
      v ∈ allKnownMetricValues met := fun met hmet v hv =>
    values_allowed _ hvalsok met hmet v hv (hne (met, v) (getM_some_mem _ met v hv))
  obtain ⟨r, hrEq, kb, hkb, hrs⟩ := calculateBaseResult_score_range s vr h hne
  obtain ⟨⟨vE2, hE2, hEmem⟩, ⟨vRL2, hRL2, hRLmem⟩, ⟨vRC2, hRC2, hRCmem⟩⟩ :=
    temporal_values (parseMetricsAsMap s) hvals
  rw [← hmmEq] at hE2 hRL2 hRC2
  obtain ⟨wE, hwE, hwE0, hwE1⟩ := metricValueScore_bounds.2.2.2.2.1 vE2 hEmem
  obtain ⟨wRL, hwRL, hwRL0, hwRL1⟩ := metricValueScore_bounds.2.2.2.2.2.1 vRL2 hRLmem
  obtain ⟨wRC, hwRC, hwRC0, hwRC1⟩ := metricValueScore_bounds.2.2.2.2.2.2.1 vRC2 hRCmem
  have hgE : getMetricNumericValue "E" (populateTemporalMetricDefaults vr.metricsMap)
      = some wE := by
    rw [getMetricNumericValue_plain "E" _ vE2 (by decide) (by decide) hE2, hwE]
  have hgRL : getMetricNumericValue "RL" (populateTemporalMetricDefaults vr.metricsMap)
      = some wRL := by
    rw [getMetricNumericValue_plain "RL" _ vRL2 (by decide) (by decide) hRL2, hwRL]
  have hgRC : getMetricNumericValue "RC" (populateTemporalMetricDefaults vr.metricsMap)
      = some wRC := by
    rw [getMetricNumericValue_plain "RC" _ vRC2 (by decide) (by decide) hRC2, hwRC]
  have hb0 : 0 ≤ ((kb : ℚ) / 10) := by positivity
  have hb1 : ((kb : ℚ) / 10) ≤ 10 := by
    rw [div_le_iff₀ (by norm_num : (0:ℚ) < 10)]
    have hc : ((kb : ℚ)) ≤ 100 := by exact_mod_cast hkb
    linarith
  obtain ⟨hp0, hp1⟩ := temporal_product_bounds ((kb : ℚ) / 10) wRC wE wRL
    hb0 hb1 hwRC0 hwRC1 hwE0 hwE1 hwRL0 hwRL1
  obtain ⟨k, hk, hr⟩ := roundUp_bounds ((kb : ℚ) / 10 * wRC * wE * wRL) hp0 hp1
  refine ⟨k, hk, ?_⟩
  rw [calculateTemporalScore, calculateTemporalResult, h]
  simp only []
  rw [hrEq]
  simp only []
  rw [hrs, hgRC, hgE, hgRL]
  rw [show jsMul (jsMul (jsMul (some ((kb : ℚ) / 10)) (some wRC)) (some wE)) (some wRL)
      = some ((kb : ℚ) / 10 * wRC * wE * wRL) from rfl]
  rw [show roundUpOpt (some ((kb : ℚ) / 10 * wRC * wE * wRL))
      = some (roundUp ((kb : ℚ) / 10 * wRC * wE * wRL)) from rfl, hr]

/-! ### C6: range of the v3.x environmental score -/

/-- Range of `calculateEnvironmentalScore` on a validated vector. -/
theorem calculateEnvironmentalScore_range (s : String) (vr : VRes)
    (h : validate s = .ok vr)
    (hne : ∀ p ∈ parseMetricsAsMap s, p.2 ≠ "") :
    ∃ k : ℕ, k ≤ 100 ∧ calculateEnvironmentalScore s = .ok (some ((k : ℚ) / 10)) := by
  obtain ⟨hmmEq, hmand, hvalsok⟩ := validate_ok_inv s vr h
  have hman := mandatory_present _ hmand
  have hvals : ∀ met ∈ allKnownMetrics, ∀ v, getM (parseMetricsAsMap s) met = some v →
      v ∈ allKnownMetricValues met := fun met hmet v hv =>
    values_allowed _ hvalsok met hmet v hv (hne (met, v) (getM_some_mem _ met v hv))
  obtain ⟨⟨vE2, hE2, hEmem⟩, ⟨vRL2, hRL2, hRLmem⟩, ⟨vRC2, hRC2, hRCmem⟩,
    ⟨vCR2, hCR2, hCRmem⟩, ⟨vIR2, hIR2, hIRmem⟩, ⟨vAR2, hAR2, hARmem⟩,
    ⟨vMAV, hMAV, hMAVmem⟩, ⟨vMAC, hMAC, hMACmem⟩, ⟨vMPR, hMPR, hMPRmem⟩,
    ⟨vMUI, hMUI, hMUImem⟩, ⟨vMS, hMS, hMSmem⟩, ⟨vMC, hMC, hMCmem⟩,
    ⟨vMI, hMI, hMImem⟩, ⟨vMA, hMA, hMAmem⟩⟩ :=
    populated_values (parseMetricsAsMap s) hman hvals
  rw [← hmmEq] at hE2 hRL2 hRC2 hCR2 hIR2 hAR2 hMAV hMAC hMPR hMUI hMS hMC hMI hMA
  obtain ⟨wE, hwE, hwE0, hwE1⟩ := metricValueScore_bounds.2.2.2.2.1 vE2 hEmem
  obtain ⟨wRL, hwRL, hwRL0, hwRL1⟩ := metricValueScore_bounds.2.2.2.2.2.1 vRL2 hRLmem
  obtain ⟨wRC, hwRC, hwRC0, hwRC1⟩ := metricValueScore_bounds.2.2.2.2.2.2.1 vRC2 hRCmem
  obtain ⟨wCR, hwCR, hwCR0, hwCR1⟩ :=
    metricValueScore_bounds.2.2.2.2.2.2.2 "CR" (by decide) vCR2 hCRmem
  obtain ⟨wIR, hwIR, hwIR0, hwIR1⟩ :=
    metricValueScore_bounds.2.2.2.2.2.2.2 "IR" (by decide) vIR2 hIRmem
  obtain ⟨wAR, hwAR, hwAR0, hwAR1⟩ :=
    metricValueScore_bounds.2.2.2.2.2.2.2 "AR" (by decide) vAR2 hARmem
  obtain ⟨wMAV, hwMAV, hwMAV0, hwMAV1⟩ :=
    metricValueScore_bounds.1 "MAV" (by decide) vMAV hMAVmem
  obtain ⟨wMAC, hwMAC, hwMAC0, hwMAC1⟩ :=
    metricValueScore_bounds.2.1 "MAC" (by decide) vMAC hMACmem
  obtain ⟨wMUI, hwMUI, hwMUI0, hwMUI1⟩ :=
    metricValueScore_bounds.2.2.1 "MUI" (by decide) vMUI hMUImem
  obtain ⟨wMC, hwMC, hwMC0, hwMC1⟩ :=
    metricValueScore_bounds.2.2.2.1 "MC" (by decide) vMC hMCmem
  obtain ⟨wMI, hwMI, hwMI0, hwMI1⟩ :=
    metricValueScore_bounds.2.2.2.1 "MI" (by decide) vMI hMImem
  obtain ⟨wMA, hwMA, hwMA0, hwMA1⟩ :=
    metricValueScore_bounds.2.2.2.1 "MA" (by decide) vMA hMAmem
  obtain ⟨wMPR, hwMPR, hwMPR0, hwMPR1⟩ := priv_bounds vMPR hMPRmem vMS hMSmem
  have hgE : getMetricNumericValue "E" (populateEnvironmentalMetricDefaults
      (populateTemporalMetricDefaults vr.metricsMap)) = some wE := by
    rw [getMetricNumericValue_plain "E" _ vE2 (by decide) (by decide) hE2, hwE]
  have hgRL : getMetricNumericValue "RL" (populateEnvironmentalMetricDefaults
      (populateTemporalMetricDefaults vr.metricsMap)) = some wRL := by
    rw [getMetricNumericValue_plain "RL" _ vRL2 (by decide) (by decide) hRL2, hwRL]
  have hgRC : getMetricNumericValue "RC" (populateEnvironmentalMetricDefaults
      (populateTemporalMetricDefaults vr.metricsMap)) = some wRC := by
    rw [getMetricNumericValue_plain "RC" _ vRC2 (by decide) (by decide) hRC2, hwRC]
  have hgCR : getMetricNumericValue "CR" (populateEnvironmentalMetricDefaults
      (populateTemporalMetricDefaults vr.metricsMap)) = some wCR := by
    rw [getMetricNumericValue_plain "CR" _ vCR2 (by decide) (by decide) hCR2, hwCR]
  have hgIR : getMetricNumericValue "IR" (populateEnvironmentalMetricDefaults
      (populateTemporalMetricDefaults vr.metricsMap)) = some wIR := by
    rw [getMetricNumericValue_plain "IR" _ vIR2 (by decide) (by decide) hIR2, hwIR]
  have hgAR : getMetricNumericValue "AR" (populateEnvironmentalMetricDefaults
      (populateTemporalMetricDefaults vr.metricsMap)) = some wAR := by
    rw [getMetricNumericValue_plain "AR" _ vAR2 (by decide) (by decide) hAR2, hwAR]
  have hgMAV : getMetricNumericValue "MAV" (populateEnvironmentalMetricDefaults
      (populateTemporalMetricDefaults vr.metricsMap)) = some wMAV := by
    rw [getMetricNumericValue_plain "MAV" _ vMAV (by decide) (by decide) hMAV, hwMAV]
  have hgMAC : getMetricNumericValue "MAC" (populateEnvironmentalMetricDefaults
      (populateTemporalMetricDefaults vr.metricsMap)) = some wMAC := by
    rw [getMetricNumericValue_plain "MAC" _ vMAC (by decide) (by decide) hMAC, hwMAC]
  have hgMUI : getMetricNumericValue "MUI" (populateEnvironmentalMetricDefaults
      (populateTemporalMetricDefaults vr.metricsMap)) = some wMUI := by
    rw [getMetricNumericValue_plain "MUI" _ vMUI (by decide) (by decide) hMUI, hwMUI]
  have hgMC : getMetricNumericValue "MC" (populateEnvironmentalMetricDefaults
      (populateTemporalMetricDefaults vr.metricsMap)) = some wMC := by
    rw [getMetricNumericValue_plain "MC" _ vMC (by decide) (by decide) hMC, hwMC]
  have hgMI : getMetricNumericValue "MI" (populateEnvironmentalMetricDefaults
      (populateTemporalMetricDefaults vr.metricsMap)) = some wMI := by
    rw [getMetricNumericValue_plain "MI" _ vMI (by decide) (by decide) hMI, hwMI]
  have hgMA : getMetricNumericValue "MA" (populateEnvironmentalMetricDefaults
      (populateTemporalMetricDefaults vr.metricsMap)) = some wMA := by
    rw [getMetricNumericValue_plain "MA" _ vMA (by decide) (by decide) hMA, hwMA]
  have hgMPR : getMetricNumericValue "MPR" (populateEnvironmentalMetricDefaults
      (populateTemporalMetricDefaults vr.metricsMap)) = some wMPR := by
    rw [getMetricNumericValue_MPR _ vMPR vMS hMPR hMS, hwMPR]
  have hmiss : ∃ qm, calculateMiss (populateEnvironmentalMetricDefaults
      (populateTemporalMetricDefaults vr.metricsMap)) = some qm := by
    rw [calculateMiss, hgCR, hgMC, hgIR, hgMI, hgAR, hgMA]
    exact ⟨_, rfl⟩
  obtain ⟨qm, hqm⟩ := hmiss
  have himp : ∃ x, calculateModifiedImpact
      (populateEnvironmentalMetricDefaults (populateTemporalMetricDefaults vr.metricsMap))
      (calculateMiss (populateEnvironmentalMetricDefaults
        (populateTemporalMetricDefaults vr.metricsMap))) vr.versionStr = some x := by
    rw [calculateModifiedImpact, hqm]
    by_cases hsU : getM (populateEnvironmentalMetricDefaults
        (populateTemporalMetricDefaults vr.metricsMap)) "MS" = some "U"
    · rw [if_pos hsU]
      exact ⟨_, rfl⟩
    · rw [if_neg hsU]
      exact ⟨_, rfl⟩
  obtain ⟨x, hx⟩ := himp
  have hexp : ∃ e2, calculateModifiedExploitability
      (populateEnvironmentalMetricDefaults (populateTemporalMetricDefaults vr.metricsMap))
      = some e2 ∧ 0 ≤ e2 := by
    rw [calculateModifiedExploitability, hgMAV, hgMAC, hgMPR, hgMUI]
    refine ⟨_, rfl, ?_⟩
    exact mul_nonneg (mul_nonneg (mul_nonneg (mul_nonneg (by norm_num) hwMAV0)
      hwMAC0) hwMPR0) hwMUI0
  obtain ⟨e2, he2, he20⟩ := hexp
  by_cases hle : jsLe (calculateModifiedImpact
      (populateEnvironmentalMetricDefaults (populateTemporalMetricDefaults vr.metricsMap))
      (calculateMiss (populateEnvironmentalMetricDefaults
        (populateTemporalMetricDefaults vr.metricsMap))) vr.versionStr) 0 = true
  · refine ⟨0, by norm_num, ?_⟩
    rw [calculateEnvironmentalScore, calculateEnvironmentalResult, h]
    simp only []
    rw [if_pos hle]
    norm_num
  · have hxpos : 0 < x := by
      have hnle : ¬(x ≤ 0) := fun hc => hle (by
        rw [hx]
        simp only [jsLe]
        exact decide_eq_true hc)
      linarith
    by_cases hsU : getM (populateEnvironmentalMetricDefaults
        (populateTemporalMetricDefaults vr.metricsMap)) "MS" = some "U"
    · obtain ⟨ki, hki, hrI⟩ := roundUp_bounds (min (x + e2) 10)
        (le_min (by linarith) (by norm_num)) (min_le_right _ _)
      have hki0 : (0:ℚ) ≤ (ki : ℚ) / 10 := by positivity
      have hki1 : ((ki : ℚ)) / 10 ≤ 10 := by
        rw [div_le_iff₀ (by norm_num : (0:ℚ) < 10)]
        have hc : ((ki : ℚ)) ≤ 100 := by exact_mod_cast hki
        linarith
      obtain ⟨hp0, hp1⟩ := temporal_product_bounds ((ki : ℚ) / 10) wE wRL wRC
        hki0 hki1 hwE0 hwE1 hwRL0 hwRL1 hwRC0 hwRC1
      obtain ⟨k, hk, hrO⟩ := roundUp_bounds ((ki : ℚ) / 10 * wE * wRL * wRC) hp0 hp1
      refine ⟨k, hk, ?_⟩
      rw [calculateEnvironmentalScore, calculateEnvironmentalResult, h]
      simp only []
      rw [if_neg hle, if_pos hsU, hx, he2]
      rw [show jsMin (jsAdd (some x) (some e2)) 10 = some (min (x + e2) 10) from rfl]
      rw [show roundUpOpt (some (min (x + e2) 10))
          = some (roundUp (min (x + e2) 10)) from rfl, hrI]
      rw [hgE, hgRL, hgRC]
      rw [show jsMul (jsMul (jsMul (some ((ki : ℚ) / 10)) (some wE)) (some wRL)) (some wRC)
          = some ((ki : ℚ) / 10 * wE * wRL * wRC) from rfl]
      rw [show roundUpOpt (some ((ki : ℚ) / 10 * wE * wRL * wRC))
          = some (roundUp ((ki : ℚ) / 10 * wE * wRL * wRC)) from rfl, hrO]
    · obtain ⟨ki, hki, hrI⟩ := roundUp_bounds (min (108/100 * (x + e2)) 10)
        (le_min (mul_nonneg (by norm_num) (by linarith)) (by norm_num))
        (min_le_right _ _)
      have hki0 : (0:ℚ) ≤ (ki : ℚ) / 10 := by positivity
      have hki1 : ((ki : ℚ)) / 10 ≤ 10 := by
        rw [div_le_iff₀ (by norm_num : (0:ℚ) < 10)]
        have hc : ((ki : ℚ)) ≤ 100 := by exact_mod_cast hki
        linarith
      obtain ⟨hp0, hp1⟩ := temporal_product_bounds ((ki : ℚ) / 10) wE wRL wRC
        hki0 hki1 hwE0 hwE1 hwRL0 hwRL1 hwRC0 hwRC1
      obtain ⟨k, hk, hrO⟩ := roundUp_bounds ((ki : ℚ) / 10 * wE * wRL * wRC) hp0 hp1
      refine ⟨k, hk, ?_⟩
      rw [calculateEnvironmentalScore, calculateEnvironmentalResult, h]
      simp only []
      rw [if_neg hle, if_neg hsU, hx, he2]
      rw [show jsMin (jsMul (some (108/100)) (jsAdd (some x) (some e2))) 10
          = some (min (108/100 * (x + e2)) 10) from rfl]
      rw [show roundUpOpt (some (min (108/100 * (x + e2)) 10))
          = some (roundUp (min (108/100 * (x + e2)) 10)) from rfl, hrI]
      rw [hgE, hgRL, hgRC]
      rw [show jsMul (jsMul (jsMul (some ((ki : ℚ) / 10)) (some wE)) (some wRL)) (some wRC)
          = some ((ki : ℚ) / 10 * wE * wRL * wRC) from rfl]
      rw [show roundUpOpt (some ((ki : ℚ) / 10 * wE * wRL * wRC))
          = some (roundUp ((ki : ℚ) / 10 * wE * wRL * wRC)) from rfl, hrO]

/-! ### C6: claim theorem -/

theorem grid_le_ten (k : ℕ) (hk : k ≤ 100) : ((k : ℚ) / 10) ≤ 10 := by
  rw [div_le_iff₀ (by norm_num : (0:ℚ) < 10)]
  have hc : ((k : ℚ)) ≤ 100 := by exact_mod_cast hk
  linarith

theorem calculateBaseScoreV4_ok_inv (s : String) (q : Option ℚ)
    (h : calculateBaseScoreV4 s = .ok q) : ∃ out, validateVectorV4 s = .ok out := by
  rw [calculateBaseScoreV4] at h
  rcases hv : validateVectorV4 s with out | e
  · exact ⟨out, rfl⟩
  · rw [hv] at h
    cases h

theorem calculateBaseResult_ok_inv (s : String) (r : ScoreResult)
    (h : calculateBaseResult s = .ok r) : ∃ vr, validate s = .ok vr := by
  rw [calculateBaseResult] at h
  rcases hv : validate s with e | vr
  · rw [hv] at h
    cases h
  · exact ⟨vr, rfl⟩

theorem calculateTemporalScore_ok_inv (s : String) (x : Option ℚ)
    (h : calculateTemporalScore s = .ok x) : ∃ vr, validate s = .ok vr := by
  rw [calculateTemporalScore] at h
  rcases hr : calculateTemporalResult s with e | r
  · rw [hr] at h
    cases h
  · rw [calculateTemporalResult] at hr
    rcases hv : validate s with e2 | vr
    · rw [hv] at hr
      cases hr
    · exact ⟨vr, rfl⟩

theorem calculateEnvironmentalScore_ok_inv (s : String) (x : Option ℚ)
    (h : calculateEnvironmentalScore s = .ok x) : ∃ vr, validate s = .ok vr := by
  rw [calculateEnvironmentalScore] at h
  rcases hr : calculateEnvironmentalResult s with e | r
  · rw [hr] at h
    cases h
  · rw [calculateEnvironmentalResult] at hr
    rcases hv : validate s with e2 | vr
    · rw [hv] at hr
      cases hr
    · exact ⟨vr, rfl⟩

/-- C6: counterexample to the original claim.  The vector
`CVSS:3.1/AV:/AC:L/PR:H/UI:N/S:U/C:L/I:L/A:N` is accepted by `validate` —
the empty `AV` value is falsy, so `checkMetricsValues` skips it
(`if (!userValue) { return; }`) — yet the numeric pipeline propagates NaN
(`AV` has no weight), so `calculateBaseScore`, `calculateTemporalScore` and
`calculateEnvironmentalScore` all succeed with score `none` (NaN): a result
that is not a number in [0.0, 10.0] with one decimal digit at all. -/
theorem C6_counterexample_empty_value_nan :
    validate "CVSS:3.1/AV:/AC:L/PR:H/UI:N/S:U/C:L/I:L/A:N" =
      .ok { metricsMap := [("AV", ""), ("AC", "L"), ("PR", "H"), ("UI", "N"),
                           ("S", "U"), ("C", "L"), ("I", "L"), ("A", "N")]
            isTemporal := false
            isEnvironmental := false
            versionStr := some "3.1" } ∧
    calculateBaseScore "CVSS:3.1/AV:/AC:L/PR:H/UI:N/S:U/C:L/I:L/A:N" = .ok none ∧
    calculateTemporalScore "CVSS:3.1/AV:/AC:L/PR:H/UI:N/S:U/C:L/I:L/A:N" = .ok none ∧
    calculateEnvironmentalScore "CVSS:3.1/AV:/AC:L/PR:H/UI:N/S:U/C:L/I:L/A:N"
      = .ok none := by
  refine ⟨?_, ?_, ?_, ?_⟩ <;> with_unfolding_all rfl

/-- C6 (amended): for every vector accepted by the version-appropriate
validation, all of whose parsed metric values are non-empty (the validator
skips — rather than rejects — a falsy empty value such as the segment `AV:`,
and such a vector scores to NaN instead), the returned score is a number `q`
with `0 ≤ q ≤ 10` that is an exact integer multiple of 0.1 (one decimal
digit of precision).  This holds for every successful result of the
top-level `calculateBaseScore` dispatcher (v4.0 vectors via
`calculateBaseScoreV4`, v3.x vectors via `calculateBaseResult`), and of
`calculateTemporalScore` and `calculateEnvironmentalScore` (whose success
entails v3.x validation). -/
theorem C6_scores_on_grid_for_nonempty_values (s : String)
    (hne : ∀ p ∈ parseMetricsAsMap s, p.2 ≠ "") :
    (∀ x, calculateBaseScore s = .ok x →
      ∃ q : ℚ, x = some q ∧ 0 ≤ q ∧ q ≤ 10 ∧ ∃ k : ℕ, q = (k : ℚ) / 10) ∧
    (∀ x, calculateTemporalScore s = .ok x →
      ∃ q : ℚ, x = some q ∧ 0 ≤ q ∧ q ≤ 10 ∧ ∃ k : ℕ, q = (k : ℚ) / 10) ∧
    (∀ x, calculateEnvironmentalScore s = .ok x →
      ∃ q : ℚ, x = some q ∧ 0 ≤ q ∧ q ≤ 10 ∧ ∃ k : ℕ, q = (k : ℚ) / 10) := by
  refine ⟨?_, ?_, ?_⟩
  · intro x hx
    rw [calculateBaseScore] at hx
    rcases hd : detectCvssVersion s with e | ver
    · rw [hd] at hx
      cases hx
    · rw [hd] at hx
      simp only [] at hx
      by_cases h40 : ver = "4.0"
      · rw [if_pos h40] at hx
        rcases hv4 : calculateBaseScoreV4 s with e4 | q4
        · rw [hv4] at hx
          cases hx
        · rw [hv4] at hx
          simp only [] at hx
          cases hx
          obtain ⟨out, hout⟩ := calculateBaseScoreV4_ok_inv s x hv4
          obtain ⟨k, hk, hval⟩ := calculateBaseScoreV4_range s out hout
          rw [hv4] at hval
          cases hval
          exact ⟨(k : ℚ) / 10, rfl, by positivity, grid_le_ten k hk, ⟨k, rfl⟩⟩
      · rw [if_neg h40] at hx
        by_cases h31 : ver = "3.1"
        · rw [if_pos h31] at hx
          rcases hbr : calculateBaseResult s with e3 | r
          · rw [hbr] at hx
            cases hx
          · rw [hbr] at hx
            simp only [] at hx
            cases hx
            obtain ⟨vr, hval⟩ := calculateBaseResult_ok_inv s r hbr
            obtain ⟨r2, hr2, k, hk, hsc⟩ := calculateBaseResult_score_range s vr hval hne
            rw [hbr] at hr2
            cases hr2
            exact ⟨(k : ℚ) / 10, by rw [hsc], by positivity, grid_le_ten k hk, ⟨k, rfl⟩⟩
        · rw [if_neg h31] at hx
          cases hx
  · intro x hx
    obtain ⟨vr, hval⟩ := calculateTemporalScore_ok_inv s x hx
    obtain ⟨k, hk, hts⟩ := calculateTemporalScore_range s vr hval hne
    rw [hx] at hts
    cases hts
    exact ⟨(k : ℚ) / 10, rfl, by positivity, grid_le_ten k hk, ⟨k, rfl⟩⟩
  · intro x hx
    obtain ⟨vr, hval⟩ := calculateEnvironmentalScore_ok_inv s x hx
    obtain ⟨k, hk, hts⟩ := calculateEnvironmentalScore_range s vr hval hne
    rw [hx] at hts
    cases hts
    exact ⟨(k : ℚ) / 10, rfl, by positivity, grid_le_ten k hk, ⟨k, rfl⟩⟩

/-- Closed witness for `C6_scores_on_grid_for_nonempty_values`: concrete
v3.1 temporal and v4.0 base runs, with the non-empty-values hypothesis
discharged by evaluation. -/
theorem C6_witness :
    (∃ q : ℚ, (some ((81 : ℚ) / 10) : Option ℚ) = some q ∧ 0 ≤ q ∧ q ≤ 10 ∧
      ∃ k : ℕ, q = (k : ℚ) / 10) ∧
    (∃ q : ℚ, (some ((5 : ℚ)) : Option ℚ) = some q ∧ 0 ≤ q ∧ q ≤ 10 ∧
      ∃ k : ℕ, q = (k : ℚ) / 10) := by
  constructor
  · exact (C6_scores_on_grid_for_nonempty_values
      "CVSS:3.1/AV:N/AC:L/PR:N/UI:R/S:U/C:H/I:H/A:N" (by decide)).2.1
      (some (81/10)) (by with_unfolding_all rfl)
  · exact (C6_scores_on_grid_for_nonempty_values
      "CVSS:4.0/AV:N/AC:L/AT:N/PR:N/UI:N/VC:H/VI:H/VA:H/SC:N/SI:N/SA:N" (by decide)).1
      (some 5) (by with_unfolding_all rfl)

end Cvss
